import Mathlib

/-!
# ksys::phys::RigidBody — motion-type state machine, collision filter, invalid inputs, locks,
construction, freezing and deactivation

A shallow embedding of `src/KingSystem/Physics/RigidBody/physRigidBody.{h,cpp}`.

* The two flag words (`mFlags`, `mMotionFlags`) are `sead::TypedBitFlag<_, sead::Atomic<u32>>`;
  they are embedded as natural numbers manipulated with the same bitwise operations
  (`|=`, `&= ~`, `& != 0`), the complement being taken inside 32 bits.
* The Havok rigid body is embedded as the record `HkBody` holding the parts the
  embedded functions read or write.
* Calls to collaborators that live outside the file (the request manager, the contact
  system, and the member functions that are declared in the header but have no body in
  the source) are appended to the `calls` trace of the body; lock operations are appended
  to the `locks` trace.
* A `float` is embedded by its IEEE-754 binary32 bit pattern. A call through a null
  `mMotionAccessor` or a null `getEntityMotionAccessor()` makes the embedded function
  return `none`.
-/

namespace ksys.phys

/-! ## sead::BitFlag32 / sead::TypedBitFlag over a `u32` -/

namespace BitFlag32

/-- `isOn(mask)`: `(mBits & mask) != 0`. -/
def isOn (bits mask : Nat) : Bool := (bits &&& mask) != 0

/-- `isOff(mask)`: `!isOn(mask)`. -/
def isOff (bits mask : Nat) : Bool := !isOn bits mask

/-- `set(mask)`: `mBits |= mask`. -/
def set (bits mask : Nat) : Nat := bits ||| mask

/-- `reset(mask)`: `mBits &= ~mask`, the complement taken in 32 bits. -/
def reset (bits mask : Nat) : Nat := bits &&& (0xFFFFFFFF ^^^ mask)

/-- `change(mask, b)`: `set` when `b`, `reset` otherwise. -/
def change (bits mask : Nat) (b : Bool) : Nat := if b then set bits mask else reset bits mask

end BitFlag32

/-! ## Enumerations -/

/-- `ksys::phys::MotionType`. -/
inductive MotionType
  | Dynamic
  | Fixed
  | Keyframed
  | Unknown
  | Invalid
  deriving DecidableEq, Repr

/-- `ksys::phys::ContactLayerType`; `int(Entity) = 0`, `int(Sensor) = 1`. -/
inductive ContactLayerType
  | Entity
  | Sensor
  deriving DecidableEq, Repr

/-- `RigidBody::Type`. -/
inductive BodyType
  | _0
  | _1
  | _2
  | TerrainHeightField
  | _4
  | CharacterController
  | TeraMesh
  deriving DecidableEq, Repr

/-- `RigidBody::Flag`, one constructor per enumerator. -/
inductive Flag
  | IsSensor | UpdateRequested | _4 | _8 | _10 | _20 | _40 | HighQualityCollidable
  | UseSystemTimeFactor | _200 | _400 | _800 | _1000 | _2000 | _4000 | _8000
  | _10000 | FixedWithImpulsePreserved | Fixed | Frozen | _100000 | _200000 | _400000
  | _800000 | _1000000 | _2000000 | _4000000 | _8000000 | _10000000 | _20000000
  | _40000000 | _80000000
  deriving DecidableEq, Repr

/-- Bit position of a `RigidBody::Flag` enumerator (`Flag::X = 1 << bit`). -/
def Flag.bit : Flag → Nat
  | .IsSensor => 0 | .UpdateRequested => 1 | ._4 => 2 | ._8 => 3 | ._10 => 4 | ._20 => 5
  | ._40 => 6 | .HighQualityCollidable => 7 | .UseSystemTimeFactor => 8 | ._200 => 9
  | ._400 => 10 | ._800 => 11 | ._1000 => 12 | ._2000 => 13 | ._4000 => 14 | ._8000 => 15
  | ._10000 => 16 | .FixedWithImpulsePreserved => 17 | .Fixed => 18 | .Frozen => 19
  | ._100000 => 20 | ._200000 => 21 | ._400000 => 22 | ._800000 => 23 | ._1000000 => 24
  | ._2000000 => 25 | ._4000000 => 26 | ._8000000 => 27 | ._10000000 => 28
  | ._20000000 => 29 | ._40000000 => 30 | ._80000000 => 31

/-- Value of a `RigidBody::Flag` enumerator. -/
def Flag.val (f : Flag) : Nat := 1 <<< f.bit

/-- `RigidBody::MotionFlag`, one constructor per enumerator. -/
inductive MotionFlag
  | _1 | _2 | Dynamic | Keyframed | Fixed | DirtyTransform | DirtyLinearVelocity
  | DirtyAngularVelocity | DirtyMaxVelOrTimeFactor | DirtyMiscState | DirtyMass
  | DirtyCenterOfMassLocal | DirtyInertiaLocal | DirtyDampingOrGravityFactor | DirtyShape
  | _8000 | _10000 | _20000 | _40000 | _80000
  deriving DecidableEq, Repr

/-- Bit position of a `RigidBody::MotionFlag` enumerator. -/
def MotionFlag.bit : MotionFlag → Nat
  | ._1 => 0 | ._2 => 1 | .Dynamic => 2 | .Keyframed => 3 | .Fixed => 4 | .DirtyTransform => 5
  | .DirtyLinearVelocity => 6 | .DirtyAngularVelocity => 7 | .DirtyMaxVelOrTimeFactor => 8
  | .DirtyMiscState => 9 | .DirtyMass => 10 | .DirtyCenterOfMassLocal => 11
  | .DirtyInertiaLocal => 12 | .DirtyDampingOrGravityFactor => 13 | .DirtyShape => 14
  | ._8000 => 15 | ._10000 => 16 | ._20000 => 17 | ._40000 => 18 | ._80000 => 19

/-- Value of a `RigidBody::MotionFlag` enumerator. -/
def MotionFlag.val (f : MotionFlag) : Nat := 1 <<< f.bit

/-- `hkpCollidableQualityType`. -/
inductive hkpCollidableQualityType
  | INVALID | FIXED | KEYFRAMED | DEBRIS | DEBRIS_SIMPLE_TOI | MOVING | CRITICAL | BULLET
  | USER | CHARACTER | KEYFRAMED_REPORTING
  deriving DecidableEq, Repr

/-! ## The solver body -/

/-- The part of `hkpShape` that `resetCollisionFilterInfoForListShapes` inspects: a list
shape with the collision filter info of each child key, a MOPP tree wrapping a child
shape, or any other shape. -/
inductive HkShape
  | list (childFilterInfo : List Nat)
  | mopp (child : HkShape)
  | other
  deriving DecidableEq, Repr

/-- The parts of `hkpRigidBody` read or written by the embedded functions.
`motionType` is what `mRigidBodyAccessor.getMotionType()` reports for the body's
`hkpMotion` object, `deactivationEnabled` is what `isDeactivationEnabled()` reports and
`enableDeactivation` sets, and `responseModifierFlags` is `m_responseModifierFlags`. -/
structure HkBody where
  motionType : MotionType := MotionType.Dynamic
  qualityType : hkpCollidableQualityType := hkpCollidableQualityType.INVALID
  collisionFilterInfo : Nat := 0
  shape : Option HkShape := none
  solverData : Nat := 0
  deactivationEnabled : Bool := true
  responseModifierFlags : Nat := 0
  deriving DecidableEq, Repr

/-- Dynamic type of the object behind `mMotionAccessor`. -/
inductive MotionAccessorKind
  | Entity
  | Sensor
  deriving DecidableEq, Repr

/-- The object behind `mMotionAccessor` (`RigidBodyMotionEntity` or
`RigidBodyMotionSensor`). -/
structure MotionAccessor where
  kind : MotionAccessorKind
  deriving DecidableEq, Repr

/-! ## Floats, vectors and the objects a body refers to -/

/-- A `float`, given by its IEEE-754 binary32 bit pattern. -/
structure F32 where
  bits : Nat
  deriving DecidableEq, Repr

/-- `std::isnan`: all exponent bits set and a non-zero fraction. -/
def F32.isnan (x : F32) : Bool :=
  ((x.bits >>> 23) &&& 0xFF) == 0xFF && (x.bits &&& 0x7FFFFF) != 0

/-- `std::isinf`: all exponent bits set and a zero fraction. -/
def F32.isinf (x : F32) : Bool :=
  ((x.bits >>> 23) &&& 0xFF) == 0xFF && (x.bits &&& 0x7FFFFF) == 0

/-- The literal `0.0`. -/
def F32.zero : F32 := { bits := 0 }

/-- `sead::Vector3f`. -/
structure Vector3f where
  x : F32
  y : F32
  z : F32
  deriving DecidableEq, Repr

/-- `vec.e[i]` for `i` in `0..2`. -/
def Vector3f.e (vec : Vector3f) (i : Nat) : F32 :=
  match i with
  | 0 => vec.x
  | 1 => vec.y
  | _ => vec.z

/-- `sead::Matrix34f`, by its array `a` of twelve floats. -/
structure Matrix34f where
  a : List F32
  deriving DecidableEq, Repr

/-- The `UserTag` a body may point to through `mUserTag`. -/
structure UserTag where
  id : Nat
  deriving DecidableEq, Repr

/-- The part of a `SystemGroupHandler` that `physRigidBody.cpp` reads directly:
`getLayerType()` and `getIndex()`. -/
structure SystemGroupHandler where
  layerType : ContactLayerType
  index : Nat
  deriving DecidableEq, Repr

/-- Member functions of the motion accessor (`MotionAccessor`, `RigidBodyMotionEntity`)
that the embedded functions call to change the motion. -/
inductive AccessorCall
  | setPosition (position : Vector3f) (propagate_to_linked_motions : Bool)
  | setTransform (mtx : Matrix34f) (propagate_to_linked_motions : Bool)
  | setLinearVelocity (velocity : Vector3f) (epsilon : F32)
  | setAngularVelocity (velocity : Vector3f) (epsilon : F32)
  | applyLinearImpulse (impulse : Vector3f)
  | applyAngularImpulse (impulse : Vector3f)
  | applyPointImpulse (impulse : Vector3f) (point : Vector3f)
  | setMass (mass : F32)
  | setInertiaLocal (inertia : Vector3f)
  | setLinearDamping (value : F32)
  | setAngularDamping (value : F32)
  | freeze (freeze preserve_velocities preserve_max_impulse : Bool)
  | setTimeFactor (value : F32)
  | resetLinkedRigidBody
  | deregisterAllAccessors
  deriving DecidableEq, Repr

/-- Calls that leave `physRigidBody.cpp`. -/
inductive Call
  | pushRigidBody (layer_type : ContactLayerType)
  | registerRigidBodyForContactSystem
  | doChangeMotionType (x y : MotionType)
  | x_40
  | updateRigidBodyMotionExceptStateAndVel
  | accessor (c : AccessorCall)
  | userTag_m7 (code : Int)
  | x_8
  deriving DecidableEq, Repr

/-- Operations on the body mutex `mCS` and on the world lock of a layer type. -/
inductive LockOp
  | lockWorld (layer_type : ContactLayerType)
  | lockBody
  | unlockBody
  | unlockWorld (layer_type : ContactLayerType)
  deriving DecidableEq, Repr

/-- State of one `RigidBody`. The default values are the member initialisers of the
class. -/
structure RigidBody where
  mFlags : Nat := 0
  mMotionFlags : Nat := 0
  mContactMask : Nat := 0
  mHkBody : HkBody := {}
  mType : BodyType := BodyType._0
  mMotionAccessor : Option MotionAccessor := none
  mCollisionCount : Int := 0
  mUserTag : Option UserTag := none
  calls : List Call := []
  locks : List LockOp := []
  deriving DecidableEq, Repr

/-- The pieces used by `physRigidBody.cpp` whose bodies are not part of the source:
* `doChangeMotionType` and `x_40` are declared in `physRigidBody.h` (the former with the
  comment "calls a bunch of Havok world functions") and never defined; they are taken as
  arbitrary functions computing a new solver body from the current state of the rigid body.
  This is an assumption on the two members: it leaves out any write of theirs to the flag
  words. The properties proved with it are about the flag statements of `physRigidBody.cpp`
  itself; what the state is after the two members have run in earnest (whether a second
  `changeMotionType` finds the requested type, whether `DirtyShape` is raised) is not
  decided by this development;
* `updateRigidBodyMotionExceptStateAndVel` is a member of `RigidBodyMotionEntity`;
* `getLayer` and `getLayerSensor` are the layer decoders of `EntityCollisionFilterInfo`;
* the remaining fields are the constants, bit fields and helpers of `physDefines.h`, the
  virtual `makeCollisionFilterInfo` of the group handlers, queries of the physics
  `System`, the member functions of the motion accessor classes, the member `x_8` that is
  declared in `physRigidBody.h` and never defined, the Havok constant `MASS_SCALING` and
  the comparison `sead::Mathf::equalsEpsilon`. -/
structure Extern where
  doChangeMotionType : MotionType → MotionType → RigidBody → HkBody
  x_40 : RigidBody → HkBody
  updateRigidBodyMotionExceptStateAndVel : RigidBody → HkBody
  getLayer : Nat → Nat
  getLayerSensor : Nat → Nat
  /-- `ContactLayer::FirstSensor` (physDefines.h). -/
  FirstSensor : Nat
  /-- `ContactLayer::EntityRagdoll` (physDefines.h). -/
  EntityRagdoll : Nat
  /-- `getContactLayerType(layer)` (physDefines.h). -/
  getContactLayerType : Nat → ContactLayerType
  /-- Bit field `unk5` of `EntityCollisionFilterInfo`. -/
  unk5 : Nat → Bool
  /-- Bit field `unk30` of `EntityCollisionFilterInfo`. -/
  unk30 : Nat → Bool
  /-- Bit field `no_ground_collision` of `EntityCollisionFilterInfo`. -/
  no_ground_collision : Nat → Bool
  /-- Bit field `no_water_collision` of `EntityCollisionFilterInfo`. -/
  no_water_collision : Nat → Bool
  /-- Assignment `info.unk5 = value`. -/
  set_unk5 : Bool → Nat → Nat
  /-- Assignment `info.no_ground_collision.SetBit(value)`. -/
  set_no_ground_collision : Bool → Nat → Nat
  /-- Assignment `info.no_water_collision = value`. -/
  set_no_water_collision : Bool → Nat → Nat
  /-- `EntityCollisionFilterInfo::getGroundHit()`. -/
  getGroundHit : Nat → Nat
  /-- `sensorReceiverMaskSetLayer(layer, info)`. -/
  sensorReceiverMaskSetLayer : Nat → Nat → Nat
  /-- `makeEntityCollisionMask(layer, info)`. -/
  makeEntityCollisionMask : Nat → Nat → Nat
  /-- `EntityCollisionFilterInfo::make(layer, ground_hit).raw`. -/
  entityCollisionFilterInfoMake : Nat → Nat → Nat
  /-- `ReceiverMask::make(layer).raw`. -/
  receiverMaskMake : Nat → Nat
  /-- `handler->makeCollisionFilterInfo(info, layer, ground_hit)`. -/
  makeCollisionFilterInfo : SystemGroupHandler → Nat → Nat → Nat → Nat
  /-- `System::instance()->isPaused()`. -/
  isPaused : Bool
  /-- `RigidBodyRequestMgr::Config::isLinearVelocityTooHigh(velocity)`. -/
  isLinearVelocityTooHigh : Vector3f → Bool
  /-- What a member function of the motion accessor does to the state of the body. -/
  accessor : AccessorCall → RigidBody → RigidBody
  /-- The `bool` returned by the accessor's `setLinearVelocity` / `setAngularVelocity`. -/
  accessorReturn : AccessorCall → RigidBody → Bool
  /-- `getEntityMotionAccessor()->getMass()`. -/
  accessorGetMass : RigidBody → F32
  /-- `getEntityMotionAccessor()->getMassInv()`. -/
  accessorGetMassInv : RigidBody → F32
  /-- `getEntityMotionAccessor()->getInertiaLocal(inertia)`. -/
  accessorGetInertiaLocal : RigidBody → Vector3f
  /-- `getEntityMotionAccessor()->getLinearDamping()`. -/
  accessorGetLinearDamping : RigidBody → F32
  /-- `getEntityMotionAccessor()->getAngularDamping()`. -/
  accessorGetAngularDamping : RigidBody → F32
  /-- `hkpResponseModifier::Flags::MASS_SCALING` (Havok). -/
  MASS_SCALING : Nat
  /-- `setEntityCollisionMaskGroundHit(ground_hit, info)` (physDefines.h). -/
  setEntityCollisionMaskGroundHit : Nat → Nat → Nat
  /-- `sensorReceiverMaskSetLayer2(set, layer, info)` (physDefines.h). -/
  sensorReceiverMaskSetLayer2 : Bool → Nat → Nat → Nat
  /-- `ContactLayer::SensorCustomReceiver` (physDefines.h). -/
  SensorCustomReceiver : Nat
  /-- `ContactLayer::SensorNoHit` (physDefines.h). -/
  SensorNoHit : Nat
  /-- What `x_8(nullptr)`, declared in `physRigidBody.h` and never defined, does to the
  state of the body. -/
  x_8 : RigidBody → RigidBody
  /-- `System::instance()->getTimeFactor()`. -/
  systemTimeFactor : F32
  /-- `mMotionAccessor->getTimeFactor()`. -/
  accessorGetTimeFactor : RigidBody → F32
  /-- `sead::Mathf::equalsEpsilon(lhs, rhs, eps)`. -/
  equalsEpsilon : F32 → F32 → F32 → Bool
  /-- `accessor->hasFlag(RigidBodyMotionSensor::Flag::_400000)` on the sensor accessor. -/
  sensorHasFlag400000 : RigidBody → Bool
  /-- `accessor->getLinkedRigidBody() != nullptr` on the sensor accessor. -/
  hasLinkedRigidBody : RigidBody → Bool
  /-- `getEntityMotionAccessor()->hasFlag(RigidBodyMotionEntity::Flag::_2)`. -/
  entityHasFlag2 : RigidBody → Bool
  /-- Bit field `is_ground_hit_mask` of `EntityCollisionFilterInfo`: the filter word is a
  ground hit mask, not a normal entity mask. -/
  is_ground_hit_mask : Nat → Bool
  /-- `GroundHit::HitAll` (physDefines.h). -/
  HitAll : Nat
  /-- `makeEntityGroundHitMask(layer, mask)` (physDefines.h). -/
  makeEntityGroundHitMask : Nat → Nat → Nat

namespace RigidBody

/-! ## Flag accessors -/

/-- `hasFlag(flag)`: `mFlags.isOn(flag)`. -/
def hasFlag (b : RigidBody) (flag : Flag) : Bool := BitFlag32.isOn b.mFlags flag.val

/-- `getMotionFlags().isOn(flag)`. -/
def hasMotionFlag (b : RigidBody) (flag : MotionFlag) : Bool :=
  BitFlag32.isOn b.mMotionFlags flag.val

/-- `isFlag8Set()`: the locked-for-step condition. -/
def isFlag8Set (b : RigidBody) : Bool := BitFlag32.isOn b.mFlags Flag._8.val

/-- `isSensor()`. -/
def isSensor (b : RigidBody) : Bool := BitFlag32.isOn b.mFlags Flag.IsSensor.val

/-- `isEntity()`. -/
def isEntity (b : RigidBody) : Bool := !BitFlag32.isOn b.mFlags Flag.IsSensor.val

/-- `getLayerType()`. -/
def getLayerType (b : RigidBody) : ContactLayerType :=
  if isSensor b then ContactLayerType.Sensor else ContactLayerType.Entity

/-- `mFlags.set(flag)`. -/
def setFlag (flag : Flag) (b : RigidBody) : RigidBody :=
  { b with mFlags := BitFlag32.set b.mFlags flag.val }

/-- `mFlags.reset(flag)`. -/
def resetFlag (flag : Flag) (b : RigidBody) : RigidBody :=
  { b with mFlags := BitFlag32.reset b.mFlags flag.val }

/-- `mMotionFlags.set(flag)`. -/
def setMotionFlagDirect (flag : MotionFlag) (b : RigidBody) : RigidBody :=
  { b with mMotionFlags := BitFlag32.set b.mMotionFlags flag.val }

/-- `resetMotionFlagDirect(flag)`: `mMotionFlags.reset(flag)`. -/
def resetMotionFlagDirect (flag : MotionFlag) (b : RigidBody) : RigidBody :=
  { b with mMotionFlags := BitFlag32.reset b.mMotionFlags flag.val }

/-- Append a call to the trace of collaborators' calls. -/
def record (c : Call) (b : RigidBody) : RigidBody :=
  { b with calls := b.calls ++ [c] }

/-- Append an operation to the lock trace. -/
def recordLock (op : LockOp) (b : RigidBody) : RigidBody :=
  { b with locks := b.locks ++ [op] }

/-! ## Locking -/

/-- `lock(bool also_lock_world)`. -/
def lock (also_lock_world : Bool) (b : RigidBody) : RigidBody :=
  let b := if also_lock_world then recordLock (LockOp.lockWorld (getLayerType b)) b else b
  recordLock LockOp.lockBody b

/-- `unlock(bool also_unlock_world)`. -/
def unlock (also_unlock_world : Bool) (b : RigidBody) : RigidBody :=
  let b := recordLock LockOp.unlockBody b
  if also_unlock_world then recordLock (LockOp.unlockWorld (getLayerType b)) b else b

/-! ## setMotionFlag, getMotionType -/

/-- `RigidBody::setMotionFlag` (physRigidBody.cpp:223). -/
def setMotionFlag (flag : MotionFlag) (b : RigidBody) : RigidBody :=
  let b := recordLock LockOp.lockBody b
  let b := setMotionFlagDirect flag b
  let b :=
    if BitFlag32.isOff b.mFlags Flag._20.val && BitFlag32.isOff b.mFlags Flag.UpdateRequested.val
    then
      let b := setFlag Flag.UpdateRequested b
      record (Call.pushRigidBody (getLayerType b)) b
    else b
  recordLock LockOp.unlockBody b

/-- `RigidBody::getMotionType` (physRigidBody.cpp:361). -/
def getMotionType (b : RigidBody) : MotionType :=
  if hasMotionFlag b MotionFlag.Dynamic then MotionType.Dynamic
  else if hasMotionFlag b MotionFlag.Keyframed then MotionType.Keyframed
  else if hasMotionFlag b MotionFlag.Fixed then MotionType.Fixed
  else b.mHkBody.motionType

/-! ## replaceMotionObject -/

/-- `getEntityMotionAccessor()`: `sead::DynamicCast<RigidBodyMotionEntity>(mMotionAccessor)`,
null when there is no accessor or when it is a `RigidBodyMotionSensor`. -/
def getEntityMotionAccessor (b : RigidBody) : Option MotionAccessor :=
  match b.mMotionAccessor with
  | some a => if a.kind = MotionAccessorKind.Entity then some a else none
  | none => none

/-- `mHkBody->setQualityType(quality)`. -/
def setQualityType (quality : hkpCollidableQualityType) (b : RigidBody) : RigidBody :=
  { b with mHkBody := { b.mHkBody with qualityType := quality } }

/-- Placement construction of a new `hkpMotion` of the given type over the body's motion
storage, followed by `mHkBody->m_solverData = 0`. -/
def constructMotion (motion_type : MotionType) (b : RigidBody) : RigidBody :=
  { b with mHkBody := { b.mHkBody with motionType := motion_type, solverData := 0 } }

/-- `RigidBody::replaceMotionObject` (physRigidBody.cpp:371). The result is `none` when
the Dynamic branch dereferences a null `getEntityMotionAccessor()`. The motion state,
velocities and deactivation counters that the function saves and restores, and the
closing `setMotionState` / `updateCachedShapeInfo` / `setWorldSelectFlagsNeg` calls, act
on parts of the Havok body outside `HkBody`. -/
def replaceMotionObject (ext : Extern) (b : RigidBody) : Option RigidBody :=
  if hasMotionFlag b MotionFlag.Fixed then
    some (b |> constructMotion MotionType.Fixed
            |> setQualityType hkpCollidableQualityType.FIXED
            |> resetMotionFlagDirect MotionFlag.Fixed)
  else if hasMotionFlag b MotionFlag.Keyframed then
    let b := constructMotion MotionType.Keyframed b
    let is_entity := isEntity b
    some (b |> setQualityType
                (if is_entity && hasFlag b Flag.HighQualityCollidable
                 then hkpCollidableQualityType.MOVING
                 else hkpCollidableQualityType.KEYFRAMED_REPORTING)
            |> resetMotionFlagDirect MotionFlag.Keyframed)
  else if hasMotionFlag b MotionFlag.Dynamic then
    match getEntityMotionAccessor b with
    | none => none
    | some _ =>
      let b := record Call.updateRigidBodyMotionExceptStateAndVel
        { b with mHkBody := ext.updateRigidBodyMotionExceptStateAndVel b }
      some (b |> setQualityType
                  (if hasFlag b Flag.HighQualityCollidable
                   then hkpCollidableQualityType.BULLET
                   else hkpCollidableQualityType.DEBRIS_SIMPLE_TOI)
              |> resetMotionFlagDirect MotionFlag.Dynamic)
  else some b

/-! ## changeMotionType, triggerScheduledMotionTypeChange -/

/-- The call `doChangeMotionType(x, y)`. The member has no body in the source; it is taken
to write the solver body only (see `Extern`). -/
def doChangeMotionType (ext : Extern) (x y : MotionType) (b : RigidBody) : RigidBody :=
  record (Call.doChangeMotionType x y) { b with mHkBody := ext.doChangeMotionType x y b }

/-- The call `x_40()`. The member has no body in the source; it is taken to write the solver
body only (see `Extern`). -/
def x_40 (ext : Extern) (b : RigidBody) : RigidBody :=
  record Call.x_40 { b with mHkBody := ext.x_40 b }

/-- The closing statements of `RigidBody::changeMotionType` (physRigidBody.cpp:990-996),
reached on the immediate path after the `switch`. -/
def changeMotionTypeNow (ext : Extern) (motion_type : MotionType) (b : RigidBody) : RigidBody :=
  b |> doChangeMotionType ext motion_type (getMotionType b)
    |> setMotionFlagDirect MotionFlag.DirtyMass
    |> setMotionFlagDirect MotionFlag.DirtyInertiaLocal
    |> setMotionFlagDirect MotionFlag.DirtyMaxVelOrTimeFactor
    |> setMotionFlagDirect MotionFlag.DirtyDampingOrGravityFactor
    |> setMotionFlagDirect MotionFlag.DirtyCenterOfMassLocal
    |> x_40 ext

/-- `RigidBody::changeMotionType` (physRigidBody.cpp:943). -/
def changeMotionType (ext : Extern) (motion_type : MotionType) (b : RigidBody) : RigidBody :=
  if getMotionType b = motion_type then b
  else if isFlag8Set b then
    match motion_type with
    | MotionType.Dynamic =>
      if isEntity b then
        b |> setMotionFlag MotionFlag.Dynamic
          |> resetMotionFlagDirect MotionFlag.Fixed
          |> resetMotionFlagDirect MotionFlag.Keyframed
      else b
    | MotionType.Fixed =>
      b |> setMotionFlag MotionFlag.Fixed
        |> resetMotionFlagDirect MotionFlag.Dynamic
        |> resetMotionFlagDirect MotionFlag.Keyframed
    | MotionType.Keyframed =>
      b |> setMotionFlag MotionFlag.Keyframed
        |> resetMotionFlagDirect MotionFlag.Dynamic
        |> resetMotionFlagDirect MotionFlag.Fixed
    | MotionType.Unknown => b
    | MotionType.Invalid => b
  else
    match motion_type with
    | MotionType.Dynamic =>
      if !isEntity b then b
      else changeMotionTypeNow ext motion_type (setMotionFlagDirect MotionFlag.Dynamic b)
    | MotionType.Fixed =>
      changeMotionTypeNow ext motion_type (setMotionFlagDirect MotionFlag.Fixed b)
    | MotionType.Keyframed =>
      changeMotionTypeNow ext motion_type (setMotionFlagDirect MotionFlag.Keyframed b)
    | MotionType.Unknown => changeMotionTypeNow ext motion_type b
    | MotionType.Invalid => changeMotionTypeNow ext motion_type b

/-- `RigidBody::triggerScheduledMotionTypeChange` (physRigidBody.cpp:1029). -/
def triggerScheduledMotionTypeChange (ext : Extern) (b : RigidBody) : RigidBody :=
  if hasFlag b Flag._20000000 then
    resetFlag Flag._20000000 (changeMotionType ext MotionType.Keyframed b)
  else if hasFlag b Flag._40000000 then
    resetFlag Flag._40000000 (changeMotionType ext MotionType.Fixed b)
  else if hasFlag b Flag._80000000 then
    resetFlag Flag._80000000 (changeMotionType ext MotionType.Dynamic b)
  else b

/-! ## Collision filter info -/

/-- `RigidBody::getCollisionFilterInfo` (physRigidBody.cpp:674). -/
def getCollisionFilterInfo (b : RigidBody) : Nat := b.mHkBody.collisionFilterInfo

/-- `RigidBody::getContactLayer(EntityCollisionFilterInfo info)` (physRigidBody.cpp:655). -/
def getContactLayerOf (ext : Extern) (b : RigidBody) (info : Nat) : Nat :=
  if isSensor b then ext.getLayerSensor info else ext.getLayer info

/-- `RigidBody::getContactLayer()` (physRigidBody.cpp:651). -/
def getContactLayer (ext : Extern) (b : RigidBody) : Nat :=
  getContactLayerOf ext b (getCollisionFilterInfo b)

/-- `resetCollisionFilterInfoForListShapes` (physRigidBody.cpp:678): descend through MOPP
shapes; on a list shape set the filter info of every child key to `0xffffffff`. -/
def resetCollisionFilterInfoForListShapes : HkShape → HkShape
  | HkShape.list cs => HkShape.list (cs.map fun _ => 0xffffffff)
  | HkShape.mopp child => HkShape.mopp (resetCollisionFilterInfoForListShapes child)
  | HkShape.other => HkShape.other

/-- `mHkBody->setCollisionFilterInfo(info)`. -/
def hkSetCollisionFilterInfo (info : Nat) (b : RigidBody) : RigidBody :=
  { b with mHkBody := { b.mHkBody with collisionFilterInfo := info } }

/-- `RigidBody::setCollisionFilterInfo` (physRigidBody.cpp:701). -/
def setCollisionFilterInfo (ext : Extern) (info : Nat) (b : RigidBody) : RigidBody :=
  let current_layer := getContactLayer ext b
  let also_lock_world := isFlag8Set b
  let b := lock also_lock_world b
  let b :=
    if getCollisionFilterInfo b != info then
      let b :=
        if isFlag8Set b then
          if current_layer != getContactLayerOf ext b info
          then record Call.registerRigidBodyForContactSystem b
          else b
        else b
      let b := hkSetCollisionFilterInfo info b
      let b :=
        match b.mHkBody.shape with
        | some shape =>
          { b with mHkBody :=
              { b.mHkBody with shape := some (resetCollisionFilterInfoForListShapes shape) } }
        | none => b
      if isFlag8Set b then setMotionFlag MotionFlag._8000 b else b
    else b
  unlock also_lock_world b

end RigidBody

/-! ## sead::BitFlag32 bit operations -/

/-- `BitFlag32::makeMask(bit)`: `1u << bit`. The shift is undefined in C++ for a bit outside
`0..31`; the embedding answers the empty mask there. -/
def BitFlag32.makeMask (bit : Int) : Nat :=
  if 0 ≤ bit ∧ bit < 32 then 1 <<< bit.toNat else 0

/-- `BitFlag32::setBit(bit)`: `set(makeMask(bit))`. -/
def BitFlag32.setBit (bits : Nat) (bit : Int) : Nat :=
  BitFlag32.set bits (BitFlag32.makeMask bit)

/-- `BitFlag32::resetBit(bit)`: `reset(makeMask(bit))`. -/
def BitFlag32.resetBit (bits : Nat) (bit : Int) : Nat :=
  BitFlag32.reset bits (BitFlag32.makeMask bit)

/-- `int(type)` for a `ContactLayerType`. -/
def ContactLayerType.toInt : ContactLayerType → Int
  | ContactLayerType.Entity => 0
  | ContactLayerType.Sensor => 1

namespace RigidBody

/-! ## Contact mask -/

/-- `getLayerBit(layer, type)` (physRigidBody.cpp:568): `layer - FirstSensor * int(type)`. -/
def getLayerBit (ext : Extern) (layer : Nat) (type : ContactLayerType) : Int :=
  (layer : Int) - (ext.FirstSensor : Int) * type.toInt

/-- `RigidBody::addContactLayer` (physRigidBody.cpp:574). `assertLayerType` is a
`SEAD_ASSERT`, which has no effect on the state. -/
def addContactLayer (ext : Extern) (layer : Nat) (b : RigidBody) : RigidBody :=
  { b with mContactMask :=
      BitFlag32.setBit b.mContactMask (getLayerBit ext layer (getLayerType b)) }

/-- `RigidBody::removeContactLayer` (physRigidBody.cpp:579). -/
def removeContactLayer (ext : Extern) (layer : Nat) (b : RigidBody) : RigidBody :=
  { b with mContactMask :=
      BitFlag32.resetBit b.mContactMask (getLayerBit ext layer (getLayerType b)) }

/-! ## Ground and water collision -/

/-- `getEntityCollisionFilterInfo()` (physRigidBody.h:214). -/
def getEntityCollisionFilterInfo (b : RigidBody) : Nat := getCollisionFilterInfo b

/-- `RigidBody::isGroundCollisionEnabled` (physRigidBody.cpp:611). -/
def isGroundCollisionEnabled (ext : Extern) (b : RigidBody) : Bool :=
  if !isEntity b then false
  else
    let info := getEntityCollisionFilterInfo b
    let enabled := false
    let enabled := enabled || ext.unk5 info
    let enabled := enabled || ext.unk30 info
    let enabled := enabled || !ext.no_ground_collision info
    enabled

/-- `RigidBody::enableGroundCollision` (physRigidBody.cpp:596). -/
def enableGroundCollision (ext : Extern) (enabled : Bool) (b : RigidBody) : RigidBody :=
  if !isEntity b || isGroundCollisionEnabled ext b == enabled then b
  else if getContactLayer ext b == ext.EntityRagdoll then b
  else
    let current_info := getEntityCollisionFilterInfo b
    let info := current_info
    let info := ext.set_unk5 false info
    let info := ext.set_no_ground_collision (!enabled) info
    if current_info != info then setCollisionFilterInfo ext info b else b

/-- `RigidBody::isWaterCollisionEnabled` (physRigidBody.cpp:638). -/
def isWaterCollisionEnabled (ext : Extern) (b : RigidBody) : Bool :=
  if !isEntity b then false
  else
    let info := getEntityCollisionFilterInfo b
    let enabled := false
    let enabled := enabled || ext.unk30 info
    let enabled := enabled || !ext.no_water_collision info
    enabled

/-- `RigidBody::enableWaterCollision` (physRigidBody.cpp:624). -/
def enableWaterCollision (ext : Extern) (enabled : Bool) (b : RigidBody) : RigidBody :=
  if !isEntity b || isWaterCollisionEnabled ext b == enabled then b
  else if getContactLayer ext b == ext.EntityRagdoll then b
  else
    let current_info := getEntityCollisionFilterInfo b
    let info := current_info
    let info := ext.set_no_water_collision (!enabled) info
    if current_info != info then setCollisionFilterInfo ext info b else b

/-! ## Contact layer and group handler -/

/-- `RigidBody::setContactLayer` (physRigidBody.cpp:659). -/
def setContactLayer (ext : Extern) (layer : Nat) (b : RigidBody) : RigidBody :=
  if getLayerType b != ext.getContactLayerType layer then b
  else
    let current_info := getCollisionFilterInfo b
    let info := current_info
    let info :=
      if isSensor b then ext.sensorReceiverMaskSetLayer layer info
      else ext.makeEntityCollisionMask layer info
    if current_info != info then setCollisionFilterInfo ext info b else b

/-- `RigidBody::getGroundHitType` (physRigidBody.cpp:818); `{}` is the ground hit `0`. -/
def getGroundHitType (ext : Extern) (b : RigidBody) : Nat :=
  let info := getEntityCollisionFilterInfo b
  if !isEntity b then 0 else ext.getGroundHit info

/-- `RigidBody::setSystemGroupHandler` (physRigidBody.cpp:761); `none` is the null handler.
`SEAD_WARN` only logs. -/
def setSystemGroupHandler (ext : Extern) (handler : Option SystemGroupHandler)
    (b : RigidBody) : RigidBody :=
  let layer := getContactLayer ext b
  let ground_hit := getGroundHitType ext b
  let info := getCollisionFilterInfo b
  match handler with
  | some h =>
    if h.layerType = getLayerType b then
      setCollisionFilterInfo ext (ext.makeCollisionFilterInfo h info layer ground_hit) b
    else b
  | none =>
    if isEntity b then
      setCollisionFilterInfo ext (ext.entityCollisionFilterInfoMake layer ground_hit) b
    else
      setCollisionFilterInfo ext (ext.receiverMaskMake layer) b

/-- `RigidBody::setContactLayerAndHandler` (physRigidBody.cpp:742). -/
def setContactLayerAndHandler (ext : Extern) (layer : Nat)
    (handler : Option SystemGroupHandler) (b : RigidBody) : RigidBody :=
  b |> setContactLayer ext layer |> setSystemGroupHandler ext handler

/-! ## Invalid parameters -/

/-- `isVectorInvalid` (physRigidBody.cpp:30). -/
def isVectorInvalid (vec : Vector3f) : Bool :=
  [0, 1, 2].any fun i => (vec.e i).isnan

/-- `isMatrixInvalid` (physRigidBody.cpp:38). -/
def isMatrixInvalid (matrix : Matrix34f) : Bool :=
  matrix.a.any fun x => x.isnan

/-- `RigidBody::notifyUserTag` (physRigidBody.cpp:1724). -/
def notifyUserTag (code : Int) (b : RigidBody) : RigidBody :=
  match b.mUserTag with
  | some _ => record (Call.userTag_m7 code) b
  | none => b

/-- `RigidBody::onInvalidParameter` (physRigidBody.cpp:1715); the three reads through
`mRigidBodyAccessor` only fill local variables. -/
def onInvalidParameter (code : Int) (b : RigidBody) : RigidBody :=
  notifyUserTag code b

/-- A call of a member function of the motion accessor. -/
def callAccessor (ext : Extern) (c : AccessorCall) (b : RigidBody) : RigidBody :=
  record (Call.accessor c) (ext.accessor c b)

/-- `RigidBody::setPosition` (physRigidBody.cpp:842); `none` when the call goes through a
null `mMotionAccessor`. -/
def setPosition (ext : Extern) (position : Vector3f) (propagate_to_linked_motions : Bool)
    (b : RigidBody) : Option RigidBody :=
  if isVectorInvalid position then some (onInvalidParameter 0 b)
  else
    match b.mMotionAccessor with
    | none => none
    | some _ =>
      some (callAccessor ext (AccessorCall.setPosition position propagate_to_linked_motions) b)

/-- `RigidBody::setTransform` (physRigidBody.cpp:895). -/
def setTransform (ext : Extern) (mtx : Matrix34f) (propagate_to_linked_motions : Bool)
    (b : RigidBody) : Option RigidBody :=
  if isMatrixInvalid mtx then some (onInvalidParameter 0 b)
  else
    match b.mMotionAccessor with
    | none => none
    | some _ =>
      some (callAccessor ext (AccessorCall.setTransform mtx propagate_to_linked_motions) b)

/-- `RigidBody::setLinearVelocity` (physRigidBody.cpp:1042): the returned `bool` and the
new state. -/
def setLinearVelocity (ext : Extern) (velocity : Vector3f) (epsilon : F32)
    (b : RigidBody) : Option (Bool × RigidBody) :=
  if isVectorInvalid velocity then some (false, onInvalidParameter 0 b)
  else if isEntity b && ext.isLinearVelocityTooHigh velocity then
    some (false, onInvalidParameter 1 b)
  else
    match b.mMotionAccessor with
    | none => none
    | some _ =>
      some (ext.accessorReturn (AccessorCall.setLinearVelocity velocity epsilon) b,
        callAccessor ext (AccessorCall.setLinearVelocity velocity epsilon) b)

/-- `RigidBody::setAngularVelocity` (physRigidBody.cpp:1069). -/
def setAngularVelocity (ext : Extern) (velocity : Vector3f) (epsilon : F32)
    (b : RigidBody) : Option (Bool × RigidBody) :=
  if isVectorInvalid velocity then some (false, onInvalidParameter 0 b)
  else
    match b.mMotionAccessor with
    | none => none
    | some _ =>
      some (ext.accessorReturn (AccessorCall.setAngularVelocity velocity epsilon) b,
        callAccessor ext (AccessorCall.setAngularVelocity velocity epsilon) b)

/-- A call `getEntityMotionAccessor()->f(...)` that changes the motion; `none` when
`getEntityMotionAccessor()` is null. -/
def callEntityAccessor (ext : Extern) (c : AccessorCall) (b : RigidBody) :
    Option RigidBody :=
  match getEntityMotionAccessor b with
  | none => none
  | some _ => some (callAccessor ext c b)

/-- `RigidBody::applyLinearImpulse` (physRigidBody.cpp:1190). -/
def applyLinearImpulse (ext : Extern) (impulse : Vector3f) (b : RigidBody) :
    Option RigidBody :=
  if ext.isPaused then some b
  else if hasFlag b Flag._400 || hasFlag b Flag._40 then some b
  else if isVectorInvalid impulse then some (onInvalidParameter 0 b)
  else if isEntity b then callEntityAccessor ext (AccessorCall.applyLinearImpulse impulse) b
  else some b

/-- `RigidBody::applyAngularImpulse` (physRigidBody.cpp:1206). -/
def applyAngularImpulse (ext : Extern) (impulse : Vector3f) (b : RigidBody) :
    Option RigidBody :=
  if ext.isPaused then some b
  else if hasFlag b Flag._400 || hasFlag b Flag._40 then some b
  else if isVectorInvalid impulse then some (onInvalidParameter 0 b)
  else if isEntity b then callEntityAccessor ext (AccessorCall.applyAngularImpulse impulse) b
  else some b

/-- `RigidBody::applyPointImpulse` (physRigidBody.cpp:1222). -/
def applyPointImpulse (ext : Extern) (impulse point : Vector3f) (b : RigidBody) :
    Option RigidBody :=
  if ext.isPaused then some b
  else if hasFlag b Flag._400 || hasFlag b Flag._40 then some b
  else if isVectorInvalid impulse then some (onInvalidParameter 0 b)
  else if isVectorInvalid point then some (onInvalidParameter 0 b)
  else if isEntity b then
    callEntityAccessor ext (AccessorCall.applyPointImpulse impulse point) b
  else some b

/-! ## Entity-only properties -/

/-- `RigidBody::setMass` (physRigidBody.cpp:1243). -/
def setMass (ext : Extern) (mass : F32) (b : RigidBody) : Option RigidBody :=
  if !isEntity b then some b
  else callEntityAccessor ext (AccessorCall.setMass mass) b

/-- A call `getEntityMotionAccessor()->f()` that reads a value; `none` when
`getEntityMotionAccessor()` is null. -/
def readEntityAccessor {α : Type} (read : RigidBody → α) (b : RigidBody) : Option α :=
  match getEntityMotionAccessor b with
  | none => none
  | some _ => some (read b)

/-- `RigidBody::getMass` (physRigidBody.cpp:1249). -/
def getMass (ext : Extern) (b : RigidBody) : Option F32 :=
  if !isEntity b then some F32.zero
  else readEntityAccessor ext.accessorGetMass b

/-- `RigidBody::getMassInv` (physRigidBody.cpp:1255). -/
def getMassInv (ext : Extern) (b : RigidBody) : Option F32 :=
  if !isEntity b then some F32.zero
  else readEntityAccessor ext.accessorGetMassInv b

/-- `RigidBody::setInertiaLocal` (physRigidBody.cpp:1261). -/
def setInertiaLocal (ext : Extern) (inertia : Vector3f) (b : RigidBody) : Option RigidBody :=
  if !isEntity b then some b
  else callEntityAccessor ext (AccessorCall.setInertiaLocal inertia) b

/-- `RigidBody::getInertiaLocal` (physRigidBody.cpp:1267). -/
def getInertiaLocal (ext : Extern) (b : RigidBody) : Option Vector3f :=
  if isEntity b then readEntityAccessor ext.accessorGetInertiaLocal b
  else some { x := F32.zero, y := F32.zero, z := F32.zero }

/-- `RigidBody::setLinearDamping` (physRigidBody.cpp:1275). -/
def setLinearDamping (ext : Extern) (value : F32) (b : RigidBody) : Option RigidBody :=
  if !isEntity b then some b
  else callEntityAccessor ext (AccessorCall.setLinearDamping value) b

/-- `RigidBody::getLinearDamping` (physRigidBody.cpp:1281). -/
def getLinearDamping (ext : Extern) (b : RigidBody) : Option F32 :=
  if !isEntity b then some F32.zero
  else readEntityAccessor ext.accessorGetLinearDamping b

/-- `RigidBody::setAngularDamping` (physRigidBody.cpp:1287). -/
def setAngularDamping (ext : Extern) (value : F32) (b : RigidBody) : Option RigidBody :=
  if !isEntity b then some b
  else callEntityAccessor ext (AccessorCall.setAngularDamping value) b

/-- `RigidBody::getAngularDamping` (physRigidBody.cpp:1293). -/
def getAngularDamping (ext : Extern) (b : RigidBody) : Option F32 :=
  if !isEntity b then some F32.zero
  else readEntityAccessor ext.accessorGetAngularDamping b

/-! ## Collidable quality type -/

/-- `isCharacterControllerType()` (physRigidBody.h:405). -/
def isCharacterControllerType (b : RigidBody) : Bool :=
  b.mType == BodyType.CharacterController

/-- `RigidBody::setCollidableQualityType` (physRigidBody.cpp:564). -/
def setCollidableQualityType (quality : hkpCollidableQualityType) (b : RigidBody) :
    RigidBody :=
  { b with mHkBody := { b.mHkBody with qualityType := quality } }

/-- `mFlags.change(flag, value)`. -/
def changeFlag (flag : Flag) (value : Bool) (b : RigidBody) : RigidBody :=
  { b with mFlags := BitFlag32.change b.mFlags flag.val value }

/-- `RigidBody::updateCollidableQualityType` (physRigidBody.cpp:534). -/
def updateCollidableQualityType (high_quality : Bool) (b : RigidBody) : RigidBody :=
  let also_lock_world := isFlag8Set b
  let b := lock also_lock_world b
  let b :=
    if isCharacterControllerType b then
      b |> setCollidableQualityType hkpCollidableQualityType.CHARACTER
        |> setFlag Flag.HighQualityCollidable
    else
      let b :=
        match getMotionType b with
        | MotionType.Dynamic =>
          setCollidableQualityType
            (if high_quality then hkpCollidableQualityType.BULLET
             else hkpCollidableQualityType.DEBRIS_SIMPLE_TOI) b
        | MotionType.Fixed => setCollidableQualityType hkpCollidableQualityType.FIXED b
        | MotionType.Keyframed =>
          setCollidableQualityType
            (if isEntity b && high_quality then hkpCollidableQualityType.MOVING
             else hkpCollidableQualityType.KEYFRAMED_REPORTING) b
        | MotionType.Unknown => b
        | MotionType.Invalid => b
      changeFlag Flag.HighQualityCollidable high_quality b
  unlock also_lock_world b

end RigidBody

/-! ## Auxiliary definitions used to state the properties -/

/-- Number of pending motion-type flags (`MotionFlag::Dynamic`, `MotionFlag::Keyframed`,
`MotionFlag::Fixed`) that are set. -/
def RigidBody.pendingCount (b : RigidBody) : Nat :=
  (b.hasMotionFlag MotionFlag.Dynamic).toNat + (b.hasMotionFlag MotionFlag.Keyframed).toNat
    + (b.hasMotionFlag MotionFlag.Fixed).toNat

/-- Modelled from the spec: an instance of the collaborators whose bodies are missing from
the source, used to evaluate the functions on concrete bodies. `doChangeMotionType`
reconstructs the solver motion object as the target type, `x_40` is a hook that leaves the
solver body alone, `updateRigidBodyMotionExceptStateAndVel` rebuilds a dynamic motion, and
the contact layer is a five-bit index in the low bits of the filter word, sensor layers
starting at `0x20`. In the Entity layout bit 31 is the ground-hit mode select bit
(`is_ground_hit_mask`). When it is clear the ground hit is a four-bit value in bits 6 to 9,
written by `entityCollisionFilterInfoMake` and `setEntityCollisionMaskGroundHit` and read
by `getGroundHit`. When it is set the word is a ground hit mask, made by
`makeEntityGroundHitMask` with the mask in bits 8 to 23: it has no ground hit value, so
`getGroundHit` answers `HitAll` (the comment on `getGroundHitType` in `physRigidBody.h`)
and `setEntityCollisionMaskGroundHit` gives the word back; neither it nor
`makeEntityCollisionMask` write the select bit. In the Sensor layout the second receiver
layer is a flag in bit 10 and a five-bit index in bits 11 to 15. The other bit positions, the number of `EntityRagdoll` and
the values answered by the motion accessor are choices of this instance only: the source
does not give them, and every theorem that is not an evaluation holds for all instances. -/
def specExtern : Extern where
  doChangeMotionType := fun x _ b => { b.mHkBody with motionType := x }
  x_40 := fun b => b.mHkBody
  updateRigidBodyMotionExceptStateAndVel :=
    fun b => { b.mHkBody with motionType := MotionType.Dynamic }
  getLayer := fun info => info % 32
  getLayerSensor := fun info => info % 32 + 32
  FirstSensor := 0x20
  EntityRagdoll := 5
  getContactLayerType := fun layer =>
    if layer < 0x20 then ContactLayerType.Entity else ContactLayerType.Sensor
  unk5 := fun info => info.testBit 5
  unk30 := fun info => info.testBit 30
  no_ground_collision := fun info => info.testBit 24
  no_water_collision := fun info => info.testBit 25
  set_unk5 := fun v info => BitFlag32.change info (1 <<< 5) v
  set_no_ground_collision := fun v info => BitFlag32.change info (1 <<< 24) v
  set_no_water_collision := fun v info => BitFlag32.change info (1 <<< 25) v
  getGroundHit := fun info => if info.testBit 31 then 0 else (info >>> 6) % 16
  sensorReceiverMaskSetLayer := fun layer info => (info - info % 32) + (layer - 0x20) % 32
  makeEntityCollisionMask := fun layer info => (info - info % 32) + layer % 32
  entityCollisionFilterInfoMake := fun layer ground_hit => layer % 32 + (ground_hit % 16) * 64
  receiverMaskMake := fun layer => (layer - 0x20) % 32
  makeCollisionFilterInfo := fun handler _ layer ground_hit =>
    layer % 32 + (ground_hit % 16) * 64 + (handler.index % 1024) * 65536
  isPaused := false
  isLinearVelocityTooHigh := fun _ => false
  accessor := fun _ b => b
  accessorReturn := fun _ _ => true
  accessorGetMass := fun _ => F32.zero
  accessorGetMassInv := fun _ => F32.zero
  accessorGetInertiaLocal := fun _ => { x := F32.zero, y := F32.zero, z := F32.zero }
  accessorGetLinearDamping := fun _ => F32.zero
  accessorGetAngularDamping := fun _ => F32.zero
  MASS_SCALING := 1
  setEntityCollisionMaskGroundHit := fun ground_hit info =>
    if info.testBit 31 then info
    else (info - ((info / 64) % 16) * 64) + (ground_hit % 16) * 64
  sensorReceiverMaskSetLayer2 := fun set layer info =>
    (info - ((info / 1024) % 64) * 1024)
      + (if set then 1024 + ((layer - 0x20) % 32) * 2048 else 0)
  SensorCustomReceiver := 0x3F
  SensorNoHit := 0x20
  x_8 := fun b => b
  systemTimeFactor := { bits := 0x3F800000 }
  accessorGetTimeFactor := fun _ => { bits := 0x3F800000 }
  equalsEpsilon := fun lhs rhs _ => lhs == rhs
  sensorHasFlag400000 := fun _ => false
  hasLinkedRigidBody := fun _ => false
  entityHasFlag2 := fun _ => false
  is_ground_hit_mask := fun info => info.testBit 31
  HitAll := 0
  makeEntityGroundHitMask := fun layer mask =>
    0x80000000 + (mask % 0x10000) * 256 + layer % 32

/-- A sensor body that is locked-for-step (`Flag::_8`) with a fixed solver motion. -/
def lockedSensorFixed : RigidBody :=
  { mFlags := Flag.IsSensor.val ||| Flag._8.val
    mHkBody := { motionType := MotionType.Fixed }
    mMotionAccessor := some { kind := MotionAccessorKind.Sensor } }

/-- An entity body that is locked-for-step (`Flag::_8`) with a dynamic solver motion and no
pending motion-type flag. -/
def lockedEntityDynamic : RigidBody :=
  { mFlags := Flag._8.val
    mHkBody := { motionType := MotionType.Dynamic }
    mMotionAccessor := some { kind := MotionAccessorKind.Entity } }

/-- An entity body that is locked-for-step, whose solver motion is fixed and for which a
change to Dynamic is pending. -/
def lockedEntityFixedPendingDynamic : RigidBody :=
  { mFlags := Flag._8.val
    mMotionFlags := MotionFlag.Dynamic.val
    mHkBody := { motionType := MotionType.Fixed }
    mMotionAccessor := some { kind := MotionAccessorKind.Entity } }

/-- An entity body that is not locked-for-step, whose solver motion is keyframed and for
which a change to Dynamic is pending. -/
def unlockedEntityPendingDynamic : RigidBody :=
  { mMotionFlags := MotionFlag.Dynamic.val
    mHkBody := { motionType := MotionType.Keyframed }
    mMotionAccessor := some { kind := MotionAccessorKind.Entity } }

/-- An entity body that is not locked-for-step, with a dynamic solver motion, no flag set
and collision filter word `0`. -/
def unlockedEntityDynamic : RigidBody :=
  { mHkBody := { motionType := MotionType.Dynamic }
    mMotionAccessor := some { kind := MotionAccessorKind.Entity } }

/-- An entity body that is not locked-for-step, with a fixed solver motion, on which both
`Flag::_20000000` and `Flag::_80000000` are set. -/
def scheduledKeyframedAndDynamic : RigidBody :=
  { mFlags := Flag._20000000.val ||| Flag._80000000.val
    mHkBody := { motionType := MotionType.Fixed }
    mMotionAccessor := some { kind := MotionAccessorKind.Entity } }

/-- An entity body that is locked-for-step, with collision filter word `0` and a list shape
with two children. -/
def lockedEntityListShape : RigidBody :=
  { mFlags := Flag._8.val
    mHkBody := { motionType := MotionType.Dynamic, shape := some (HkShape.list [5, 7]) }
    mMotionAccessor := some { kind := MotionAccessorKind.Entity } }

/-- A `float` NaN (quiet NaN, `0x7FC00000`). -/
def F32.quietNaN : F32 := { bits := 0x7FC00000 }

/-- The `float` +Inf (`0x7F800000`). -/
def F32.posInf : F32 := { bits := 0x7F800000 }

/-- The `float` -Inf (`0xFF800000`). -/
def F32.negInf : F32 := { bits := 0xFF800000 }

/-- The `float` 1.0 (`0x3F800000`). -/
def F32.one : F32 := { bits := 0x3F800000 }

/-- The vector (NaN, 0, 0). -/
def nanVector : Vector3f := { x := F32.quietNaN, y := F32.zero, z := F32.zero }

/-- The vector (+Inf, 0, 1). -/
def infVector : Vector3f := { x := F32.posInf, y := F32.zero, z := F32.one }

/-- The vector (1, 0, 1). -/
def finiteVector : Vector3f := { x := F32.one, y := F32.zero, z := F32.one }

/-- A matrix whose twelve entries are 0 except for one -Inf. -/
def infMatrix : Matrix34f :=
  { a := [F32.one, F32.zero, F32.zero, F32.negInf, F32.zero, F32.one, F32.zero, F32.zero,
          F32.zero, F32.zero, F32.one, F32.zero] }

/-- An entity body, not locked-for-step, whose contact mask has bit 0 set. -/
def entityContactMaskBit0 : RigidBody :=
  { mContactMask := 1
    mHkBody := { motionType := MotionType.Dynamic }
    mMotionAccessor := some { kind := MotionAccessorKind.Entity } }

/-- An entity body, not locked-for-step, with an entity motion accessor and a user tag. -/
def entityWithUserTag : RigidBody :=
  { mHkBody := { motionType := MotionType.Dynamic }
    mMotionAccessor := some { kind := MotionAccessorKind.Entity }
    mUserTag := some { id := 1 } }

/-- An entity body, not locked-for-step, whose collision filter word is `5`: under
`specExtern` its contact layer is `EntityRagdoll` and ground and water collision are
enabled. -/
def entityRagdoll : RigidBody :=
  { mHkBody := { motionType := MotionType.Dynamic, collisionFilterInfo := 5 }
    mMotionAccessor := some { kind := MotionAccessorKind.Entity } }

/-- A sensor body, not locked-for-step, with a sensor motion accessor and a user tag. -/
def sensorWithUserTag : RigidBody :=
  { mFlags := Flag.IsSensor.val
    mHkBody := { motionType := MotionType.Fixed, collisionFilterInfo := 3 }
    mMotionAccessor := some { kind := MotionAccessorKind.Sensor }
    mUserTag := some { id := 2 } }

/-- A group handler for sensor layers. -/
def sensorGroupHandler : SystemGroupHandler :=
  { layerType := ContactLayerType.Sensor, index := 7 }

/-- An entity body of type `CharacterController`, with `HighQualityCollidable` set as the
constructor does for that type, the collidable quality `CHARACTER`, a dynamic solver motion
and a pending change to Fixed. -/
def characterControllerPendingFixed : RigidBody :=
  { mFlags := Flag.HighQualityCollidable.val ||| Flag.UseSystemTimeFactor.val
    mMotionFlags := MotionFlag.Fixed.val
    mType := BodyType.CharacterController
    mHkBody := { motionType := MotionType.Dynamic
                 qualityType := hkpCollidableQualityType.CHARACTER }
    mMotionAccessor := some { kind := MotionAccessorKind.Entity } }

/-! ## Operations on the freeze, deactivation and scheduling flags -/

/-- The `float` `sead::Mathf::epsilon()` (`FLT_EPSILON`, `0x34000000`), the default
`epsilon` argument of `setLinearVelocity` and `setAngularVelocity`. -/
def F32.epsilon : F32 := { bits := 0x34000000 }

/-- The `float` nearest to `0.001` (`0x3A83126F`). -/
def F32.milli : F32 := { bits := 0x3A83126F }

/-- The comparison `x != 0.0` on a `float`: false exactly for `+0.0` and `-0.0`. -/
def F32.isNonZero (x : F32) : Bool := x.bits % 0x80000000 != 0

/-- The vector `sead::Vector3f::zero`. -/
def Vector3f.zero : Vector3f := { x := F32.zero, y := F32.zero, z := F32.zero }

/-- Conversion of an integer to `int`, wrapping modulo `2^32`. -/
def wrapInt32 (x : Int) : Int := (x + 2147483648) % 4294967296 - 2147483648

namespace RigidBody

/-- `mHkBody->enableDeactivation(enable)`, as far as `isDeactivationEnabled()` tells. -/
def enableDeactivation (enable : Bool) (b : RigidBody) : RigidBody :=
  { b with mHkBody := { b.mHkBody with deactivationEnabled := enable } }

/-- The constructor `RigidBody::RigidBody` (physRigidBody.cpp:46). The members start from
their initialisers (`mFlags{}` is the empty word), `mHkBody` and `mType` from the
arguments. The name, the user data, the saved motion, the time factor of the motion state
and the allowed penetration depth that the constructor also writes are outside `HkBody`. -/
def construct (ext : Extern) (type : BodyType) (layer_type : ContactLayerType)
    (hk_body : HkBody) (a7 : Bool) : RigidBody :=
  let b : RigidBody := { mHkBody := hk_body, mType := type }
  let b := enableDeactivation true b
  let b :=
    if BitFlag32.isOff b.mFlags Flag.IsSensor.val then
      { b with mHkBody :=
          { b.mHkBody with
            responseModifierFlags := b.mHkBody.responseModifierFlags ||| ext.MASS_SCALING } }
    else b
  let b := changeFlag Flag.HighQualityCollidable (isCharacterControllerType b) b
  let b := changeFlag Flag.IsSensor (layer_type == ContactLayerType.Sensor) b
  let b := changeFlag Flag._10 a7 b
  setFlag Flag.UseSystemTimeFactor b

/-- `RigidBody::freeze` (physRigidBody.cpp:482); `none` when a call goes through a null
`mMotionAccessor`. -/
def freeze (ext : Extern) (should_freeze preserve_velocities preserve_max_impulse : Bool)
    (b : RigidBody) : Option RigidBody :=
  if hasFlag b Flag.Frozen == should_freeze then
    if should_freeze then
      match setLinearVelocity ext Vector3f.zero F32.epsilon b with
      | none => none
      | some (_, b) =>
        match setAngularVelocity ext Vector3f.zero F32.epsilon b with
        | none => none
        | some (_, b) => some b
    else some b
  else
    match b.mMotionAccessor with
    | none => some (changeFlag Flag.Frozen should_freeze b)
    | some _ =>
      if should_freeze then
        some (b |> callAccessor ext
                     (AccessorCall.freeze true preserve_velocities preserve_max_impulse)
                |> setFlag Flag.Frozen)
      else
        some (b |> resetFlag Flag.Frozen
                |> callAccessor ext
                     (AccessorCall.freeze false preserve_velocities preserve_max_impulse))

/-- `RigidBody::setFixedAndPreserveImpulse` (physRigidBody.cpp:505). -/
def setFixedAndPreserveImpulse (ext : Extern) (fixed mark_linear_vel_as_dirty : Bool)
    (b : RigidBody) : Option RigidBody :=
  let b :=
    if hasFlag b Flag.FixedWithImpulsePreserved != fixed then
      let b := changeFlag Flag.FixedWithImpulsePreserved fixed b
      if !fixed && mark_linear_vel_as_dirty then
        setMotionFlag MotionFlag.DirtyLinearVelocity b
      else b
    else b
  freeze ext (hasFlag b Flag.FixedWithImpulsePreserved || hasFlag b Flag.Fixed) true true b

/-- `RigidBody::setFixed` (physRigidBody.cpp:516). -/
def setFixed (ext : Extern) (fixed preserve_velocities : Bool) (b : RigidBody) :
    Option RigidBody :=
  let b :=
    if hasFlag b Flag.Fixed != fixed then
      let b := changeFlag Flag.Fixed fixed b
      if !fixed then
        b |> setMotionFlag MotionFlag.DirtyLinearVelocity |> setMotionFlag MotionFlag._40000
      else b
    else b
  freeze ext (hasFlag b Flag.FixedWithImpulsePreserved || hasFlag b Flag.Fixed)
    preserve_velocities false b

/-- `RigidBody::updateDeactivation` (physRigidBody.cpp:1729). -/
def updateDeactivation (b : RigidBody) : RigidBody :=
  if BitFlag32.isOn b.mFlags Flag._2000000.val || BitFlag32.isOn b.mFlags Flag._4000000.val
      || BitFlag32.isOn b.mFlags Flag._8000000.val then
    if b.mHkBody.deactivationEnabled then enableDeactivation false b else b
  else if !b.mHkBody.deactivationEnabled then enableDeactivation true b
  else b

/-- `RigidBody::clearFlag2000000` (physRigidBody.cpp:1562). -/
def clearFlag2000000 (clear : Bool) (b : RigidBody) : RigidBody :=
  if BitFlag32.isOff b.mFlags Flag._2000000.val == clear then b
  else
    let b := changeFlag Flag._2000000 (!clear) b
    if isFlag8Set b then setMotionFlag MotionFlag._10000 b else updateDeactivation b

/-- `RigidBody::clearFlag4000000` (physRigidBody.cpp:1574). -/
def clearFlag4000000 (clear : Bool) (b : RigidBody) : RigidBody :=
  if BitFlag32.isOff b.mFlags Flag._4000000.val == clear then b
  else
    let b := changeFlag Flag._4000000 (!clear) b
    if isFlag8Set b then setMotionFlag MotionFlag._10000 b else updateDeactivation b

/-- `RigidBody::clearFlag8000000` (physRigidBody.cpp:1586). -/
def clearFlag8000000 (clear : Bool) (b : RigidBody) : RigidBody :=
  if BitFlag32.isOff b.mFlags Flag._8000000.val == clear then b
  else
    let b := changeFlag Flag._8000000 (!clear) b
    if isFlag8Set b then setMotionFlag MotionFlag._10000 b else updateDeactivation b

/-- `RigidBody::onCollisionAdded` (physRigidBody.h:449). `sead::Atomic<int>::increment`
adds one and returns the value from before the addition. -/
def onCollisionAdded (b : RigidBody) : RigidBody :=
  let previous := b.mCollisionCount
  let b := { b with mCollisionCount := wrapInt32 (previous + 1) }
  if previous == 0 then clearFlag4000000 false b else b

/-- `RigidBody::onCollisionRemoved` (physRigidBody.h:455). `sead::Atomic<int>::decrement`
subtracts one and returns the value from before the subtraction. -/
def onCollisionRemoved (b : RigidBody) : RigidBody :=
  let previous := b.mCollisionCount
  let b := { b with mCollisionCount := wrapInt32 (previous - 1) }
  if previous == 1 then clearFlag4000000 true b else b

/-- `RigidBody::updateMotionTypeRelatedFlags` (physRigidBody.cpp:999). -/
def updateMotionTypeRelatedFlags (b : RigidBody) : RigidBody :=
  if hasFlag b Flag._20000000 || hasFlag b Flag._80000000 || hasFlag b Flag._40000000 then b
  else
    match getMotionType b with
    | MotionType.Dynamic =>
      b |> setFlag Flag._80000000 |> resetFlag Flag._20000000 |> resetFlag Flag._40000000
    | MotionType.Fixed =>
      b |> setFlag Flag._40000000 |> resetFlag Flag._20000000 |> resetFlag Flag._80000000
    | MotionType.Keyframed =>
      b |> setFlag Flag._20000000 |> resetFlag Flag._40000000 |> resetFlag Flag._80000000
    | MotionType.Unknown =>
      b |> resetFlag Flag._20000000 |> resetFlag Flag._40000000 |> resetFlag Flag._80000000
    | MotionType.Invalid =>
      b |> resetFlag Flag._20000000 |> resetFlag Flag._40000000 |> resetFlag Flag._80000000

/-! ## Ground hit type and the second receiver layer -/

/-- `RigidBody::setSensorReceiverLayer2` (physRigidBody.cpp:721). The results of the two
`isSensor()` calls are discarded. -/
def setSensorReceiverLayer2 (ext : Extern) (layer : Nat) (b : RigidBody) : RigidBody :=
  let info := ext.sensorReceiverMaskSetLayer2 true layer (getCollisionFilterInfo b)
  setCollisionFilterInfo ext info b

/-- `RigidBody::clearSensorReceiverLayer2` (physRigidBody.cpp:728). -/
def clearSensorReceiverLayer2 (ext : Extern) (b : RigidBody) : RigidBody :=
  if !isSensor b then b
  else if getContactLayer ext b == ext.SensorCustomReceiver then b
  else
    let info :=
      ext.sensorReceiverMaskSetLayer2 false ext.SensorNoHit (getCollisionFilterInfo b)
    setCollisionFilterInfo ext info b

/-! ## x_0, x_6, x_10 -/

/-- `RigidBody::getSensorMotionAccessor` (physRigidBody.cpp:314). -/
def getSensorMotionAccessor (b : RigidBody) : Option MotionAccessor :=
  if !isSensor b then none
  else
    match b.mMotionAccessor with
    | none => none
    | some a => if a.kind = MotionAccessorKind.Sensor then some a else none

/-- `RigidBody::resetLinkedRigidBody` (physRigidBody.cpp:329). -/
def resetLinkedRigidBody (ext : Extern) (b : RigidBody) : RigidBody :=
  match getSensorMotionAccessor b with
  | none => b
  | some _ => callAccessor ext AccessorCall.resetLinkedRigidBody b

/-- `RigidBody::setTimeFactor` (physRigidBody.cpp:1311): the returned `bool` and the new
state; `none` when a call goes through a null `getEntityMotionAccessor()`. -/
def setTimeFactor (ext : Extern) (value : F32) (b : RigidBody) : Option (Bool × RigidBody) :=
  match b.mMotionAccessor with
  | none => some (false, b)
  | some _ =>
    let current_time_factor := ext.accessorGetTimeFactor b
    if ext.equalsEpsilon current_time_factor value F32.milli then some (false, b)
    else if hasFlag b Flag.Frozen then some (false, b)
    else
      let b := callAccessor ext (AccessorCall.setTimeFactor value) b
      if value.isNonZero && current_time_factor.isNonZero && isEntity b then
        match getLinearDamping ext b with
        | none => none
        | some linear_damping =>
          match setLinearDamping ext linear_damping b with
          | none => none
          | some b =>
            match getAngularDamping ext b with
            | none => none
            | some angular_damping =>
              match setAngularDamping ext angular_damping b with
              | none => none
              | some b => some (true, b)
      else some (true, b)

/-- The closing statements of `RigidBody::x_0` (physRigidBody.cpp:215-220). -/
def x_0_motionFlags (b : RigidBody) : RigidBody :=
  if hasMotionFlag b MotionFlag._2 then
    b |> resetMotionFlagDirect MotionFlag._2 |> setMotionFlagDirect MotionFlag._1
  else if !hasMotionFlag b MotionFlag._1 then setMotionFlag MotionFlag._1 b
  else b

/-- `RigidBody::x_0` (physRigidBody.cpp:198), with the scoped lock taken at the start and
released on every return; `none` when a call goes through a null pointer, which
`sead::DynamicCast<RigidBodyMotionSensor>` answers for an accessor of the other class. -/
def x_0 (ext : Extern) (b : RigidBody) : Option RigidBody :=
  let b := lock false b
  match b.mMotionAccessor with
  | none => some (unlock false (x_0_motionFlags b))
  | some _ =>
    let use_system_time_factor := hasFlag b Flag.UseSystemTimeFactor
    match setTimeFactor ext
        (if use_system_time_factor then ext.systemTimeFactor else F32.one) b with
    | none => none
    | some (_, b) =>
      if isSensor b then
        match b.mMotionAccessor with
        | none => none
        | some accessor =>
          if accessor.kind = MotionAccessorKind.Sensor then
            if ext.sensorHasFlag400000 b then some (unlock false b)
            else some (unlock false (x_0_motionFlags b))
          else none
      else some (unlock false (x_0_motionFlags b))

/-- The statements of `RigidBody::x_6` and `RigidBody::x_10` that deregister the accessors
of an entity body or reset the linked body of a sensor body (physRigidBody.cpp:287-299 and
456-468), with the `bool` that tells whether they did; `none` when `hasFlag` is called on a
null `getEntityMotionAccessor()`. -/
def resetAccessorLinks (ext : Extern) (b : RigidBody) : Option (Bool × RigidBody) :=
  if isSensor b then
    match getSensorMotionAccessor b with
    | none => some (false, b)
    | some _ =>
      if ext.hasLinkedRigidBody b then
        some (true, b |> resetFlag Flag._20 |> resetLinkedRigidBody ext)
      else some (false, b)
  else
    match b.mMotionAccessor with
    | none => some (false, b)
    | some _ =>
      match getEntityMotionAccessor b with
      | none => none
      | some _ =>
        if ext.entityHasFlag2 b then
          some (true, b |> resetFlag Flag._20
                        |> callAccessor ext AccessorCall.deregisterAllAccessors)
        else some (false, b)

/-- `RigidBody::x_6` (physRigidBody.cpp:264): the returned `bool` and the new state. -/
def x_6 (ext : Extern) (b : RigidBody) : Option (Bool × RigidBody) :=
  let b := lock false b
  let result := true
  let (result, b) :=
    if isFlag8Set b then
      let b := resetFlag Flag._20 b
      let b :=
        if hasMotionFlag b MotionFlag._1 then
          b |> resetMotionFlagDirect MotionFlag._1 |> setMotionFlagDirect MotionFlag._2
        else b
      (false, setMotionFlag MotionFlag._2 b)
    else if hasFlag b Flag.UpdateRequested then
      (false, record (Call.pushRigidBody (getLayerType b)) b)
    else (result, b)
  match resetAccessorLinks ext b with
  | none => none
  | some (did_reset, b) =>
    some (result && !did_reset, b |> setFlag Flag._20 |> setFlag Flag._4 |> unlock false)

/-- `RigidBody::x_10` (physRigidBody.cpp:453). -/
def x_10 (ext : Extern) (b : RigidBody) : Option RigidBody :=
  let also_lock_world := isFlag8Set b
  let b := lock also_lock_world b
  match resetAccessorLinks ext b with
  | none => none
  | some (_, b) =>
    let b := b |> setFlag Flag._20 |> setFlag Flag._4
    let b := record Call.x_8 (ext.x_8 b)
    some (unlock also_lock_world b)

end RigidBody

/-- The collaborators that are missing from the source and write to the rigid body, namely
the member functions of the motion accessor and `x_8`, leave every attribute flag other
than `UpdateRequested` as it is and do not replace the motion accessor. `UpdateRequested`
is left out because `setMotionFlag`, which the accessor may call, sets it. -/
structure Extern.KeepsFlags (ext : Extern) : Prop where
  accessor_hasFlag : ∀ c b g, g ≠ Flag.UpdateRequested →
    RigidBody.hasFlag (ext.accessor c b) g = RigidBody.hasFlag b g
  accessor_mMotionAccessor : ∀ c b, (ext.accessor c b).mMotionAccessor = b.mMotionAccessor
  x_8_hasFlag : ∀ b g, g ≠ Flag.UpdateRequested →
    RigidBody.hasFlag (ext.x_8 b) g = RigidBody.hasFlag b g

/-! ## Definitions used to state the properties of the freeze, deactivation and filter
operations -/

/-- The solver's deactivation is enabled exactly when none of `Flag::_2000000`,
`Flag::_4000000`, `Flag::_8000000` is set. -/
def RigidBody.deactivationMatchesFlags (b : RigidBody) : Bool :=
  b.mHkBody.deactivationEnabled
    == !(b.hasFlag Flag._2000000 || b.hasFlag Flag._4000000 || b.hasFlag Flag._8000000)

/-- A call of `onCollisionAdded` or of `onCollisionRemoved`. -/
inductive CollisionEvent
  | added
  | removed
  deriving DecidableEq, Repr

/-- The call named by a `CollisionEvent`. -/
def RigidBody.applyCollisionEvent (e : CollisionEvent) (b : RigidBody) : RigidBody :=
  match e with
  | CollisionEvent.added => b.onCollisionAdded
  | CollisionEvent.removed => b.onCollisionRemoved

/-- A sequence of `onCollisionAdded` / `onCollisionRemoved` calls, first call first. -/
def RigidBody.applyCollisionEvents (es : List CollisionEvent) (b : RigidBody) : RigidBody :=
  es.foldl (fun b e => b.applyCollisionEvent e) b

/-- The collision count is not below zero at the start and after each call of the
sequence. -/
def RigidBody.countStaysNonNegative : List CollisionEvent → RigidBody → Bool
  | [], b => decide (0 ≤ b.mCollisionCount)
  | e :: es, b =>
    decide (0 ≤ b.mCollisionCount) && countStaysNonNegative es (b.applyCollisionEvent e)

/-- The bit fields of `EntityCollisionFilterInfo` used by the ground and water collision
switches are independent fields of one word: reading a field after an assignment to it
gives the assigned value, and an assignment to one field leaves the others as they are. -/
structure Extern.BitFieldLaws (ext : Extern) : Prop where
  unk5_set_unk5 : ∀ v w, ext.unk5 (ext.set_unk5 v w) = v
  unk30_set_unk5 : ∀ v w, ext.unk30 (ext.set_unk5 v w) = ext.unk30 w
  unk5_set_no_ground_collision :
    ∀ v w, ext.unk5 (ext.set_no_ground_collision v w) = ext.unk5 w
  unk30_set_no_ground_collision :
    ∀ v w, ext.unk30 (ext.set_no_ground_collision v w) = ext.unk30 w
  no_ground_collision_set : ∀ v w,
    ext.no_ground_collision (ext.set_no_ground_collision v w) = v
  unk30_set_no_water_collision :
    ∀ v w, ext.unk30 (ext.set_no_water_collision v w) = ext.unk30 w
  no_water_collision_set : ∀ v w,
    ext.no_water_collision (ext.set_no_water_collision v w) = v

/-- A body without a motion accessor on which `Flag::Frozen` is set. -/
def frozenWithoutAccessor : RigidBody :=
  { mFlags := Flag.Frozen.val
    mHkBody := { motionType := MotionType.Dynamic } }

/-- A solver body as handed to the constructor, with no response-modifier flag set. -/
def freshHkBody : HkBody :=
  { motionType := MotionType.Dynamic, deactivationEnabled := false }

/-- An entity body, not locked-for-step, whose filter word has only bit 30 set: under
`specExtern` its contact layer is `0`, the `unk30` override bit is set, and ground and
water collision are not disabled. -/
def entityUnk30 : RigidBody :=
  { mHkBody := { motionType := MotionType.Dynamic, collisionFilterInfo := 0x40000000 }
    mMotionAccessor := some { kind := MotionAccessorKind.Entity } }

/-- A sensor body, not locked-for-step, whose filter word is `31`: under `specExtern` its
contact layer is `SensorCustomReceiver`. -/
def sensorCustomReceiver : RigidBody :=
  { mFlags := Flag.IsSensor.val
    mHkBody := { motionType := MotionType.Fixed, collisionFilterInfo := 31 }
    mMotionAccessor := some { kind := MotionAccessorKind.Sensor } }

/-! ## Bit-level facts about the flag words -/

namespace BitFlag32

theorem isOn_two_pow (bits i : Nat) : isOn bits (2 ^ i) = bits.testBit i := by
  unfold isOn
  cases h : bits.testBit i
  · have hz : bits &&& 2 ^ i = 0 := by
      apply Nat.eq_of_testBit_eq
      intro j
      rw [Nat.testBit_and, Nat.testBit_two_pow, Nat.zero_testBit]
      by_cases hij : i = j
      · subst hij; simp [h]
      · simp [hij]
    simp [hz]
  · have hb : (bits &&& 2 ^ i).testBit i = true := by
      rw [Nat.testBit_and, Nat.testBit_two_pow_self, h]; rfl
    have hnz : bits &&& 2 ^ i ≠ 0 := by
      intro h0; rw [h0, Nat.zero_testBit] at hb; exact Bool.noConfusion hb
    simp [hnz]

theorem isOn_set_two_pow (bits i j : Nat) :
    isOn (set bits (2 ^ i)) (2 ^ j) = (decide (i = j) || isOn bits (2 ^ j)) := by
  rw [isOn_two_pow, isOn_two_pow, set, Nat.testBit_or, Nat.testBit_two_pow, Bool.or_comm]

theorem isOn_reset_two_pow (bits i j : Nat) (hj : j < 32) :
    isOn (reset bits (2 ^ i)) (2 ^ j) = (!decide (i = j) && isOn bits (2 ^ j)) := by
  have h32 : (0xFFFFFFFF : Nat) = 2 ^ 32 - 1 := by norm_num
  rw [isOn_two_pow, isOn_two_pow, reset, Nat.testBit_and, Nat.testBit_xor, Nat.testBit_two_pow,
    h32, Nat.testBit_two_pow_sub_one]
  simp [hj, Bool.and_comm]

end BitFlag32

theorem Flag.attr_bit_lt (f : Flag) : f.bit < 32 := by
  cases f <;> decide

theorem Flag.attr_bit_inj (f g : Flag) : f.bit = g.bit ↔ f = g := by
  constructor
  · cases f <;> cases g <;> first | (intro _; rfl) | (intro h; exact absurd h (by decide))
  · intro h; rw [h]

theorem Flag.attr_val_eq (f : Flag) : f.val = 2 ^ f.bit := Nat.one_shiftLeft _

@[simp] theorem Flag.attr_isOn_set (bits : Nat) (f g : Flag) :
    BitFlag32.isOn (BitFlag32.set bits f.val) g.val
      = (decide (f = g) || BitFlag32.isOn bits g.val) := by
  rw [Flag.attr_val_eq, Flag.attr_val_eq, BitFlag32.isOn_set_two_pow]
  simp [Flag.attr_bit_inj]

@[simp] theorem Flag.attr_isOn_reset (bits : Nat) (f g : Flag) :
    BitFlag32.isOn (BitFlag32.reset bits f.val) g.val
      = (!decide (f = g) && BitFlag32.isOn bits g.val) := by
  rw [Flag.attr_val_eq, Flag.attr_val_eq, BitFlag32.isOn_reset_two_pow _ _ _ g.attr_bit_lt]
  simp [Flag.attr_bit_inj]

theorem MotionFlag.motion_bit_lt (f : MotionFlag) : f.bit < 32 := by
  cases f <;> decide

theorem MotionFlag.motion_bit_inj (f g : MotionFlag) : f.bit = g.bit ↔ f = g := by
  constructor
  · cases f <;> cases g <;> first | (intro _; rfl) | (intro h; exact absurd h (by decide))
  · intro h; rw [h]

theorem MotionFlag.motion_val_eq (f : MotionFlag) : f.val = 2 ^ f.bit := Nat.one_shiftLeft _

@[simp] theorem MotionFlag.motion_isOn_set (bits : Nat) (f g : MotionFlag) :
    BitFlag32.isOn (BitFlag32.set bits f.val) g.val
      = (decide (f = g) || BitFlag32.isOn bits g.val) := by
  rw [MotionFlag.motion_val_eq, MotionFlag.motion_val_eq, BitFlag32.isOn_set_two_pow]
  simp [MotionFlag.motion_bit_inj]

@[simp] theorem MotionFlag.motion_isOn_reset (bits : Nat) (f g : MotionFlag) :
    BitFlag32.isOn (BitFlag32.reset bits f.val) g.val
      = (!decide (f = g) && BitFlag32.isOn bits g.val) := by
  rw [MotionFlag.motion_val_eq, MotionFlag.motion_val_eq,
    BitFlag32.isOn_reset_two_pow _ _ _ g.motion_bit_lt]
  simp [MotionFlag.motion_bit_inj]

/-! ## Field-level description of `setMotionFlag` -/

namespace RigidBody

theorem setMotionFlag_eq (flag : MotionFlag) (b : RigidBody) :
    setMotionFlag flag b =
      { b with
        mMotionFlags := BitFlag32.set b.mMotionFlags flag.val
        mFlags :=
          if hasFlag b Flag._20 = false ∧ hasFlag b Flag.UpdateRequested = false
          then BitFlag32.set b.mFlags Flag.UpdateRequested.val else b.mFlags
        calls := b.calls ++
          (if hasFlag b Flag._20 = false ∧ hasFlag b Flag.UpdateRequested = false
           then [Call.pushRigidBody (getLayerType b)] else [])
        locks := b.locks ++ [LockOp.lockBody, LockOp.unlockBody] } := by
  by_cases h : hasFlag b Flag._20 = false ∧ hasFlag b Flag.UpdateRequested = false
  · have h1 := h.1
    have h2 := h.2
    simp only [hasFlag] at h1 h2
    simp [setMotionFlag, hasFlag, h1, h2, BitFlag32.isOff, setMotionFlagDirect, recordLock,
      record, setFlag, getLayerType, isSensor]
  · have h3 : ¬ (BitFlag32.isOn b.mFlags Flag._20.val = false
        ∧ BitFlag32.isOn b.mFlags Flag.UpdateRequested.val = false) := h
    simp [setMotionFlag, hasFlag, BitFlag32.isOff, setMotionFlagDirect, recordLock,
      record, setFlag, getLayerType, isSensor, h3]

/-! ## C1 — the deferred path of `changeMotionType` -/

/-- C1, as stated, fails: on a Sensor body that is locked-for-step and whose motion type is
Fixed, `changeMotionType(Dynamic)` takes the locked branch but the `isEntity()` guard
skips the flag update, so the pending-Dynamic flag is not set and the state is unchanged. -/
theorem changeMotionType_deferred_sensor_dynamic_counterexample :
    isFlag8Set lockedSensorFixed = true
    ∧ MotionType.Dynamic ≠ getMotionType lockedSensorFixed
    ∧ hasMotionFlag (changeMotionType specExtern MotionType.Dynamic lockedSensorFixed)
        MotionFlag.Dynamic = false
    ∧ changeMotionType specExtern MotionType.Dynamic lockedSensorFixed = lockedSensorFixed := by
  decide

/-- C1 (amended): for a body that is locked-for-step and a target `T` in
{Dynamic, Keyframed, Fixed} different from `getMotionType()`: if `T` is Dynamic and the body
is a Sensor the call changes nothing; otherwise (an Entity body, or `T` Keyframed or Fixed)
the call takes the deferred path: afterwards the pending flag of `T` is set and the two
other pending flags are clear, every other motion flag (the resync dirty flags among them)
is as before, the solver body is untouched, and the only call that may have been made is the
push on the request queue (neither `doChangeMotionType` nor `x_40`). -/
theorem changeMotionType_deferred (ext : Extern) (b : RigidBody) (T : MotionType)
    (hlock : isFlag8Set b = true)
    (hT : T = MotionType.Dynamic ∨ T = MotionType.Keyframed ∨ T = MotionType.Fixed)
    (hne : T ≠ getMotionType b) :
    (T = MotionType.Dynamic ∧ isEntity b = false → changeMotionType ext T b = b)
    ∧ (T ≠ MotionType.Dynamic ∨ isEntity b = true →
        hasMotionFlag (changeMotionType ext T b) MotionFlag.Dynamic
          = decide (T = MotionType.Dynamic)
        ∧ hasMotionFlag (changeMotionType ext T b) MotionFlag.Keyframed
          = decide (T = MotionType.Keyframed)
        ∧ hasMotionFlag (changeMotionType ext T b) MotionFlag.Fixed
          = decide (T = MotionType.Fixed)
        ∧ (∀ f : MotionFlag, f ≠ MotionFlag.Dynamic → f ≠ MotionFlag.Keyframed →
            f ≠ MotionFlag.Fixed →
            hasMotionFlag (changeMotionType ext T b) f = hasMotionFlag b f)
        ∧ (changeMotionType ext T b).mHkBody = b.mHkBody
        ∧ (changeMotionType ext T b).calls = b.calls ++
            (if hasFlag b Flag._20 = false ∧ hasFlag b Flag.UpdateRequested = false
             then [Call.pushRigidBody (getLayerType b)] else [])) := by
  have hne2 : ¬ getMotionType b = T := fun h => hne h.symm
  rcases hT with rfl | rfl | rfl
  · refine ⟨?_, ?_⟩
    · rintro ⟨-, he⟩
      simp [changeMotionType, hne2, hlock, he]
    · intro he
      have he2 : isEntity b = true := by
        rcases he with h | h
        · exact absurd rfl h
        · exact h
      simp [changeMotionType, hne2, hlock, he2, setMotionFlag_eq, hasMotionFlag,
        resetMotionFlagDirect]
      intro f h1 h2 h3
      simp [Ne.symm h1, Ne.symm h2, Ne.symm h3]
  · refine ⟨?_, ?_⟩
    · rintro ⟨h, -⟩
      exact absurd h (by decide)
    · intro _
      simp [changeMotionType, hne2, hlock, setMotionFlag_eq, hasMotionFlag,
        resetMotionFlagDirect]
      intro f h1 h2 h3
      simp [Ne.symm h1, Ne.symm h2, Ne.symm h3]
  · refine ⟨?_, ?_⟩
    · rintro ⟨h, -⟩
      exact absurd h (by decide)
    · intro _
      simp [changeMotionType, hne2, hlock, setMotionFlag_eq, hasMotionFlag,
        resetMotionFlagDirect]
      intro f h1 h2 h3
      simp [Ne.symm h1, Ne.symm h2, Ne.symm h3]

/-- Witness for C1 (amended): the locked Entity body with a dynamic solver motion, target
Fixed. -/
theorem changeMotionType_deferred_witness :
    isFlag8Set lockedEntityDynamic = true
    ∧ MotionType.Fixed ≠ getMotionType lockedEntityDynamic
    ∧ hasMotionFlag (changeMotionType specExtern MotionType.Fixed lockedEntityDynamic)
        MotionFlag.Fixed = true
    ∧ hasMotionFlag (changeMotionType specExtern MotionType.Fixed lockedEntityDynamic)
        MotionFlag.Dynamic = false
    ∧ hasMotionFlag (changeMotionType specExtern MotionType.Fixed lockedEntityDynamic)
        MotionFlag.Keyframed = false
    ∧ (changeMotionType specExtern MotionType.Fixed lockedEntityDynamic).mHkBody
        = lockedEntityDynamic.mHkBody :=
  have h := (changeMotionType_deferred specExtern lockedEntityDynamic MotionType.Fixed
    (by decide) (Or.inr (Or.inr rfl)) (by decide)).2 (Or.inl (by decide))
  ⟨by decide, by decide, h.2.2.1, h.1, h.2.1, h.2.2.2.2.1⟩

/-! ## Field-level description of the immediate path -/

@[simp] theorem changeMotionTypeNow_mMotionFlags (ext : Extern) (T : MotionType)
    (b : RigidBody) :
    (changeMotionTypeNow ext T b).mMotionFlags =
      BitFlag32.set (BitFlag32.set (BitFlag32.set (BitFlag32.set (BitFlag32.set b.mMotionFlags
        MotionFlag.DirtyMass.val) MotionFlag.DirtyInertiaLocal.val)
        MotionFlag.DirtyMaxVelOrTimeFactor.val) MotionFlag.DirtyDampingOrGravityFactor.val)
        MotionFlag.DirtyCenterOfMassLocal.val := rfl

@[simp] theorem changeMotionTypeNow_mFlags (ext : Extern) (T : MotionType) (b : RigidBody) :
    (changeMotionTypeNow ext T b).mFlags = b.mFlags := rfl

@[simp] theorem changeMotionTypeNow_calls (ext : Extern) (T : MotionType) (b : RigidBody) :
    (changeMotionTypeNow ext T b).calls
      = b.calls ++ [Call.doChangeMotionType T (getMotionType b), Call.x_40] := by
  simp [changeMotionTypeNow, x_40, record, setMotionFlagDirect, doChangeMotionType]

@[simp] theorem changeMotionTypeNow_mMotionAccessor (ext : Extern) (T : MotionType)
    (b : RigidBody) :
    (changeMotionTypeNow ext T b).mMotionAccessor = b.mMotionAccessor := rfl

@[simp] theorem changeMotionType_mMotionAccessor (ext : Extern) (T : MotionType)
    (b : RigidBody) :
    (changeMotionType ext T b).mMotionAccessor = b.mMotionAccessor := by
  by_cases h1 : getMotionType b = T
  · simp [changeMotionType, h1]
  · by_cases h2 : isFlag8Set b = true <;> by_cases he : isEntity b = true <;> cases T <;>
      simp [changeMotionType, h1, h2, he, resetMotionFlagDirect, setMotionFlag_eq,
        setMotionFlagDirect]

/-! ## C2 — at most one pending motion-type flag -/

theorem replaceMotionObject_pending (ext : Extern) (b b' : RigidBody)
    (h : replaceMotionObject ext b = some b') :
    hasMotionFlag b' MotionFlag.Fixed = false
    ∧ hasMotionFlag b' MotionFlag.Keyframed
        = (hasMotionFlag b MotionFlag.Fixed && hasMotionFlag b MotionFlag.Keyframed)
    ∧ hasMotionFlag b' MotionFlag.Dynamic
        = ((hasMotionFlag b MotionFlag.Fixed || hasMotionFlag b MotionFlag.Keyframed)
            && hasMotionFlag b MotionFlag.Dynamic) := by
  unfold replaceMotionObject at h
  split at h
  · rename_i hF
    cases h
    simp [hasMotionFlag, resetMotionFlagDirect, setQualityType, constructMotion] at hF ⊢
    simp [hF]
  · rename_i hF
    split at h
    · rename_i hK
      cases h
      simp [hasMotionFlag, resetMotionFlagDirect, setQualityType, constructMotion] at hF hK ⊢
      simp [hF, hK]
    · rename_i hK
      split at h
      · rename_i hD
        split at h
        · cases h
        · cases h
          simp [hasMotionFlag, resetMotionFlagDirect, setQualityType, record] at hF hK hD ⊢
          simp [hF, hK]
      · rename_i hD
        cases h
        simp [hasMotionFlag] at hF hK hD ⊢
        simp [hF, hK, hD]

theorem replaceMotionObject_isSome (ext : Extern) (b : RigidBody)
    (h : (getEntityMotionAccessor b).isSome = true
      ∨ hasMotionFlag b MotionFlag.Dynamic = false
      ∨ hasMotionFlag b MotionFlag.Keyframed = true
      ∨ hasMotionFlag b MotionFlag.Fixed = true) :
    ∃ b', replaceMotionObject ext b = some b' := by
  unfold replaceMotionObject
  split
  · exact ⟨_, rfl⟩
  · rename_i hF
    split
    · exact ⟨_, rfl⟩
    · rename_i hK
      split
      · rename_i hD
        rcases h with h | h | h | h
        · cases hacc : getEntityMotionAccessor b with
          | none => rw [hacc] at h; exact absurd h (by decide)
          | some a => exact ⟨_, rfl⟩
        · rw [hD] at h; exact absurd h (by decide)
        · exact absurd h hK
        · exact absurd h hF
      · exact ⟨_, rfl⟩

theorem changeMotionType_locked_pendingCount (ext : Extern) (T : MotionType) (b : RigidBody)
    (hlock : isFlag8Set b = true) (h : pendingCount b ≤ 1) :
    pendingCount (changeMotionType ext T b) ≤ 1 := by
  unfold changeMotionType
  split
  · exact h
  · try simp only [hlock, if_true]
    cases T
    · by_cases he : isEntity b = true
      · simp [he, pendingCount, hasMotionFlag, resetMotionFlagDirect, setMotionFlag_eq]
      · simpa [he] using h
    · simp [pendingCount, hasMotionFlag, resetMotionFlagDirect, setMotionFlag_eq]
    · simp [pendingCount, hasMotionFlag, resetMotionFlagDirect, setMotionFlag_eq]
    · exact h
    · exact h

theorem changeMotionType_unlocked_pending (ext : Extern) (T : MotionType) (b : RigidBody)
    (hlock : isFlag8Set b = false) :
    ∃ d k f : Bool, d.toNat + k.toNat + f.toNat ≤ 1
      ∧ (d = true → isEntity b = true)
      ∧ hasMotionFlag (changeMotionType ext T b) MotionFlag.Dynamic
          = (d || hasMotionFlag b MotionFlag.Dynamic)
      ∧ hasMotionFlag (changeMotionType ext T b) MotionFlag.Keyframed
          = (k || hasMotionFlag b MotionFlag.Keyframed)
      ∧ hasMotionFlag (changeMotionType ext T b) MotionFlag.Fixed
          = (f || hasMotionFlag b MotionFlag.Fixed) := by
  unfold changeMotionType
  split
  · exact ⟨false, false, false, by decide, by simp, by simp, by simp, by simp⟩
  · try simp only [hlock, Bool.false_eq_true, if_false]
    cases T
    · by_cases he : isEntity b = true
      · refine ⟨true, false, false, by decide, ?_, ?_, ?_, ?_⟩ <;>
          simp [he, hasMotionFlag, setMotionFlagDirect]
      · refine ⟨false, false, false, by decide, ?_, ?_, ?_, ?_⟩ <;> simp [he]
    · refine ⟨false, false, true, by decide, ?_, ?_, ?_, ?_⟩ <;>
        simp [hasMotionFlag, setMotionFlagDirect]
    · refine ⟨false, true, false, by decide, ?_, ?_, ?_, ?_⟩ <;>
        simp [hasMotionFlag, setMotionFlagDirect]
    · refine ⟨false, false, false, by decide, ?_, ?_, ?_, ?_⟩ <;>
        simp [hasMotionFlag, setMotionFlagDirect]
    · refine ⟨false, false, false, by decide, ?_, ?_, ?_, ?_⟩ <;>
        simp [hasMotionFlag, setMotionFlagDirect]

/-- C2: if at most one of the pending motion-type flags {Dynamic, Keyframed, Fixed} is set,
then for every target `T`: when the body is locked-for-step, at most one is set after
`changeMotionType(T)`; when it is not locked, at most one is set after
`changeMotionType(T)` followed by `replaceMotionObject()`, whenever the latter returns, and
it does return when the body has an entity motion accessor or is a Sensor with no pending
Dynamic flag. -/
theorem changeMotionType_atMostOnePending (ext : Extern) (b : RigidBody) (T : MotionType)
    (h : pendingCount b ≤ 1) :
    (isFlag8Set b = true → pendingCount (changeMotionType ext T b) ≤ 1)
    ∧ (isFlag8Set b = false →
        (∀ b', replaceMotionObject ext (changeMotionType ext T b) = some b' →
          pendingCount b' ≤ 1)
        ∧ ((getEntityMotionAccessor b).isSome = true
            ∨ (isEntity b = false ∧ hasMotionFlag b MotionFlag.Dynamic = false) →
          ∃ b', replaceMotionObject ext (changeMotionType ext T b) = some b'
            ∧ pendingCount b' ≤ 1)) := by
  refine ⟨fun hlock => changeMotionType_locked_pendingCount ext T b hlock h, fun hlock => ?_⟩
  have key : ∀ b', replaceMotionObject ext (changeMotionType ext T b) = some b' →
      pendingCount b' ≤ 1 := by
    intro b' hb'
    obtain ⟨hF, hK, hD⟩ := replaceMotionObject_pending ext _ b' hb'
    obtain ⟨d, k, f, hsum, -, hd, hk, hf⟩ := changeMotionType_unlocked_pending ext T b hlock
    rw [hd, hk, hf] at hD
    rw [hk, hf] at hK
    unfold pendingCount at h ⊢
    rw [hF, hK, hD]
    revert h hsum
    cases d <;> cases k <;> cases f <;> cases hasMotionFlag b MotionFlag.Dynamic <;>
      cases hasMotionFlag b MotionFlag.Keyframed <;>
      cases hasMotionFlag b MotionFlag.Fixed <;> decide
  refine ⟨key, fun hacc => ?_⟩
  have hsome : ∃ b', replaceMotionObject ext (changeMotionType ext T b) = some b' := by
    apply replaceMotionObject_isSome
    rcases hacc with hacc | ⟨hsens, hdyn⟩
    · left
      rw [← hacc]
      simp [getEntityMotionAccessor]
    · obtain ⟨d, k, f, -, hde, hd, hk, hf⟩ := changeMotionType_unlocked_pending ext T b hlock
      right; left
      rw [hd, hdyn]
      cases d
      · rfl
      · rw [hde rfl] at hsens; exact absurd hsens (by decide)
  obtain ⟨b', hb'⟩ := hsome
  exact ⟨b', hb', key b' hb'⟩

/-- Witness for C2: the unlocked Entity body with a pending change to Dynamic, target
Fixed; two pending flags are set after `changeMotionType`, one after
`replaceMotionObject`. -/
theorem changeMotionType_atMostOnePending_witness :
    pendingCount unlockedEntityPendingDynamic ≤ 1
    ∧ isFlag8Set unlockedEntityPendingDynamic = false
    ∧ ∃ b', replaceMotionObject specExtern
          (changeMotionType specExtern MotionType.Fixed unlockedEntityPendingDynamic) = some b'
        ∧ pendingCount b' ≤ 1 :=
  ⟨by decide, by decide,
    ((changeMotionType_atMostOnePending specExtern unlockedEntityPendingDynamic
      MotionType.Fixed (by decide)).2 (by decide)).2 (Or.inl (by decide))⟩

/-! ## Frame facts about `changeMotionType` and `triggerScheduledMotionTypeChange` -/

theorem changeMotionType_hasFlag (ext : Extern) (T : MotionType) (b : RigidBody) (g : Flag)
    (hg : g ≠ Flag.UpdateRequested) :
    hasFlag (changeMotionType ext T b) g = hasFlag b g := by
  have hg2 : ¬ Flag.UpdateRequested = g := fun h => hg h.symm
  by_cases h1 : getMotionType b = T
  · simp [changeMotionType, h1]
  · by_cases h2 : isFlag8Set b = true <;> by_cases he : isEntity b = true <;>
      by_cases hc : BitFlag32.isOn b.mFlags Flag._20.val = false
        ∧ BitFlag32.isOn b.mFlags Flag.UpdateRequested.val = false <;>
      cases T <;>
      simp [changeMotionType, h1, h2, he, hc, hg2, hasFlag, resetMotionFlagDirect,
        setMotionFlag_eq, setMotionFlagDirect]

theorem changeMotionType_locked_mHkBody (ext : Extern) (T : MotionType) (b : RigidBody)
    (hl : isFlag8Set b = true) :
    (changeMotionType ext T b).mHkBody = b.mHkBody := by
  by_cases h1 : getMotionType b = T
  · simp [changeMotionType, h1]
  · by_cases he : isEntity b = true <;> cases T <;>
      simp [changeMotionType, h1, hl, he, resetMotionFlagDirect, setMotionFlag_eq]

theorem changeMotionType_locked_calls (ext : Extern) (T : MotionType) (b : RigidBody)
    (hl : isFlag8Set b = true) :
    ∀ c ∈ (changeMotionType ext T b).calls,
      c ∈ b.calls ∨ c = Call.pushRigidBody (getLayerType b) := by
  intro c
  by_cases h1 : getMotionType b = T
  · simp only [changeMotionType, h1, if_true]
    exact fun h => Or.inl h
  · by_cases he : isEntity b = true <;>
      by_cases hc : hasFlag b Flag._20 = false ∧ hasFlag b Flag.UpdateRequested = false <;>
      cases T <;>
      simp [changeMotionType, h1, hl, he, hc, resetMotionFlagDirect, setMotionFlag_eq] <;>
      first | exact fun h => h | exact fun h => Or.inl h

theorem changeMotionType_locked_otherMotionFlags (ext : Extern) (T : MotionType)
    (b : RigidBody) (hl : isFlag8Set b = true) (f : MotionFlag)
    (hD : f ≠ MotionFlag.Dynamic) (hK : f ≠ MotionFlag.Keyframed) (hF : f ≠ MotionFlag.Fixed) :
    hasMotionFlag (changeMotionType ext T b) f = hasMotionFlag b f := by
  by_cases h1 : getMotionType b = T
  · simp [changeMotionType, h1]
  · by_cases he : isEntity b = true <;> cases T <;>
      simp [changeMotionType, h1, hl, he, hasMotionFlag, resetMotionFlagDirect,
        setMotionFlag_eq, Ne.symm hD, Ne.symm hK, Ne.symm hF]

theorem trigger_locked_frame (ext : Extern) (b : RigidBody) (hl : isFlag8Set b = true) :
    (triggerScheduledMotionTypeChange ext b).mHkBody = b.mHkBody
    ∧ (∀ f : MotionFlag, f ≠ MotionFlag.Dynamic → f ≠ MotionFlag.Keyframed →
        f ≠ MotionFlag.Fixed →
        hasMotionFlag (triggerScheduledMotionTypeChange ext b) f = hasMotionFlag b f)
    ∧ (∀ c ∈ (triggerScheduledMotionTypeChange ext b).calls,
        c ∈ b.calls ∨ c = Call.pushRigidBody (getLayerType b)) := by
  unfold triggerScheduledMotionTypeChange
  split
  · exact ⟨changeMotionType_locked_mHkBody ext _ b hl,
      fun f hD hK hF => changeMotionType_locked_otherMotionFlags ext _ b hl f hD hK hF,
      changeMotionType_locked_calls ext _ b hl⟩
  · split
    · exact ⟨changeMotionType_locked_mHkBody ext _ b hl,
        fun f hD hK hF => changeMotionType_locked_otherMotionFlags ext _ b hl f hD hK hF,
        changeMotionType_locked_calls ext _ b hl⟩
    · split
      · exact ⟨changeMotionType_locked_mHkBody ext _ b hl,
          fun f hD hK hF => changeMotionType_locked_otherMotionFlags ext _ b hl f hD hK hF,
          changeMotionType_locked_calls ext _ b hl⟩
      · exact ⟨rfl, fun _ _ _ _ => rfl, fun c h => Or.inl h⟩

/-! ## C3 — a deferred change followed by `triggerScheduledMotionTypeChange` -/

/-- C3, as stated, fails: on the locked Entity body with a dynamic solver motion,
`changeMotionType(Fixed)` sets the pending-Fixed flag and leaves the solver motion Dynamic,
but the following `triggerScheduledMotionTypeChange()` finds none of `Flag::_20000000`,
`Flag::_40000000`, `Flag::_80000000` set and changes nothing: the solver motion is still
Dynamic, the pending-Fixed flag is still set and no resync dirty flag is set. -/
theorem changeMotionType_then_trigger_counterexample :
    isEntity lockedEntityDynamic = true
    ∧ lockedEntityDynamic.mHkBody.motionType = MotionType.Dynamic
    ∧ isFlag8Set lockedEntityDynamic = true
    ∧ hasMotionFlag (changeMotionType specExtern MotionType.Fixed lockedEntityDynamic)
        MotionFlag.Fixed = true
    ∧ (changeMotionType specExtern MotionType.Fixed lockedEntityDynamic).mHkBody.motionType
        = MotionType.Dynamic
    ∧ (triggerScheduledMotionTypeChange specExtern
        (changeMotionType specExtern MotionType.Fixed lockedEntityDynamic)).mHkBody.motionType
        = MotionType.Dynamic
    ∧ hasMotionFlag (triggerScheduledMotionTypeChange specExtern
        (changeMotionType specExtern MotionType.Fixed lockedEntityDynamic))
        MotionFlag.Fixed = true
    ∧ hasMotionFlag (triggerScheduledMotionTypeChange specExtern
        (changeMotionType specExtern MotionType.Fixed lockedEntityDynamic))
        MotionFlag.DirtyMass = false
    ∧ hasMotionFlag (triggerScheduledMotionTypeChange specExtern
        (changeMotionType specExtern MotionType.Fixed lockedEntityDynamic))
        MotionFlag.DirtyShape = false := by
  decide

theorem getMotionType_eq_fixed_of_dynamic (b : RigidBody)
    (hm : b.mHkBody.motionType = MotionType.Dynamic)
    (h : getMotionType b = MotionType.Fixed) :
    hasMotionFlag b MotionFlag.Dynamic = false ∧ hasMotionFlag b MotionFlag.Keyframed = false
    ∧ hasMotionFlag b MotionFlag.Fixed = true := by
  unfold getMotionType at h
  cases hD : hasMotionFlag b MotionFlag.Dynamic <;>
    cases hK : hasMotionFlag b MotionFlag.Keyframed <;>
    cases hF : hasMotionFlag b MotionFlag.Fixed <;> simp [hD, hK, hF, hm] at h ⊢

/-- C3 (amended): for an Entity body whose solver motion is Dynamic and which is
locked-for-step, `changeMotionType(Fixed)` leaves Fixed as the only pending motion-type flag
while the solver body is untouched (it still reports Dynamic). A subsequent
`triggerScheduledMotionTypeChange()` does not apply the transition: the solver body is
still untouched, every motion flag other than the three pending ones is as it was at the
start, nothing but request-queue pushes has been called, and when none of
`Flag::_20000000`, `Flag::_40000000`, `Flag::_80000000` is set it changes nothing at all. -/
theorem changeMotionType_then_trigger (ext : Extern) (b : RigidBody)
    (he : isEntity b = true) (hm : b.mHkBody.motionType = MotionType.Dynamic)
    (hl : isFlag8Set b = true) :
    hasMotionFlag (changeMotionType ext MotionType.Fixed b) MotionFlag.Fixed = true
    ∧ hasMotionFlag (changeMotionType ext MotionType.Fixed b) MotionFlag.Dynamic = false
    ∧ hasMotionFlag (changeMotionType ext MotionType.Fixed b) MotionFlag.Keyframed = false
    ∧ (changeMotionType ext MotionType.Fixed b).mHkBody = b.mHkBody
    ∧ (triggerScheduledMotionTypeChange ext
        (changeMotionType ext MotionType.Fixed b)).mHkBody = b.mHkBody
    ∧ (∀ f : MotionFlag, f ≠ MotionFlag.Dynamic → f ≠ MotionFlag.Keyframed →
        f ≠ MotionFlag.Fixed →
        hasMotionFlag (triggerScheduledMotionTypeChange ext
          (changeMotionType ext MotionType.Fixed b)) f = hasMotionFlag b f)
    ∧ (∀ c ∈ (triggerScheduledMotionTypeChange ext
          (changeMotionType ext MotionType.Fixed b)).calls,
        c ∈ b.calls ∨ c = Call.pushRigidBody ContactLayerType.Entity)
    ∧ (hasFlag b Flag._20000000 = false → hasFlag b Flag._40000000 = false →
        hasFlag b Flag._80000000 = false →
        triggerScheduledMotionTypeChange ext (changeMotionType ext MotionType.Fixed b)
          = changeMotionType ext MotionType.Fixed b) := by
  have hlt : getLayerType b = ContactLayerType.Entity := by
    have he2 : BitFlag32.isOn b.mFlags Flag.IsSensor.val = false := by
      simpa [isEntity] using he
    simp [getLayerType, isSensor, he2]
  have hl1 : isFlag8Set (changeMotionType ext MotionType.Fixed b) = true := by
    have h := changeMotionType_hasFlag ext MotionType.Fixed b Flag._8 (by decide)
    simp only [hasFlag] at h
    simp only [isFlag8Set, h]
    exact hl
  have hlt1 : getLayerType (changeMotionType ext MotionType.Fixed b)
      = ContactLayerType.Entity := by
    have h := changeMotionType_hasFlag ext MotionType.Fixed b Flag.IsSensor (by decide)
    simp only [hasFlag] at h
    rw [← hlt]
    simp only [getLayerType, isSensor, h]
  obtain ⟨t1, t2, t3⟩ := trigger_locked_frame ext _ hl1
  have hflags : hasMotionFlag (changeMotionType ext MotionType.Fixed b) MotionFlag.Fixed = true
      ∧ hasMotionFlag (changeMotionType ext MotionType.Fixed b) MotionFlag.Dynamic = false
      ∧ hasMotionFlag (changeMotionType ext MotionType.Fixed b) MotionFlag.Keyframed
          = false := by
    by_cases h1 : getMotionType b = MotionType.Fixed
    · obtain ⟨hD, hK, hF⟩ := getMotionType_eq_fixed_of_dynamic b hm h1
      simp [changeMotionType, h1, hD, hK, hF]
    · simp [changeMotionType, h1, hl, hasMotionFlag, resetMotionFlagDirect, setMotionFlag_eq]
  refine ⟨hflags.1, hflags.2.1, hflags.2.2, changeMotionType_locked_mHkBody ext _ b hl, ?_,
    ?_, ?_, ?_⟩
  · rw [t1, changeMotionType_locked_mHkBody ext _ b hl]
  · intro f hD hK hF
    rw [t2 f hD hK hF, changeMotionType_locked_otherMotionFlags ext _ b hl f hD hK hF]
  · intro c hc
    rcases t3 c hc with h | h
    · have h2 := changeMotionType_locked_calls ext _ b hl c h
      rw [hlt] at h2
      exact h2
    · rw [hlt1] at h
      exact Or.inr h
  · intro h20 h40 h80
    have g20 := changeMotionType_hasFlag ext MotionType.Fixed b Flag._20000000 (by decide)
    have g40 := changeMotionType_hasFlag ext MotionType.Fixed b Flag._40000000 (by decide)
    have g80 := changeMotionType_hasFlag ext MotionType.Fixed b Flag._80000000 (by decide)
    rw [h20] at g20
    rw [h40] at g40
    rw [h80] at g80
    simp [triggerScheduledMotionTypeChange, g20, g40, g80]

/-- Witness for C3 (amended): the locked Entity body with a dynamic solver motion. -/
theorem changeMotionType_then_trigger_witness :
    isEntity lockedEntityDynamic = true
    ∧ lockedEntityDynamic.mHkBody.motionType = MotionType.Dynamic
    ∧ isFlag8Set lockedEntityDynamic = true
    ∧ (triggerScheduledMotionTypeChange specExtern
        (changeMotionType specExtern MotionType.Fixed lockedEntityDynamic)).mHkBody
        = lockedEntityDynamic.mHkBody :=
  ⟨by decide, by decide, by decide,
    (changeMotionType_then_trigger specExtern lockedEntityDynamic (by decide) (by decide)
      (by decide)).2.2.2.2.1⟩

/-! ## C5 — redundant calls of `changeMotionType` -/

theorem changeMotionType_noop (ext : Extern) (T : MotionType) (b : RigidBody)
    (h : getMotionType b = T) : changeMotionType ext T b = b := by
  simp [changeMotionType, h]

theorem getMotionType_changeMotionType_locked (ext : Extern) (T : MotionType)
    (b : RigidBody) (hl : isFlag8Set b = true) :
    getMotionType (changeMotionType ext T b) = T ∨ changeMotionType ext T b = b := by
  by_cases h1 : getMotionType b = T
  · exact Or.inr (changeMotionType_noop ext T b h1)
  · by_cases he : isEntity b = true <;> cases T <;>
      simp only [changeMotionType, h1, hl, he, if_false, if_true, Bool.false_eq_true,
        or_true] <;>
      simp [getMotionType, hasMotionFlag, resetMotionFlagDirect, setMotionFlag_eq]

theorem changeMotionType_twice_locked (ext : Extern) (b : RigidBody) (T : MotionType)
    (h : getMotionType b = T ∨ isFlag8Set b = true) :
    changeMotionType ext T (changeMotionType ext T b) = changeMotionType ext T b := by
  rcases h with h | h
  · rw [changeMotionType_noop ext T b h, changeMotionType_noop ext T b h]
  · rcases getMotionType_changeMotionType_locked ext T b h with h2 | h2
    · exact changeMotionType_noop ext T _ h2
    · rw [h2, h2]

/-- C5, as stated, fails: on the locked Entity body whose solver motion object is Fixed and
for which a change to Dynamic is pending, `changeMotionType(Fixed)` is not a no-op although
Fixed is the type the solver motion object reports: `getMotionType()` answers the pending
type Dynamic, so the call replaces the pending flag and requests an update. -/
theorem changeMotionType_solver_type_counterexample :
    lockedEntityFixedPendingDynamic.mHkBody.motionType = MotionType.Fixed
    ∧ hasMotionFlag lockedEntityFixedPendingDynamic MotionFlag.Dynamic = true
    ∧ (changeMotionType specExtern MotionType.Fixed lockedEntityFixedPendingDynamic).mMotionFlags
        ≠ lockedEntityFixedPendingDynamic.mMotionFlags
    ∧ (changeMotionType specExtern MotionType.Fixed lockedEntityFixedPendingDynamic).mFlags
        ≠ lockedEntityFixedPendingDynamic.mFlags
    ∧ hasMotionFlag
        (changeMotionType specExtern MotionType.Fixed lockedEntityFixedPendingDynamic)
        MotionFlag.Fixed = true
    ∧ hasMotionFlag
        (changeMotionType specExtern MotionType.Fixed lockedEntityFixedPendingDynamic)
        MotionFlag.Dynamic = false := by
  decide

/-- C5 (amended): `changeMotionType(T)` is a no-op (the whole state, so motion flags,
attribute flags and solver body, is unchanged) when `T` equals `getMotionType()`, which is
the pending motion type when a pending motion-type flag is set (Dynamic before Keyframed
before Fixed) and the type reported for the solver motion object only when none is set; in
particular it is a no-op when no pending flag is set and `T` is the solver's type. -/
theorem changeMotionType_same_type (ext : Extern) (b : RigidBody) (T : MotionType) :
    (getMotionType b = T → changeMotionType ext T b = b)
    ∧ (hasMotionFlag b MotionFlag.Dynamic = false → hasMotionFlag b MotionFlag.Keyframed = false
        → hasMotionFlag b MotionFlag.Fixed = false → b.mHkBody.motionType = T →
        changeMotionType ext T b = b)
    ∧ (hasMotionFlag b MotionFlag.Dynamic = true → getMotionType b = MotionType.Dynamic)
    ∧ (hasMotionFlag b MotionFlag.Dynamic = false → hasMotionFlag b MotionFlag.Keyframed = true
        → getMotionType b = MotionType.Keyframed)
    ∧ (hasMotionFlag b MotionFlag.Dynamic = false → hasMotionFlag b MotionFlag.Keyframed = false
        → hasMotionFlag b MotionFlag.Fixed = true → getMotionType b = MotionType.Fixed) := by
  refine ⟨changeMotionType_noop ext T b, ?_, ?_, ?_, ?_⟩
  · intro hD hK hF hm
    apply changeMotionType_noop
    simp [getMotionType, hD, hK, hF, hm]
  · intro hD
    simp [getMotionType, hD]
  · intro hD hK
    simp [getMotionType, hD, hK]
  · intro hD hK hF
    simp [getMotionType, hD, hK, hF]

/-- Witness for C5 (amended): on the locked Entity body whose solver motion is Fixed and for
which a change to Dynamic is pending, `changeMotionType(Dynamic)` is the no-op. -/
theorem changeMotionType_same_type_witness :
    getMotionType lockedEntityFixedPendingDynamic = MotionType.Dynamic
    ∧ changeMotionType specExtern MotionType.Dynamic lockedEntityFixedPendingDynamic
        = lockedEntityFixedPendingDynamic :=
  ⟨by decide, (changeMotionType_same_type specExtern lockedEntityFixedPendingDynamic
    MotionType.Dynamic).1 (by decide)⟩

/-! ## C7 — `triggerScheduledMotionTypeChange` -/

/-- C7: `triggerScheduledMotionTypeChange()` examines `Flag::_20000000` (Keyframed), then
`Flag::_40000000` (Fixed), then `Flag::_80000000` (Dynamic). If none is set the state is
unchanged. Otherwise the resulting state is that of one `changeMotionType` call with the
type of the first flag found set, followed by the reset of that flag; that flag is clear
afterwards and the two other scheduled flags are as they were. -/
theorem triggerScheduledMotionTypeChange_priority (ext : Extern) (b : RigidBody) :
    (hasFlag b Flag._20000000 = false → hasFlag b Flag._40000000 = false →
      hasFlag b Flag._80000000 = false → triggerScheduledMotionTypeChange ext b = b)
    ∧ (hasFlag b Flag._20000000 = true →
        triggerScheduledMotionTypeChange ext b
          = resetFlag Flag._20000000 (changeMotionType ext MotionType.Keyframed b)
        ∧ hasFlag (triggerScheduledMotionTypeChange ext b) Flag._20000000 = false
        ∧ hasFlag (triggerScheduledMotionTypeChange ext b) Flag._40000000
            = hasFlag b Flag._40000000
        ∧ hasFlag (triggerScheduledMotionTypeChange ext b) Flag._80000000
            = hasFlag b Flag._80000000)
    ∧ (hasFlag b Flag._20000000 = false → hasFlag b Flag._40000000 = true →
        triggerScheduledMotionTypeChange ext b
          = resetFlag Flag._40000000 (changeMotionType ext MotionType.Fixed b)
        ∧ hasFlag (triggerScheduledMotionTypeChange ext b) Flag._20000000 = false
        ∧ hasFlag (triggerScheduledMotionTypeChange ext b) Flag._40000000 = false
        ∧ hasFlag (triggerScheduledMotionTypeChange ext b) Flag._80000000
            = hasFlag b Flag._80000000)
    ∧ (hasFlag b Flag._20000000 = false → hasFlag b Flag._40000000 = false →
        hasFlag b Flag._80000000 = true →
        triggerScheduledMotionTypeChange ext b
          = resetFlag Flag._80000000 (changeMotionType ext MotionType.Dynamic b)
        ∧ hasFlag (triggerScheduledMotionTypeChange ext b) Flag._20000000 = false
        ∧ hasFlag (triggerScheduledMotionTypeChange ext b) Flag._40000000 = false
        ∧ hasFlag (triggerScheduledMotionTypeChange ext b) Flag._80000000 = false) := by
  have key : ∀ (T : MotionType) (f g : Flag), g ≠ Flag.UpdateRequested →
      hasFlag (resetFlag f (changeMotionType ext T b)) g = (!decide (f = g) && hasFlag b g) := by
    intro T f g hg
    have h := changeMotionType_hasFlag ext T b g hg
    simp only [hasFlag] at h
    simp [hasFlag, resetFlag, h]
  refine ⟨?_, ?_, ?_, ?_⟩
  · intro h20 h40 h80
    simp [triggerScheduledMotionTypeChange, h20, h40, h80]
  · intro h20
    have e : triggerScheduledMotionTypeChange ext b
        = resetFlag Flag._20000000 (changeMotionType ext MotionType.Keyframed b) := by
      simp [triggerScheduledMotionTypeChange, h20]
    rw [e]
    refine ⟨rfl, ?_, ?_, ?_⟩ <;> rw [key _ _ _ (by decide)] <;> simp
  · intro h20 h40
    have e : triggerScheduledMotionTypeChange ext b
        = resetFlag Flag._40000000 (changeMotionType ext MotionType.Fixed b) := by
      simp [triggerScheduledMotionTypeChange, h20, h40]
    rw [e]
    refine ⟨rfl, ?_, ?_, ?_⟩ <;> rw [key _ _ _ (by decide)] <;> simp [h20]
  · intro h20 h40 h80
    have e : triggerScheduledMotionTypeChange ext b
        = resetFlag Flag._80000000 (changeMotionType ext MotionType.Dynamic b) := by
      simp [triggerScheduledMotionTypeChange, h20, h40, h80]
    rw [e]
    refine ⟨rfl, ?_, ?_, ?_⟩ <;> rw [key _ _ _ (by decide)] <;> simp [h20, h40]

/-- Witness for C7: on the unlocked Entity body with `Flag::_20000000` and `Flag::_80000000`
set, the Keyframed change is the one applied, `Flag::_20000000` is cleared and
`Flag::_80000000` stays set. -/
theorem triggerScheduledMotionTypeChange_priority_witness :
    hasFlag scheduledKeyframedAndDynamic Flag._20000000 = true
    ∧ triggerScheduledMotionTypeChange specExtern scheduledKeyframedAndDynamic
        = resetFlag Flag._20000000
            (changeMotionType specExtern MotionType.Keyframed scheduledKeyframedAndDynamic)
    ∧ hasFlag (triggerScheduledMotionTypeChange specExtern scheduledKeyframedAndDynamic)
        Flag._20000000 = false
    ∧ hasFlag (triggerScheduledMotionTypeChange specExtern scheduledKeyframedAndDynamic)
        Flag._80000000 = true :=
  have h := (triggerScheduledMotionTypeChange_priority specExtern
    scheduledKeyframedAndDynamic).2.1 (by decide)
  ⟨by decide, h.1, h.2.1, h.2.2.2.trans (by decide)⟩

/-! ## C8 — `setMotionFlag` enqueues at most once -/

theorem setMotionFlag_blocked (f : MotionFlag) (b : RigidBody)
    (h : hasFlag b Flag._20 = true ∨ hasFlag b Flag.UpdateRequested = true) :
    (setMotionFlag f b).calls = b.calls ∧ (setMotionFlag f b).mFlags = b.mFlags := by
  have hc : ¬ (hasFlag b Flag._20 = false ∧ hasFlag b Flag.UpdateRequested = false) := by
    rintro ⟨h1, h2⟩
    rcases h with h | h
    · rw [h1] at h; exact absurd h (by decide)
    · rw [h2] at h; exact absurd h (by decide)
  simp [setMotionFlag_eq, hc]

theorem setMotionFlag_foldl_blocked (fs : List MotionFlag) (b : RigidBody)
    (h : hasFlag b Flag._20 = true ∨ hasFlag b Flag.UpdateRequested = true) :
    (fs.foldl (fun s g => setMotionFlag g s) b).calls = b.calls := by
  induction fs generalizing b with
  | nil => rfl
  | cons g fs ih =>
    obtain ⟨hcalls, hflags⟩ := setMotionFlag_blocked g b h
    have h2 : hasFlag (setMotionFlag g b) Flag._20 = true
        ∨ hasFlag (setMotionFlag g b) Flag.UpdateRequested = true := by
      simpa [hasFlag, hflags] using h
    rw [List.foldl_cons, ih _ h2, hcalls]

theorem setMotionFlag_free (f : MotionFlag) (b : RigidBody)
    (h1 : hasFlag b Flag._20 = false) (h2 : hasFlag b Flag.UpdateRequested = false) :
    (setMotionFlag f b).calls = b.calls ++ [Call.pushRigidBody (getLayerType b)]
    ∧ hasFlag (setMotionFlag f b) Flag.UpdateRequested = true := by
  simp only [hasFlag] at h1 h2
  simp [setMotionFlag_eq, h1, h2, hasFlag]

/-- C8: `setMotionFlag(f)` always sets motion flag `f`. When neither `Flag::_20` nor
`Flag::UpdateRequested` is set beforehand it sets `UpdateRequested` and pushes the body on
the request queue once, keyed by its layer type; when either is set it pushes nothing and
leaves the attribute flags alone. Hence any sequence of `setMotionFlag` calls adds at most
one push to the request queue. -/
theorem setMotionFlag_enqueue (b : RigidBody) (f : MotionFlag) :
    hasMotionFlag (setMotionFlag f b) f = true
    ∧ (hasFlag b Flag._20 = false → hasFlag b Flag.UpdateRequested = false →
        (setMotionFlag f b).calls = b.calls ++ [Call.pushRigidBody (getLayerType b)]
        ∧ hasFlag (setMotionFlag f b) Flag.UpdateRequested = true)
    ∧ (hasFlag b Flag._20 = true ∨ hasFlag b Flag.UpdateRequested = true →
        (setMotionFlag f b).calls = b.calls ∧ (setMotionFlag f b).mFlags = b.mFlags)
    ∧ (∀ fs : List MotionFlag, ∃ l : List Call,
        (fs.foldl (fun s g => setMotionFlag g s) b).calls = b.calls ++ l
        ∧ l.length ≤ 1 ∧ ∀ c ∈ l, c = Call.pushRigidBody (getLayerType b)) := by
  refine ⟨by simp [setMotionFlag_eq, hasMotionFlag], setMotionFlag_free f b,
    setMotionFlag_blocked f b, ?_⟩
  intro fs
  by_cases hb : hasFlag b Flag._20 = true ∨ hasFlag b Flag.UpdateRequested = true
  · exact ⟨[], by simp [setMotionFlag_foldl_blocked fs b hb], by simp, by simp⟩
  · have h1 : hasFlag b Flag._20 = false := by
      cases h : hasFlag b Flag._20
      · rfl
      · exact absurd (Or.inl h) hb
    have h2 : hasFlag b Flag.UpdateRequested = false := by
      cases h : hasFlag b Flag.UpdateRequested
      · rfl
      · exact absurd (Or.inr h) hb
    cases fs with
    | nil => exact ⟨[], by simp, by simp, by simp⟩
    | cons g fs =>
      obtain ⟨hcalls, hur⟩ := setMotionFlag_free g b h1 h2
      refine ⟨[Call.pushRigidBody (getLayerType b)], ?_, by simp, by simp⟩
      rw [List.foldl_cons, setMotionFlag_foldl_blocked fs _ (Or.inr hur), hcalls]

/-- Witness for C8: on the unlocked Entity body with no flag set, the first `setMotionFlag`
pushes the body on the Entity queue and sets `UpdateRequested`. -/
theorem setMotionFlag_enqueue_witness :
    hasFlag unlockedEntityDynamic Flag._20 = false
    ∧ hasFlag unlockedEntityDynamic Flag.UpdateRequested = false
    ∧ (setMotionFlag MotionFlag.DirtyShape unlockedEntityDynamic).calls
        = [Call.pushRigidBody ContactLayerType.Entity]
    ∧ hasFlag (setMotionFlag MotionFlag.DirtyShape unlockedEntityDynamic)
        Flag.UpdateRequested = true :=
  have h := (setMotionFlag_enqueue unlockedEntityDynamic MotionFlag.DirtyShape).2.1
    (by decide) (by decide)
  ⟨by decide, by decide, h.1, h.2⟩

/-! ## C9, C10 — `setCollisionFilterInfo` -/

theorem lock_eq (w : Bool) (b : RigidBody) :
    lock w b = { b with locks := b.locks
      ++ (if w = true then [LockOp.lockWorld (getLayerType b)] else []) ++ [LockOp.lockBody] } := by
  cases w <;> simp [lock, recordLock]

theorem unlock_eq (w : Bool) (b : RigidBody) :
    unlock w b = { b with locks := b.locks ++ [LockOp.unlockBody]
      ++ (if w = true then [LockOp.unlockWorld (getLayerType b)] else []) } := by
  cases w <;> simp [unlock, recordLock, getLayerType, isSensor]

theorem setCollisionFilterInfo_same (ext : Extern) (b : RigidBody) :
    (setCollisionFilterInfo ext b.mHkBody.collisionFilterInfo b).mFlags = b.mFlags
    ∧ (setCollisionFilterInfo ext b.mHkBody.collisionFilterInfo b).mMotionFlags
        = b.mMotionFlags
    ∧ (setCollisionFilterInfo ext b.mHkBody.collisionFilterInfo b).mHkBody = b.mHkBody
    ∧ (setCollisionFilterInfo ext b.mHkBody.collisionFilterInfo b).calls = b.calls := by
  simp [setCollisionFilterInfo, getCollisionFilterInfo, lock_eq, unlock_eq]

theorem setCollisionFilterInfo_unlocked (ext : Extern) (b : RigidBody) (w : Nat)
    (hl : isFlag8Set b = false) :
    (setCollisionFilterInfo ext w b).mFlags = b.mFlags
    ∧ (setCollisionFilterInfo ext w b).mMotionFlags = b.mMotionFlags
    ∧ (setCollisionFilterInfo ext w b).calls = b.calls
    ∧ (setCollisionFilterInfo ext w b).mHkBody.collisionFilterInfo = w := by
  have hl2 : BitFlag32.isOn b.mFlags Flag._8.val = false := hl
  by_cases hw : b.mHkBody.collisionFilterInfo = w
  · subst hw
    obtain ⟨h1, h2, h3, h4⟩ := setCollisionFilterInfo_same ext b
    exact ⟨h1, h2, h4, by rw [h3]⟩
  · cases hs : b.mHkBody.shape <;>
      simp [setCollisionFilterInfo, getCollisionFilterInfo, lock_eq, unlock_eq, hw, hl, hl2,
        hkSetCollisionFilterInfo, isFlag8Set, hs]

theorem setCollisionFilterInfo_locked (ext : Extern) (b : RigidBody) (w : Nat)
    (hl : isFlag8Set b = true) (hw : b.mHkBody.collisionFilterInfo ≠ w) :
    hasMotionFlag (setCollisionFilterInfo ext w b) MotionFlag._8000 = true
    ∧ (setCollisionFilterInfo ext w b).mHkBody.collisionFilterInfo = w := by
  have hl2 : BitFlag32.isOn b.mFlags Flag._8.val = true := hl
  by_cases hlay : getContactLayer ext b
      = (if BitFlag32.isOn b.mFlags Flag.IsSensor.val = true then ext.getLayerSensor w
         else ext.getLayer w) <;>
    cases hs : b.mHkBody.shape <;>
      simp [setCollisionFilterInfo, getCollisionFilterInfo, lock_eq, unlock_eq, hw, hl, hl2,
        hkSetCollisionFilterInfo, isFlag8Set, hs, hlay, record, setMotionFlag_eq,
        hasMotionFlag, getContactLayerOf, isSensor]

/-- C9: after `setCollisionFilterInfo(w)`, `getCollisionFilterInfo()`, which reads the
solver body's filter word (the `RigidBody` has no filter word of its own), returns `w`. -/
theorem getCollisionFilterInfo_setCollisionFilterInfo (ext : Extern) (b : RigidBody)
    (w : Nat) :
    getCollisionFilterInfo (setCollisionFilterInfo ext w b) = w := by
  by_cases hl : isFlag8Set b = true
  · by_cases hw : b.mHkBody.collisionFilterInfo = w
    · subst hw
      simp [getCollisionFilterInfo, (setCollisionFilterInfo_same ext b).2.2.1]
    · exact (setCollisionFilterInfo_locked ext b w hl hw).2
  · have hl2 : isFlag8Set b = false := by
      cases h : isFlag8Set b
      · rfl
      · exact absurd h hl
    exact (setCollisionFilterInfo_unlocked ext b w hl2).2.2.2

/-- C10, as stated, fails: on the unlocked Entity body with filter word `0`,
`setCollisionFilterInfo(1)` writes the new word to the solver body but does not raise
`MotionFlag::_8000`; the motion flags are unchanged. -/
theorem setCollisionFilterInfo_unlocked_counterexample :
    isFlag8Set unlockedEntityDynamic = false
    ∧ getCollisionFilterInfo unlockedEntityDynamic ≠ 1
    ∧ getCollisionFilterInfo (setCollisionFilterInfo specExtern 1 unlockedEntityDynamic) = 1
    ∧ hasMotionFlag (setCollisionFilterInfo specExtern 1 unlockedEntityDynamic)
        MotionFlag._8000 = false
    ∧ (setCollisionFilterInfo specExtern 1 unlockedEntityDynamic).mMotionFlags
        = unlockedEntityDynamic.mMotionFlags := by
  decide

/-- C10 (amended): for a word `w` that differs from the current collision filter word,
`setCollisionFilterInfo(w)` raises `MotionFlag::_8000` when the body is locked-for-step,
and leaves motion flags, attribute flags and the call trace unchanged when it is not; when
`w` equals the current word the call changes no flag, does not touch the solver body and
calls no collaborator. -/
theorem setCollisionFilterInfo_filterChanged (ext : Extern) (b : RigidBody) (w : Nat) :
    (getCollisionFilterInfo b ≠ w → isFlag8Set b = true →
      hasMotionFlag (setCollisionFilterInfo ext w b) MotionFlag._8000 = true)
    ∧ (getCollisionFilterInfo b ≠ w → isFlag8Set b = false →
        (setCollisionFilterInfo ext w b).mMotionFlags = b.mMotionFlags
        ∧ (setCollisionFilterInfo ext w b).mFlags = b.mFlags
        ∧ (setCollisionFilterInfo ext w b).calls = b.calls)
    ∧ (getCollisionFilterInfo b = w →
        (setCollisionFilterInfo ext w b).mFlags = b.mFlags
        ∧ (setCollisionFilterInfo ext w b).mMotionFlags = b.mMotionFlags
        ∧ (setCollisionFilterInfo ext w b).mHkBody = b.mHkBody
        ∧ (setCollisionFilterInfo ext w b).calls = b.calls) := by
  refine ⟨?_, ?_, ?_⟩
  · intro hw hl
    exact (setCollisionFilterInfo_locked ext b w hl hw).1
  · intro _ hl
    obtain ⟨h1, h2, h3, _⟩ := setCollisionFilterInfo_unlocked ext b w hl
    exact ⟨h2, h1, h3⟩
  · intro hw
    have hw2 : b.mHkBody.collisionFilterInfo = w := hw
    subst hw2
    exact setCollisionFilterInfo_same ext b

/-- Witness for C10 (amended): on the locked Entity body with a list shape and filter word
`0`, `setCollisionFilterInfo(1)` raises `MotionFlag::_8000`. -/
theorem setCollisionFilterInfo_filterChanged_witness :
    getCollisionFilterInfo lockedEntityListShape ≠ 1
    ∧ isFlag8Set lockedEntityListShape = true
    ∧ hasMotionFlag (setCollisionFilterInfo specExtern 1 lockedEntityListShape)
        MotionFlag._8000 = true :=
  ⟨by decide, by decide,
    (setCollisionFilterInfo_filterChanged specExtern lockedEntityListShape 1).1
      (by decide) (by decide)⟩

/-! ## C11 — `addContactLayer` followed by `removeContactLayer` -/

theorem reset_set_two_pow (m k : Nat) (hk : k < 32) :
    BitFlag32.reset (BitFlag32.set m (2 ^ k)) (2 ^ k) = BitFlag32.reset m (2 ^ k) := by
  have h32 : (0xFFFFFFFF : Nat) = 2 ^ 32 - 1 := by norm_num
  apply Nat.eq_of_testBit_eq
  intro i
  simp only [BitFlag32.reset, BitFlag32.set, Nat.testBit_and, Nat.testBit_or, Nat.testBit_xor,
    Nat.testBit_two_pow, h32, Nat.testBit_two_pow_sub_one]
  by_cases h : k = i
  · subst h
    simp [hk]
  · simp [h]

theorem testBit_reset_two_pow (m k i : Nat) :
    (BitFlag32.reset m (2 ^ k)).testBit i
      = (m.testBit i && (decide (i < 32) ^^ decide (k = i))) := by
  have h32 : (0xFFFFFFFF : Nat) = 2 ^ 32 - 1 := by norm_num
  simp only [BitFlag32.reset, Nat.testBit_and, Nat.testBit_xor, Nat.testBit_two_pow, h32,
    Nat.testBit_two_pow_sub_one]

theorem reset_two_pow_of_off (m k : Nat) (hm : m < 2 ^ 32) (hk : m.testBit k = false) :
    BitFlag32.reset m (2 ^ k) = m := by
  apply Nat.eq_of_testBit_eq
  intro i
  rw [testBit_reset_two_pow]
  by_cases hi : i < 32
  · by_cases h : k = i
    · subst h; simp [hk]
    · simp [hi, h]
  · have hlt : m < 2 ^ i :=
      lt_of_lt_of_le hm (Nat.pow_le_pow_right (by decide) (Nat.le_of_not_lt hi))
    simp [Nat.testBit_lt_two_pow hlt]

theorem reset_two_pow_of_on (m k : Nat) (hlt : k < 32) (hk : m.testBit k = true) :
    BitFlag32.reset m (2 ^ k) ≠ m := by
  intro h
  have h2 := testBit_reset_two_pow m k k
  rw [h, hk] at h2
  simp [hlt] at h2

theorem makeMask_of_range (bit : Int) (h : 0 ≤ bit ∧ bit < 32) :
    BitFlag32.makeMask bit = 2 ^ bit.toNat := by
  simp [BitFlag32.makeMask, h, Nat.one_shiftLeft]

/-- C11, as stated, fails: on the Entity body whose contact mask is `1` (bit 0 set),
`addContactLayer(0)` leaves the mask `1` and `removeContactLayer(0)` then clears bit 0, so
the mask ends as `0`, not as the initial mask. -/
theorem addContactLayer_removeContactLayer_counterexample :
    specExtern.getContactLayerType 0 = getLayerType entityContactMaskBit0
    ∧ entityContactMaskBit0.mContactMask = 1
    ∧ (addContactLayer specExtern 0 entityContactMaskBit0).mContactMask = 1
    ∧ (removeContactLayer specExtern 0
        (addContactLayer specExtern 0 entityContactMaskBit0)).mContactMask = 0 := by
  decide

/-- C11 (amended): for a contact layer `L` whose bit `getLayerBit(L, getLayerType())` lies
in `0..31` (every layer of the body's layer type) and a 32-bit contact mask,
`addContactLayer(L)` followed by `removeContactLayer(L)` leaves the contact mask equal to
the initial mask with that bit cleared, and changes nothing else. The whole state is
restored when the bit was clear in the initial mask; when it was set, the final mask
differs from the initial one. -/
theorem addContactLayer_removeContactLayer (ext : Extern) (b : RigidBody) (L : Nat)
    (hbit : 0 ≤ getLayerBit ext L (getLayerType b) ∧ getLayerBit ext L (getLayerType b) < 32)
    (hm : b.mContactMask < 2 ^ 32) :
    removeContactLayer ext L (addContactLayer ext L b)
      = { b with mContactMask :=
            BitFlag32.resetBit b.mContactMask (getLayerBit ext L (getLayerType b)) }
    ∧ (BitFlag32.isOn b.mContactMask
          (BitFlag32.makeMask (getLayerBit ext L (getLayerType b))) = false →
        removeContactLayer ext L (addContactLayer ext L b) = b)
    ∧ (BitFlag32.isOn b.mContactMask
          (BitFlag32.makeMask (getLayerBit ext L (getLayerType b))) = true →
        (removeContactLayer ext L (addContactLayer ext L b)).mContactMask
          ≠ b.mContactMask) := by
  have hmask := makeMask_of_range _ hbit
  have hk : (getLayerBit ext L (getLayerType b)).toNat < 32 := by omega
  have e : removeContactLayer ext L (addContactLayer ext L b)
      = { b with mContactMask :=
            BitFlag32.resetBit b.mContactMask (getLayerBit ext L (getLayerType b)) } := by
    simp [removeContactLayer, addContactLayer, getLayerType, isSensor, BitFlag32.setBit,
      BitFlag32.resetBit]
    simp only [getLayerType, isSensor] at hmask
    simp only [getLayerType, isSensor] at hk
    rw [hmask, reset_set_two_pow _ _ hk]
  refine ⟨e, ?_, ?_⟩
  · intro hoff
    rw [hmask, BitFlag32.isOn_two_pow] at hoff
    rw [e]
    simp only [BitFlag32.resetBit, hmask, reset_two_pow_of_off _ _ hm hoff]
  · intro hon
    rw [hmask, BitFlag32.isOn_two_pow] at hon
    rw [e]
    simp only [BitFlag32.resetBit, hmask]
    exact reset_two_pow_of_on _ _ hk hon

/-- Witness for C11 (amended): on the unlocked Entity body with an empty contact mask,
adding and removing layer 3 restores the state. -/
theorem addContactLayer_removeContactLayer_witness :
    (0 ≤ getLayerBit specExtern 3 (getLayerType unlockedEntityDynamic)
      ∧ getLayerBit specExtern 3 (getLayerType unlockedEntityDynamic) < 32)
    ∧ unlockedEntityDynamic.mContactMask < 2 ^ 32
    ∧ removeContactLayer specExtern 3 (addContactLayer specExtern 3 unlockedEntityDynamic)
        = unlockedEntityDynamic :=
  ⟨by decide, by decide,
    (addContactLayer_removeContactLayer specExtern unlockedEntityDynamic 3 (by decide)
      (by decide)).2.1 (by decide)⟩

/-! ## C12 — ground and water collision on the `EntityRagdoll` layer -/

/-- C12: on a body whose current contact layer is `EntityRagdoll` (in particular on every
such Entity body), `enableGroundCollision(enabled)` and `enableWaterCollision(enabled)` return without
changing anything, for both values of `enabled`: the state, hence the collision filter word
and the answers of `isGroundCollisionEnabled` and `isWaterCollisionEnabled`, is unchanged. -/
theorem enableCollision_entityRagdoll (ext : Extern) (b : RigidBody) (enabled : Bool)
    (hr : getContactLayer ext b = ext.EntityRagdoll) :
    enableGroundCollision ext enabled b = b
    ∧ enableWaterCollision ext enabled b = b
    ∧ getCollisionFilterInfo (enableGroundCollision ext enabled b)
        = getCollisionFilterInfo b
    ∧ getCollisionFilterInfo (enableWaterCollision ext enabled b)
        = getCollisionFilterInfo b
    ∧ isGroundCollisionEnabled ext (enableGroundCollision ext enabled b)
        = isGroundCollisionEnabled ext b
    ∧ isWaterCollisionEnabled ext (enableWaterCollision ext enabled b)
        = isWaterCollisionEnabled ext b := by
  have hg : enableGroundCollision ext enabled b = b := by
    unfold enableGroundCollision
    split
    · rfl
    · simp [hr]
  have hw : enableWaterCollision ext enabled b = b := by
    unfold enableWaterCollision
    split
    · rfl
    · simp [hr]
  refine ⟨hg, hw, ?_, ?_, ?_, ?_⟩
  · rw [hg]
  · rw [hw]
  · rw [hg]
  · rw [hw]

/-- Witness for C12: the Entity body on the `EntityRagdoll` layer has ground collision
enabled, and `enableGroundCollision(false)` leaves it so. -/
theorem enableCollision_entityRagdoll_witness :
    isEntity entityRagdoll = true
    ∧ getContactLayer specExtern entityRagdoll = specExtern.EntityRagdoll
    ∧ isGroundCollisionEnabled specExtern entityRagdoll = true
    ∧ enableGroundCollision specExtern false entityRagdoll = entityRagdoll
    ∧ enableWaterCollision specExtern false entityRagdoll = entityRagdoll :=
  have h := enableCollision_entityRagdoll specExtern entityRagdoll false (by decide)
  ⟨by decide, by decide, by decide, h.1, h.2.1⟩

/-! ## C13, C14 — NaN and infinite inputs -/

theorem isVectorInvalid_iff (v : Vector3f) :
    isVectorInvalid v = (v.x.isnan || v.y.isnan || v.z.isnan) := by
  simp [isVectorInvalid, Vector3f.e, Bool.or_assoc]

theorem onInvalidParameter_eq (code : Int) (b : RigidBody) :
    (b.mUserTag = none → onInvalidParameter code b = b)
    ∧ (∀ t, b.mUserTag = some t →
        onInvalidParameter code b = { b with calls := b.calls ++ [Call.userTag_m7 code] }) := by
  constructor
  · intro h
    simp [onInvalidParameter, notifyUserTag, h]
  · intro t h
    simp [onInvalidParameter, notifyUserTag, h, record]

/-- C13, as stated, fails: on the Entity body that has no user tag, `setPosition`,
`setLinearVelocity` and `setAngularVelocity` with the vector (NaN, 0, 0) skip the motion
accessor and leave the state unchanged, the velocity setters return `false`, but nobody is
notified: `notifyUserTag` does nothing when `mUserTag` is null. -/
theorem setters_nan_counterexample :
    nanVector.x.isnan = true
    ∧ unlockedEntityDynamic.mUserTag = none
    ∧ setPosition specExtern nanVector true unlockedEntityDynamic
        = some unlockedEntityDynamic
    ∧ setLinearVelocity specExtern nanVector F32.zero unlockedEntityDynamic
        = some (false, unlockedEntityDynamic)
    ∧ setAngularVelocity specExtern nanVector F32.zero unlockedEntityDynamic
        = some (false, unlockedEntityDynamic)
    ∧ unlockedEntityDynamic.calls = [] := by
  decide

/-- C13 (amended): for a vector with at least one NaN component, `setPosition`,
`setLinearVelocity` and `setAngularVelocity` never reach the motion accessor: they return
(the velocity setters with `false`) after one call of `onInvalidParameter()`, which leaves
the state unchanged when the body has no user tag and otherwise only notifies the user tag
once (`UserTag::m7` with code 0); flags, solver body and motion accessor are unchanged in
both cases. -/
theorem setters_nan (ext : Extern) (b : RigidBody) (v : Vector3f) (p : Bool) (eps : F32)
    (hnan : v.x.isnan = true ∨ v.y.isnan = true ∨ v.z.isnan = true) :
    setPosition ext v p b = some (onInvalidParameter 0 b)
    ∧ setLinearVelocity ext v eps b = some (false, onInvalidParameter 0 b)
    ∧ setAngularVelocity ext v eps b = some (false, onInvalidParameter 0 b)
    ∧ (b.mUserTag = none → onInvalidParameter 0 b = b)
    ∧ (∀ t, b.mUserTag = some t →
        onInvalidParameter 0 b = { b with calls := b.calls ++ [Call.userTag_m7 0] }) := by
  have hv : isVectorInvalid v = true := by
    rw [isVectorInvalid_iff]
    rcases hnan with h | h | h <;> simp [h]
  exact ⟨by simp [setPosition, hv], by simp [setLinearVelocity, hv],
    by simp [setAngularVelocity, hv], (onInvalidParameter_eq 0 b).1,
    (onInvalidParameter_eq 0 b).2⟩

/-- Witness for C13 (amended): on the Entity body with a user tag, `setPosition` with the
vector (NaN, 0, 0) only notifies the user tag. -/
theorem setters_nan_witness :
    nanVector.x.isnan = true
    ∧ setPosition specExtern nanVector true entityWithUserTag
        = some (onInvalidParameter 0 entityWithUserTag)
    ∧ (onInvalidParameter 0 entityWithUserTag).calls = [Call.userTag_m7 0] :=
  ⟨by decide,
    (setters_nan specExtern entityWithUserTag nanVector true F32.zero (Or.inl (by decide))).1,
    by decide⟩

theorem isnan_of_isinf (x : F32) (h : x.isinf = true) : x.isnan = false := by
  simp only [F32.isinf, Bool.and_eq_true, beq_iff_eq] at h
  simp [F32.isnan, h.2]

/-- C14, as stated, fails: on the Entity body with a motion accessor and a user tag, the
position (+Inf, 0, 1), a transform with a -Inf entry, and the same vector as angular
velocity or impulse are not detected: each call reaches the motion accessor with the
infinite input, and `onInvalidParameter` is not invoked (the user tag is not notified). -/
theorem setters_infinite_counterexample :
    infVector.x.isinf = true
    ∧ (setPosition specExtern infVector true entityWithUserTag).map (fun r => r.calls)
        = some [Call.accessor (AccessorCall.setPosition infVector true)]
    ∧ (setTransform specExtern infMatrix true entityWithUserTag).map (fun r => r.calls)
        = some [Call.accessor (AccessorCall.setTransform infMatrix true)]
    ∧ (setAngularVelocity specExtern infVector F32.zero entityWithUserTag).map
          (fun r => r.2.calls)
        = some [Call.accessor (AccessorCall.setAngularVelocity infVector F32.zero)]
    ∧ (applyLinearImpulse specExtern infVector entityWithUserTag).map (fun r => r.calls)
        = some [Call.accessor (AccessorCall.applyLinearImpulse infVector)]
    ∧ (applyAngularImpulse specExtern infVector entityWithUserTag).map (fun r => r.calls)
        = some [Call.accessor (AccessorCall.applyAngularImpulse infVector)]
    ∧ (applyPointImpulse specExtern infVector finiteVector entityWithUserTag).map
          (fun r => r.calls)
        = some [Call.accessor (AccessorCall.applyPointImpulse infVector finiteVector)] := by
  decide

/-- C14 (amended): only NaN components are detected locally; an infinite component is not
a NaN. For a position, angular velocity or impulse without NaN component, and a transform
without NaN entry (infinite components allowed), on a body with a motion accessor:
`setPosition`, `setTransform` and `setAngularVelocity` call the motion accessor with that
input and do not invoke `onInvalidParameter`; `applyLinearImpulse`, `applyAngularImpulse`
and `applyPointImpulse` do the same on an Entity body when the system is not paused and
neither `Flag::_400` nor `Flag::_40` is set. -/
theorem setters_infinite (ext : Extern) (b : RigidBody) (v point : Vector3f) (m : Matrix34f)
    (p : Bool) (eps : F32) (a : MotionAccessor)
    (hacc : b.mMotionAccessor = some a)
    (hv : isVectorInvalid v = false) (hpoint : isVectorInvalid point = false)
    (hm : isMatrixInvalid m = false) :
    (∀ x : F32, x.isinf = true → x.isnan = false)
    ∧ setPosition ext v p b = some (callAccessor ext (AccessorCall.setPosition v p) b)
    ∧ setTransform ext m p b = some (callAccessor ext (AccessorCall.setTransform m p) b)
    ∧ setAngularVelocity ext v eps b
        = some (ext.accessorReturn (AccessorCall.setAngularVelocity v eps) b,
            callAccessor ext (AccessorCall.setAngularVelocity v eps) b)
    ∧ (ext.isPaused = false → hasFlag b Flag._400 = false → hasFlag b Flag._40 = false →
        isEntity b = true → a.kind = MotionAccessorKind.Entity →
        applyLinearImpulse ext v b
          = some (callAccessor ext (AccessorCall.applyLinearImpulse v) b)
        ∧ applyAngularImpulse ext v b
          = some (callAccessor ext (AccessorCall.applyAngularImpulse v) b)
        ∧ applyPointImpulse ext v point b
          = some (callAccessor ext (AccessorCall.applyPointImpulse v point) b)) := by
  refine ⟨isnan_of_isinf, by simp [setPosition, hv, hacc], by simp [setTransform, hm, hacc],
    by simp [setAngularVelocity, hv, hacc], ?_⟩
  intro hp h400 h40 he hk
  simp [applyLinearImpulse, applyAngularImpulse, applyPointImpulse, hp, h400, h40, he, hv,
    hpoint, callEntityAccessor, getEntityMotionAccessor, hacc, hk]

/-- Witness for C14 (amended): the Entity body with a motion accessor and the position
(+Inf, 0, 1). -/
theorem setters_infinite_witness :
    isVectorInvalid infVector = false
    ∧ isMatrixInvalid infMatrix = false
    ∧ setPosition specExtern infVector true entityWithUserTag
        = some (callAccessor specExtern (AccessorCall.setPosition infVector true)
            entityWithUserTag) :=
  ⟨by decide, by decide,
    (setters_infinite specExtern entityWithUserTag infVector finiteVector infMatrix true
      F32.zero { kind := MotionAccessorKind.Entity } rfl (by decide) (by decide)
      (by decide)).2.1⟩

/-! ## C15 — Entity-only operations on a Sensor body -/

/-- C15: on a Sensor body, `setMass`, `setInertiaLocal`, `setLinearDamping` and
`setAngularDamping` return with the whole state unchanged; `getMass`, `getMassInv`,
`getLinearDamping` and `getAngularDamping` return `0.0` and `getInertiaLocal` returns
(0, 0, 0); and `applyLinearImpulse`, `applyAngularImpulse` and `applyPointImpulse` with
inputs free of NaN return with the state unchanged, so no motion accessor is reached. -/
theorem sensor_entityOnly_noop (ext : Extern) (b : RigidBody) (hs : isSensor b = true)
    (mass value : F32) (inertia impulse point : Vector3f) :
    setMass ext mass b = some b
    ∧ setInertiaLocal ext inertia b = some b
    ∧ setLinearDamping ext value b = some b
    ∧ setAngularDamping ext value b = some b
    ∧ getMass ext b = some F32.zero
    ∧ getMassInv ext b = some F32.zero
    ∧ getLinearDamping ext b = some F32.zero
    ∧ getAngularDamping ext b = some F32.zero
    ∧ getInertiaLocal ext b = some { x := F32.zero, y := F32.zero, z := F32.zero }
    ∧ (isVectorInvalid impulse = false → applyLinearImpulse ext impulse b = some b)
    ∧ (isVectorInvalid impulse = false → applyAngularImpulse ext impulse b = some b)
    ∧ (isVectorInvalid impulse = false → isVectorInvalid point = false →
        applyPointImpulse ext impulse point b = some b) := by
  have hs2 : BitFlag32.isOn b.mFlags Flag.IsSensor.val = true := hs
  have he : isEntity b = false := by simp [isEntity, hs2]
  refine ⟨by simp [setMass, he], by simp [setInertiaLocal, he], by simp [setLinearDamping, he],
    by simp [setAngularDamping, he], by simp [getMass, he], by simp [getMassInv, he],
    by simp [getLinearDamping, he], by simp [getAngularDamping, he],
    by simp [getInertiaLocal, he], ?_, ?_, ?_⟩
  · intro hv
    simp [applyLinearImpulse, he, hv]
  · intro hv
    simp [applyAngularImpulse, he, hv]
  · intro hv hpt
    simp [applyPointImpulse, he, hv, hpt]

/-- Witness for C15: the Sensor body with a sensor motion accessor. -/
theorem sensor_entityOnly_noop_witness :
    isSensor sensorWithUserTag = true
    ∧ setMass specExtern F32.one sensorWithUserTag = some sensorWithUserTag
    ∧ getMass specExtern sensorWithUserTag = some F32.zero
    ∧ applyLinearImpulse specExtern finiteVector sensorWithUserTag = some sensorWithUserTag :=
  have h := sensor_entityOnly_noop specExtern sensorWithUserTag (by decide) F32.one F32.one
    finiteVector finiteVector finiteVector
  ⟨by decide, h.1, h.2.2.2.2.1, h.2.2.2.2.2.2.2.2.2.1 (by decide)⟩

/-! ## C16, C17 — rejected group handlers and contact layers -/

theorem setCollisionFilterInfo_hasFlag (ext : Extern) (b : RigidBody) (w : Nat) (g : Flag)
    (hg : g ≠ Flag.UpdateRequested) :
    hasFlag (setCollisionFilterInfo ext w b) g = hasFlag b g := by
  have hg2 : ¬ Flag.UpdateRequested = g := fun h => hg h.symm
  by_cases hl : isFlag8Set b = true
  · by_cases hw : b.mHkBody.collisionFilterInfo = w
    · subst hw
      simp [hasFlag, (setCollisionFilterInfo_same ext b).1]
    · have hl2 : BitFlag32.isOn b.mFlags Flag._8.val = true := hl
      by_cases hlay : getContactLayer ext b
          = (if BitFlag32.isOn b.mFlags Flag.IsSensor.val = true then ext.getLayerSensor w
             else ext.getLayer w) <;>
        by_cases hc : BitFlag32.isOn b.mFlags Flag._20.val = false
          ∧ BitFlag32.isOn b.mFlags Flag.UpdateRequested.val = false <;>
        cases hs : b.mHkBody.shape <;>
          simp [setCollisionFilterInfo, getCollisionFilterInfo, lock_eq, unlock_eq, hw, hl, hl2,
            hkSetCollisionFilterInfo, isFlag8Set, hs, hlay, record, setMotionFlag_eq,
            hasFlag, hc, hg2, getContactLayerOf, isSensor]
  · have hl2 : isFlag8Set b = false := by
      cases h : isFlag8Set b
      · rfl
      · exact absurd h hl
    simp [hasFlag, (setCollisionFilterInfo_unlocked ext b w hl2).1]

theorem setContactLayer_getLayerType (ext : Extern) (layer : Nat) (b : RigidBody) :
    getLayerType (setContactLayer ext layer b) = getLayerType b := by
  have h : hasFlag (setContactLayer ext layer b) Flag.IsSensor = hasFlag b Flag.IsSensor := by
    simp only [setContactLayer]
    split_ifs <;>
      first
        | rfl
        | exact setCollisionFilterInfo_hasFlag ext b _ Flag.IsSensor (by decide)
  simp only [hasFlag] at h
  simp only [getLayerType, isSensor, h]

/-- C16: for a non-null group handler whose layer type differs from the body's layer type,
`setSystemGroupHandler(handler)` returns with the whole state unchanged (collision filter
word and motion flags included), and `setContactLayerAndHandler(layer, handler)` does
exactly what `setContactLayer(layer)` does. -/
theorem setSystemGroupHandler_mismatch (ext : Extern) (b : RigidBody)
    (handler : SystemGroupHandler) (layer : Nat)
    (hne : handler.layerType ≠ getLayerType b) :
    setSystemGroupHandler ext (some handler) b = b
    ∧ getCollisionFilterInfo (setSystemGroupHandler ext (some handler) b)
        = getCollisionFilterInfo b
    ∧ (setSystemGroupHandler ext (some handler) b).mMotionFlags = b.mMotionFlags
    ∧ setContactLayerAndHandler ext layer (some handler) b = setContactLayer ext layer b := by
  have key : ∀ b' : RigidBody, handler.layerType ≠ getLayerType b' →
      setSystemGroupHandler ext (some handler) b' = b' := by
    intro b' h
    simp [setSystemGroupHandler, h]
  refine ⟨key b hne, by rw [key b hne], by rw [key b hne], ?_⟩
  unfold setContactLayerAndHandler
  apply key
  rw [setContactLayer_getLayerType]
  exact hne

/-- Witness for C16: the sensor group handler on the unlocked Entity body. -/
theorem setSystemGroupHandler_mismatch_witness :
    sensorGroupHandler.layerType ≠ getLayerType unlockedEntityDynamic
    ∧ setSystemGroupHandler specExtern (some sensorGroupHandler) unlockedEntityDynamic
        = unlockedEntityDynamic :=
  ⟨by decide,
    (setSystemGroupHandler_mismatch specExtern unlockedEntityDynamic sensorGroupHandler 3
      (by decide)).1⟩

/-- C17: for a contact layer whose layer type differs from the body's layer type,
`setContactLayer(layer)` returns with the whole state unchanged: collision filter word,
attribute flags, motion flags and the request queue are as before. -/
theorem setContactLayer_mismatch (ext : Extern) (b : RigidBody) (layer : Nat)
    (hne : ext.getContactLayerType layer ≠ getLayerType b) :
    setContactLayer ext layer b = b
    ∧ getCollisionFilterInfo (setContactLayer ext layer b) = getCollisionFilterInfo b
    ∧ (setContactLayer ext layer b).mFlags = b.mFlags
    ∧ (setContactLayer ext layer b).mMotionFlags = b.mMotionFlags
    ∧ (setContactLayer ext layer b).calls = b.calls := by
  have h : setContactLayer ext layer b = b := by
    have hne2 : ¬ getLayerType b = ext.getContactLayerType layer := fun h => hne h.symm
    simp [setContactLayer, hne2]
  exact ⟨h, by rw [h], by rw [h], by rw [h], by rw [h]⟩

/-- Witness for C17: the sensor layer `0x20` on the locked Entity body. -/
theorem setContactLayer_mismatch_witness :
    specExtern.getContactLayerType 0x20 ≠ getLayerType lockedEntityDynamic
    ∧ setContactLayer specExtern 0x20 lockedEntityDynamic = lockedEntityDynamic :=
  ⟨by decide, (setContactLayer_mismatch specExtern lockedEntityDynamic 0x20 (by decide)).1⟩

/-! ## C18, C19 — collidable quality type -/

theorem replaceMotionObject_qualityType (ext : Extern) (b b' : RigidBody)
    (h : replaceMotionObject ext b = some b') :
    (hasMotionFlag b MotionFlag.Fixed = true →
      b'.mHkBody.qualityType = hkpCollidableQualityType.FIXED)
    ∧ (hasMotionFlag b MotionFlag.Fixed = false → hasMotionFlag b MotionFlag.Keyframed = true →
        b'.mHkBody.qualityType
          = if isEntity b && hasFlag b Flag.HighQualityCollidable
            then hkpCollidableQualityType.MOVING
            else hkpCollidableQualityType.KEYFRAMED_REPORTING)
    ∧ (hasMotionFlag b MotionFlag.Fixed = false → hasMotionFlag b MotionFlag.Keyframed = false →
        hasMotionFlag b MotionFlag.Dynamic = true →
        b'.mHkBody.qualityType
          = if hasFlag b Flag.HighQualityCollidable
            then hkpCollidableQualityType.BULLET
            else hkpCollidableQualityType.DEBRIS_SIMPLE_TOI) := by
  refine ⟨?_, ?_, ?_⟩
  · intro hF
    simp only [replaceMotionObject, hF, if_true, Option.some.injEq] at h
    subst h
    rfl
  · intro hF hK
    simp only [replaceMotionObject, hF, hK, if_true, Bool.false_eq_true, if_false,
      Option.some.injEq] at h
    subst h
    rfl
  · intro hF hK hD
    simp only [replaceMotionObject, hF, hK, hD, if_true, Bool.false_eq_true, if_false] at h
    cases hacc : getEntityMotionAccessor b with
    | none => simp [hacc] at h
    | some a =>
      simp only [hacc, Option.some.injEq] at h
      subst h
      rfl

/-- C18: evaluation at the failing input. On the Entity body of type `CharacterController`
(high-quality, collidable quality `CHARACTER`) with a pending change to Fixed,
`replaceMotionObject()` sets the collidable quality to `FIXED`, where the claimed lookup
gives `CHARACTER`; `updateCollidableQualityType` on the same body gives `CHARACTER`. -/
theorem replaceMotionObject_characterController :
    isCharacterControllerType characterControllerPendingFixed = true
    ∧ hasMotionFlag characterControllerPendingFixed MotionFlag.Fixed = true
    ∧ characterControllerPendingFixed.mHkBody.qualityType = hkpCollidableQualityType.CHARACTER
    ∧ (replaceMotionObject specExtern characterControllerPendingFixed).map
          (fun r => r.mHkBody.qualityType)
        = some hkpCollidableQualityType.FIXED
    ∧ (updateCollidableQualityType true characterControllerPendingFixed).mHkBody.qualityType
        = hkpCollidableQualityType.CHARACTER := by
  decide

theorem getMotionType_lock (w : Bool) (b : RigidBody) :
    getMotionType (lock w b) = getMotionType b := by
  cases w <;> rfl

theorem lock_mFlags (w : Bool) (b : RigidBody) : (lock w b).mFlags = b.mFlags := by
  cases w <;> rfl

theorem lock_mHkBody (w : Bool) (b : RigidBody) : (lock w b).mHkBody = b.mHkBody := by
  cases w <;> rfl

theorem lock_mType (w : Bool) (b : RigidBody) : (lock w b).mType = b.mType := by
  cases w <;> rfl

theorem unlock_mFlags (w : Bool) (b : RigidBody) : (unlock w b).mFlags = b.mFlags := by
  cases w <;> rfl

theorem unlock_mHkBody (w : Bool) (b : RigidBody) : (unlock w b).mHkBody = b.mHkBody := by
  cases w <;> rfl

/-- C19: `updateCollidableQualityType(high_quality)` on a `CharacterController` body sets
the quality `CHARACTER` and sets `HighQualityCollidable`, whatever the argument. On any
other body it sets, by `getMotionType()`: `FIXED` for Fixed; `MOVING` for Keyframed when the
body is an Entity and `high_quality` is true, `KEYFRAMED_REPORTING` otherwise; `BULLET` for
Dynamic when `high_quality`, `DEBRIS_SIMPLE_TOI` otherwise; it leaves the quality untouched
for Unknown and Invalid; and afterwards `HighQualityCollidable` equals `high_quality`. -/
theorem updateCollidableQualityType_lookup (b : RigidBody) (high_quality : Bool) :
    (isCharacterControllerType b = true →
      (updateCollidableQualityType high_quality b).mHkBody.qualityType
        = hkpCollidableQualityType.CHARACTER
      ∧ hasFlag (updateCollidableQualityType high_quality b) Flag.HighQualityCollidable = true)
    ∧ (isCharacterControllerType b = false →
        (getMotionType b = MotionType.Fixed →
          (updateCollidableQualityType high_quality b).mHkBody.qualityType
            = hkpCollidableQualityType.FIXED)
        ∧ (getMotionType b = MotionType.Keyframed →
            (updateCollidableQualityType high_quality b).mHkBody.qualityType
              = if isEntity b && high_quality then hkpCollidableQualityType.MOVING
                else hkpCollidableQualityType.KEYFRAMED_REPORTING)
        ∧ (getMotionType b = MotionType.Dynamic →
            (updateCollidableQualityType high_quality b).mHkBody.qualityType
              = if high_quality then hkpCollidableQualityType.BULLET
                else hkpCollidableQualityType.DEBRIS_SIMPLE_TOI)
        ∧ (getMotionType b = MotionType.Unknown ∨ getMotionType b = MotionType.Invalid →
            (updateCollidableQualityType high_quality b).mHkBody.qualityType
              = b.mHkBody.qualityType)
        ∧ hasFlag (updateCollidableQualityType high_quality b) Flag.HighQualityCollidable
            = high_quality) := by
  have hcc : ∀ w, isCharacterControllerType (lock w b) = isCharacterControllerType b := by
    intro w; cases w <;> rfl
  have hent : ∀ w, isEntity (lock w b) = isEntity b := by
    intro w; cases w <;> rfl
  refine ⟨?_, ?_⟩
  · intro h
    simp [updateCollidableQualityType, hcc, h, unlock_mFlags, unlock_mHkBody, setFlag,
      setCollidableQualityType, hasFlag]
  · intro h
    refine ⟨?_, ?_, ?_, ?_, ?_⟩
    · intro hm
      simp [updateCollidableQualityType, hcc, h, getMotionType_lock, hm, unlock_mHkBody,
        changeFlag, setCollidableQualityType]
    · intro hm
      simp [updateCollidableQualityType, hcc, h, getMotionType_lock, hm, unlock_mHkBody,
        changeFlag, setCollidableQualityType, hent]
    · intro hm
      simp [updateCollidableQualityType, hcc, h, getMotionType_lock, hm, unlock_mHkBody,
        changeFlag, setCollidableQualityType]
    · intro hm
      rcases hm with hm | hm <;>
        simp [updateCollidableQualityType, hcc, h, getMotionType_lock, hm, unlock_mHkBody,
          changeFlag, lock_mHkBody]
    · cases hmt : getMotionType b <;> cases high_quality <;>
        simp [updateCollidableQualityType, hcc, h, getMotionType_lock, hmt, unlock_mFlags,
          changeFlag, setCollidableQualityType, hasFlag, BitFlag32.change, lock_mFlags]

/-- Witness for C19: the `CharacterController` body gets `CHARACTER` with the argument
`false`, and the locked Entity body with a dynamic solver motion gets `BULLET` with the
argument `true`. -/
theorem updateCollidableQualityType_lookup_witness :
    isCharacterControllerType characterControllerPendingFixed = true
    ∧ (updateCollidableQualityType false characterControllerPendingFixed).mHkBody.qualityType
        = hkpCollidableQualityType.CHARACTER
    ∧ hasFlag (updateCollidableQualityType false characterControllerPendingFixed)
        Flag.HighQualityCollidable = true
    ∧ isCharacterControllerType lockedEntityDynamic = false
    ∧ getMotionType lockedEntityDynamic = MotionType.Dynamic
    ∧ (updateCollidableQualityType true lockedEntityDynamic).mHkBody.qualityType
        = hkpCollidableQualityType.BULLET :=
  have h1 := (updateCollidableQualityType_lookup characterControllerPendingFixed false).1
    (by decide)
  have h2 := ((updateCollidableQualityType_lookup lockedEntityDynamic true).2
    (by decide)).2.2.1 (by decide)
  ⟨by decide, h1.1, h1.2, by decide, by decide, h2⟩

/-! ## C20 — lock order -/

/-- C20, as stated, fails: `lock(true)` on the locked Entity body first takes the world
lock of the Entity layer type and then the body mutex, not the body mutex first. -/
theorem lock_order_counterexample :
    (lock true lockedEntityDynamic).locks
      = [LockOp.lockWorld ContactLayerType.Entity, LockOp.lockBody]
    ∧ (lock true lockedEntityDynamic).locks
      ≠ [LockOp.lockBody, LockOp.lockWorld ContactLayerType.Entity] := by
  decide

/-- C20 (amended): `lock(true)` acquires the layer-type-keyed world lock first and the
body's own mutex second; `unlock(true)` releases the body's mutex first and the world lock
second, the opposite order of acquisition; `lock(false)` and `unlock(false)` touch the
body's mutex only. An operation that makes a `ScopedLock` while the body is locked-for-step,
such as `updateCollidableQualityType`, therefore takes world lock, body mutex, and releases
body mutex, world lock. -/
theorem lock_order (b : RigidBody) :
    (lock true b).locks = b.locks ++ [LockOp.lockWorld (getLayerType b), LockOp.lockBody]
    ∧ (unlock true b).locks
        = b.locks ++ [LockOp.unlockBody, LockOp.unlockWorld (getLayerType b)]
    ∧ (lock false b).locks = b.locks ++ [LockOp.lockBody]
    ∧ (unlock false b).locks = b.locks ++ [LockOp.unlockBody]
    ∧ (∀ high_quality : Bool, isFlag8Set b = true →
        (updateCollidableQualityType high_quality b).locks
          = b.locks ++ [LockOp.lockWorld (getLayerType b), LockOp.lockBody,
              LockOp.unlockBody, LockOp.unlockWorld (getLayerType b)]) := by
  refine ⟨by simp [lock_eq], by simp [unlock_eq], by simp [lock_eq], by simp [unlock_eq], ?_⟩
  intro hq hl
  have hl2 : BitFlag32.isOn b.mFlags Flag._8.val = true := hl
  have hmtl : getMotionType (lock true b) = getMotionType b := getMotionType_lock true b
  by_cases hcc : isCharacterControllerType b = true
  · have hccl : isCharacterControllerType (lock true b) = true := hcc
    simp only [updateCollidableQualityType, hl, hccl, if_true]
    simp [lock_eq, unlock_eq, setFlag, setCollidableQualityType, getLayerType, isSensor]
  · have hccl : ¬ isCharacterControllerType (lock true b) = true := hcc
    simp only [updateCollidableQualityType, hl, hccl, if_false, hmtl]
    cases getMotionType b <;> cases hq <;>
      simp [lock_eq, unlock_eq, changeFlag, setCollidableQualityType, getLayerType, isSensor,
        BitFlag32.change]

/-- Witness for C20 (amended): `updateCollidableQualityType` on the locked Entity body. -/
theorem lock_order_witness :
    isFlag8Set lockedEntityDynamic = true
    ∧ (updateCollidableQualityType true lockedEntityDynamic).locks
        = [LockOp.lockWorld ContactLayerType.Entity, LockOp.lockBody, LockOp.unlockBody,
            LockOp.unlockWorld ContactLayerType.Entity] :=
  ⟨by decide, (lock_order lockedEntityDynamic).2.2.2.2 true (by decide)⟩

/-! ## Frame facts about the attribute flags -/

theorem hasFlag_setFlag (f g : Flag) (b : RigidBody) :
    hasFlag (setFlag f b) g = (decide (f = g) || hasFlag b g) := by
  simp [hasFlag, setFlag]

theorem hasFlag_resetFlag (f g : Flag) (b : RigidBody) :
    hasFlag (resetFlag f b) g = (!decide (f = g) && hasFlag b g) := by
  simp [hasFlag, resetFlag]

theorem hasFlag_changeFlag (f g : Flag) (v : Bool) (b : RigidBody) :
    hasFlag (changeFlag f v b) g = if f = g then v else hasFlag b g := by
  by_cases h : f = g <;> cases v <;> simp [hasFlag, changeFlag, BitFlag32.change, h]

theorem hasFlag_setMotionFlag (flag : MotionFlag) (g : Flag) (b : RigidBody)
    (hg : g ≠ Flag.UpdateRequested) :
    hasFlag (setMotionFlag flag b) g = hasFlag b g := by
  have hg2 : ¬ Flag.UpdateRequested = g := fun h => hg h.symm
  rw [setMotionFlag_eq]
  simp only [hasFlag]
  split_ifs <;> simp [hg2]

theorem hasFlag_lock (w : Bool) (g : Flag) (b : RigidBody) :
    hasFlag (lock w b) g = hasFlag b g := by
  cases w <;> rfl

theorem hasFlag_unlock (w : Bool) (g : Flag) (b : RigidBody) :
    hasFlag (unlock w b) g = hasFlag b g := by
  cases w <;> rfl

theorem hasFlag_onInvalidParameter (code : Int) (g : Flag) (b : RigidBody) :
    hasFlag (onInvalidParameter code b) g = hasFlag b g := by
  simp only [onInvalidParameter, notifyUserTag]
  cases b.mUserTag <;> rfl

theorem mMotionAccessor_onInvalidParameter (code : Int) (b : RigidBody) :
    (onInvalidParameter code b).mMotionAccessor = b.mMotionAccessor := by
  simp only [onInvalidParameter, notifyUserTag]
  cases b.mUserTag <;> rfl

theorem hasFlag_callAccessor (ext : Extern) (hext : ext.KeepsFlags) (c : AccessorCall)
    (g : Flag) (b : RigidBody) (hg : g ≠ Flag.UpdateRequested) :
    hasFlag (callAccessor ext c b) g = hasFlag b g := by
  have h := hext.accessor_hasFlag c b g hg
  simpa [callAccessor, record, hasFlag] using h

theorem mMotionAccessor_callAccessor (ext : Extern) (hext : ext.KeepsFlags)
    (c : AccessorCall) (b : RigidBody) :
    (callAccessor ext c b).mMotionAccessor = b.mMotionAccessor := by
  have h := hext.accessor_mMotionAccessor c b
  simpa [callAccessor, record] using h

theorem isVectorInvalid_zero : isVectorInvalid Vector3f.zero = false := by
  decide

theorem specExtern_keepsFlags : specExtern.KeepsFlags :=
  ⟨fun _ _ _ _ => rfl, fun _ _ => rfl, fun _ _ _ => rfl⟩

/-! ## C28 — the response-modifier flag set by the constructor -/

/-- C28: the constructor tests `mFlags.isOff(Flag::IsSensor)` while `mFlags` still has its
initial value, four statements before it stores the layer type in `Flag::IsSensor`, so the
test always succeeds: `MASS_SCALING` is OR-ed into the response-modifier flags of the solver
body for both layer types, also for `ContactLayerType::Sensor`. -/
theorem construct_responseModifierFlags (ext : Extern) (type : BodyType)
    (layer_type : ContactLayerType) (hk_body : HkBody) (a7 : Bool) :
    (construct ext type layer_type hk_body a7).mHkBody.responseModifierFlags
      = hk_body.responseModifierFlags ||| ext.MASS_SCALING
    ∧ (construct specExtern BodyType._1 ContactLayerType.Sensor freshHkBody
        false).mHkBody.responseModifierFlags = 1
    ∧ freshHkBody.responseModifierFlags = 0
    ∧ isSensor (construct specExtern BodyType._1 ContactLayerType.Sensor freshHkBody false)
        = true := by
  refine ⟨?_, by decide, by decide, by decide⟩
  simp [construct, enableDeactivation, changeFlag, setFlag, BitFlag32.isOff, BitFlag32.isOn]

/-! ## C26 — `freeze` on a body without a motion accessor -/

theorem setAngularVelocity_zero_null (ext : Extern) (b : RigidBody)
    (h : b.mMotionAccessor = none) :
    setAngularVelocity ext Vector3f.zero F32.epsilon b = none := by
  simp [setAngularVelocity, isVectorInvalid_zero, h]

/-- C26: on a body whose motion accessor is null, `freeze(should_freeze, ...)` sets
`Flag::Frozen` to `should_freeze` without a call through the accessor only when the flag
differs from `should_freeze`, or when both are false. When `Flag::Frozen` is already set
and `should_freeze` is true, the first branch calls `setLinearVelocity(zero)` and
`setAngularVelocity(zero)`, and the latter calls through the null `mMotionAccessor`: the
embedding answers `none`. The state is reached by calling `freeze(true, ...)` twice on a
newly constructed body. -/
theorem freeze_null_accessor (ext : Extern)
    (should_freeze preserve_velocities preserve_max_impulse : Bool) (b : RigidBody)
    (h : b.mMotionAccessor = none) :
    freeze ext should_freeze preserve_velocities preserve_max_impulse b
      = if hasFlag b Flag.Frozen = true ∧ should_freeze = true then none
        else if hasFlag b Flag.Frozen = should_freeze then some b
        else some (changeFlag Flag.Frozen should_freeze b) := by
  by_cases hf : hasFlag b Flag.Frozen = true <;> cases should_freeze
  · simp [freeze, hf, h]
  · simp only [freeze, hf, beq_self_eq_true, if_true, and_self]
    simp only [setLinearVelocity, isVectorInvalid_zero, Bool.false_eq_true, if_false, h]
    split_ifs
    · simp [setAngularVelocity_zero_null ext _
        ((mMotionAccessor_onInvalidParameter 1 b).trans h)]
    · rfl
  · simp [freeze, hf, h]
  · simp [freeze, hf, h]

/-- Witness for C26: `freeze(true, ...)` on the frozen body without an accessor, and twice
on a newly constructed body. -/
theorem freeze_null_accessor_witness :
    frozenWithoutAccessor.mMotionAccessor = none
    ∧ hasFlag frozenWithoutAccessor Flag.Frozen = true
    ∧ freeze specExtern true false false frozenWithoutAccessor = none
    ∧ ((freeze specExtern true false false
          (construct specExtern BodyType._1 ContactLayerType.Entity freshHkBody false)).bind
        (freeze specExtern true false false)) = none :=
  ⟨rfl, by decide,
    (freeze_null_accessor specExtern true false false frozenWithoutAccessor rfl).trans
      (by decide),
    by decide⟩

/-! ## C27 — deactivation follows the suppression flags -/

theorem updateDeactivation_mFlags (b : RigidBody) : (updateDeactivation b).mFlags = b.mFlags := by
  simp only [updateDeactivation]
  split_ifs <;> rfl

theorem updateDeactivation_matches (b : RigidBody) :
    deactivationMatchesFlags (updateDeactivation b) = true := by
  simp only [updateDeactivation, deactivationMatchesFlags, hasFlag]
  split_ifs with h1 h2 h3 <;>
    simp_all [enableDeactivation]

theorem construct_eq (ext : Extern) (type : BodyType) (layer_type : ContactLayerType)
    (hk_body : HkBody) (a7 : Bool) :
    construct ext type layer_type hk_body a7
      = (({ mHkBody :=
              { hk_body with
                deactivationEnabled := true
                responseModifierFlags := hk_body.responseModifierFlags ||| ext.MASS_SCALING }
            mType := type } : RigidBody)
          |> changeFlag Flag.HighQualityCollidable (type == BodyType.CharacterController)
          |> changeFlag Flag.IsSensor (layer_type == ContactLayerType.Sensor)
          |> changeFlag Flag._10 a7
          |> setFlag Flag.UseSystemTimeFactor) := by
  have h0 : BitFlag32.isOff 0 Flag.IsSensor.val = true := by decide
  simp [construct, enableDeactivation, h0, isCharacterControllerType]

theorem hasFlag_construct (ext : Extern) (type : BodyType) (layer_type : ContactLayerType)
    (hk_body : HkBody) (a7 : Bool) (g : Flag) :
    hasFlag (construct ext type layer_type hk_body a7) g
      = if g = Flag.UseSystemTimeFactor then true
        else if g = Flag._10 then a7
        else if g = Flag.IsSensor then layer_type == ContactLayerType.Sensor
        else if g = Flag.HighQualityCollidable then type == BodyType.CharacterController
        else false := by
  rw [construct_eq]
  simp only [hasFlag_setFlag, hasFlag_changeFlag]
  have h0 : ∀ x : RigidBody, x.mFlags = 0 → hasFlag x g = false := by
    intro x hx
    simp [hasFlag, hx, BitFlag32.isOn]
  rw [h0 _ rfl]
  by_cases h1 : g = Flag.UseSystemTimeFactor
  · simp [h1]
  · by_cases h2 : g = Flag._10
    · simp [h2]
    · by_cases h3 : g = Flag.IsSensor
      · simp [h3]
      · by_cases h4 : g = Flag.HighQualityCollidable
        · simp [h4]
        · simp [h1, h2, h3, h4, eq_comm]

theorem construct_deactivationEnabled (ext : Extern) (type : BodyType)
    (layer_type : ContactLayerType) (hk_body : HkBody) (a7 : Bool) :
    (construct ext type layer_type hk_body a7).mHkBody.deactivationEnabled = true := by
  rw [construct_eq]
  rfl

/-- C27: a newly constructed body is not locked-for-step, has none of `Flag::_2000000`,
`Flag::_4000000`, `Flag::_8000000` set and has the solver's deactivation enabled, so
"deactivation is enabled iff none of the three flags is set" holds. For a body that is not
locked-for-step on which the predicate holds, each of `clearFlag2000000(clear)`,
`clearFlag4000000(clear)`, `clearFlag8000000(clear)` keeps the predicate and leaves the body
not locked-for-step; afterwards the targeted flag is off iff `clear` is true and the two
other flags are as before. -/
theorem clearFlag_deactivation (ext : Extern) (type : BodyType) (layer_type : ContactLayerType)
    (hk_body : HkBody) (a7 : Bool) (b : RigidBody) (clear : Bool)
    (hl : isFlag8Set b = false) (hinv : deactivationMatchesFlags b = true) :
    (isFlag8Set (construct ext type layer_type hk_body a7) = false
      ∧ deactivationMatchesFlags (construct ext type layer_type hk_body a7) = true)
    ∧ (deactivationMatchesFlags (clearFlag2000000 clear b) = true
      ∧ isFlag8Set (clearFlag2000000 clear b) = false
      ∧ hasFlag (clearFlag2000000 clear b) Flag._2000000 = !clear
      ∧ hasFlag (clearFlag2000000 clear b) Flag._4000000 = hasFlag b Flag._4000000
      ∧ hasFlag (clearFlag2000000 clear b) Flag._8000000 = hasFlag b Flag._8000000)
    ∧ (deactivationMatchesFlags (clearFlag4000000 clear b) = true
      ∧ isFlag8Set (clearFlag4000000 clear b) = false
      ∧ hasFlag (clearFlag4000000 clear b) Flag._4000000 = !clear
      ∧ hasFlag (clearFlag4000000 clear b) Flag._2000000 = hasFlag b Flag._2000000
      ∧ hasFlag (clearFlag4000000 clear b) Flag._8000000 = hasFlag b Flag._8000000)
    ∧ (deactivationMatchesFlags (clearFlag8000000 clear b) = true
      ∧ isFlag8Set (clearFlag8000000 clear b) = false
      ∧ hasFlag (clearFlag8000000 clear b) Flag._8000000 = !clear
      ∧ hasFlag (clearFlag8000000 clear b) Flag._2000000 = hasFlag b Flag._2000000
      ∧ hasFlag (clearFlag8000000 clear b) Flag._4000000 = hasFlag b Flag._4000000) := by
  have hl2 : BitFlag32.isOn b.mFlags Flag._8.val = false := hl
  refine ⟨⟨?_, ?_⟩, ?_, ?_, ?_⟩
  · have h := hasFlag_construct ext type layer_type hk_body a7 Flag._8
    simpa [hasFlag] using h
  · simp [deactivationMatchesFlags, hasFlag_construct, construct_deactivationEnabled]
  · by_cases hc : BitFlag32.isOff b.mFlags Flag._2000000.val = clear
    · have hc2 : BitFlag32.isOn b.mFlags Flag._2000000.val = !clear := by
        rw [← hc]; simp [BitFlag32.isOff]
      simp [clearFlag2000000, hc, hinv, hl, hasFlag, hc2]
    · have h8 : isFlag8Set (changeFlag Flag._2000000 (!clear) b) = false := by
        have := hasFlag_changeFlag Flag._2000000 Flag._8 (!clear) b
        simpa [hasFlag, hl2] using this
      simp only [clearFlag2000000, beq_iff_eq, hc, if_false, h8, Bool.false_eq_true]
      refine ⟨updateDeactivation_matches _, ?_, ?_, ?_, ?_⟩
      · simpa [isFlag8Set, updateDeactivation_mFlags] using h8
      · simp [hasFlag, updateDeactivation_mFlags]
        simpa [hasFlag] using hasFlag_changeFlag Flag._2000000 Flag._2000000 (!clear) b
      · simp [hasFlag, updateDeactivation_mFlags]
        simpa [hasFlag] using hasFlag_changeFlag Flag._2000000 Flag._4000000 (!clear) b
      · simp [hasFlag, updateDeactivation_mFlags]
        simpa [hasFlag] using hasFlag_changeFlag Flag._2000000 Flag._8000000 (!clear) b
  · by_cases hc : BitFlag32.isOff b.mFlags Flag._4000000.val = clear
    · have hc2 : BitFlag32.isOn b.mFlags Flag._4000000.val = !clear := by
        rw [← hc]; simp [BitFlag32.isOff]
      simp [clearFlag4000000, hc, hinv, hl, hasFlag, hc2]
    · have h8 : isFlag8Set (changeFlag Flag._4000000 (!clear) b) = false := by
        have := hasFlag_changeFlag Flag._4000000 Flag._8 (!clear) b
        simpa [hasFlag, hl2] using this
      simp only [clearFlag4000000, beq_iff_eq, hc, if_false, h8, Bool.false_eq_true]
      refine ⟨updateDeactivation_matches _, ?_, ?_, ?_, ?_⟩
      · simpa [isFlag8Set, updateDeactivation_mFlags] using h8
      · simp [hasFlag, updateDeactivation_mFlags]
        simpa [hasFlag] using hasFlag_changeFlag Flag._4000000 Flag._4000000 (!clear) b
      · simp [hasFlag, updateDeactivation_mFlags]
        simpa [hasFlag] using hasFlag_changeFlag Flag._4000000 Flag._2000000 (!clear) b
      · simp [hasFlag, updateDeactivation_mFlags]
        simpa [hasFlag] using hasFlag_changeFlag Flag._4000000 Flag._8000000 (!clear) b
  · by_cases hc : BitFlag32.isOff b.mFlags Flag._8000000.val = clear
    · have hc2 : BitFlag32.isOn b.mFlags Flag._8000000.val = !clear := by
        rw [← hc]; simp [BitFlag32.isOff]
      simp [clearFlag8000000, hc, hinv, hl, hasFlag, hc2]
    · have h8 : isFlag8Set (changeFlag Flag._8000000 (!clear) b) = false := by
        have := hasFlag_changeFlag Flag._8000000 Flag._8 (!clear) b
        simpa [hasFlag, hl2] using this
      simp only [clearFlag8000000, beq_iff_eq, hc, if_false, h8, Bool.false_eq_true]
      refine ⟨updateDeactivation_matches _, ?_, ?_, ?_, ?_⟩
      · simpa [isFlag8Set, updateDeactivation_mFlags] using h8
      · simp [hasFlag, updateDeactivation_mFlags]
        simpa [hasFlag] using hasFlag_changeFlag Flag._8000000 Flag._8000000 (!clear) b
      · simp [hasFlag, updateDeactivation_mFlags]
        simpa [hasFlag] using hasFlag_changeFlag Flag._8000000 Flag._2000000 (!clear) b
      · simp [hasFlag, updateDeactivation_mFlags]
        simpa [hasFlag] using hasFlag_changeFlag Flag._8000000 Flag._4000000 (!clear) b

/-- Witness for C27: `clearFlag4000000(false)` on the unlocked Entity body, whose
deactivation is enabled and which has no suppression flag set, sets the flag and disables
the deactivation. -/
theorem clearFlag_deactivation_witness :
    isFlag8Set unlockedEntityDynamic = false
    ∧ deactivationMatchesFlags unlockedEntityDynamic = true
    ∧ (deactivationMatchesFlags (clearFlag4000000 false unlockedEntityDynamic) = true
      ∧ isFlag8Set (clearFlag4000000 false unlockedEntityDynamic) = false
      ∧ hasFlag (clearFlag4000000 false unlockedEntityDynamic) Flag._4000000 = !false
      ∧ hasFlag (clearFlag4000000 false unlockedEntityDynamic) Flag._2000000
          = hasFlag unlockedEntityDynamic Flag._2000000
      ∧ hasFlag (clearFlag4000000 false unlockedEntityDynamic) Flag._8000000
          = hasFlag unlockedEntityDynamic Flag._8000000)
    ∧ (clearFlag4000000 false unlockedEntityDynamic).mHkBody.deactivationEnabled = false :=
  ⟨by decide, by decide,
    (clearFlag_deactivation specExtern BodyType._1 ContactLayerType.Entity freshHkBody false
      unlockedEntityDynamic false (by decide) (by decide)).2.2.1,
    by decide⟩

/-! ## C30 — `updateMotionTypeRelatedFlags` and `triggerScheduledMotionTypeChange` -/

theorem updateMotionTypeRelatedFlags_frame (b : RigidBody) :
    (updateMotionTypeRelatedFlags b).mMotionFlags = b.mMotionFlags
    ∧ (updateMotionTypeRelatedFlags b).mHkBody = b.mHkBody
    ∧ (updateMotionTypeRelatedFlags b).calls = b.calls
    ∧ (updateMotionTypeRelatedFlags b).mMotionAccessor = b.mMotionAccessor := by
  simp only [updateMotionTypeRelatedFlags]
  split_ifs
  · exact ⟨rfl, rfl, rfl, rfl⟩
  · cases getMotionType b <;> exact ⟨rfl, rfl, rfl, rfl⟩

theorem getMotionType_updateMotionTypeRelatedFlags (b : RigidBody) :
    getMotionType (updateMotionTypeRelatedFlags b) = getMotionType b := by
  have h := updateMotionTypeRelatedFlags_frame b
  simp [getMotionType, hasMotionFlag, h.1, h.2.1]

theorem hasFlag_updateMotionTypeRelatedFlags (b : RigidBody) (g : Flag)
    (h20 : hasFlag b Flag._20000000 = false) (h40 : hasFlag b Flag._40000000 = false)
    (h80 : hasFlag b Flag._80000000 = false) :
    hasFlag (updateMotionTypeRelatedFlags b) g
      = if g = Flag._20000000 then decide (getMotionType b = MotionType.Keyframed)
        else if g = Flag._40000000 then decide (getMotionType b = MotionType.Fixed)
        else if g = Flag._80000000 then decide (getMotionType b = MotionType.Dynamic)
        else hasFlag b g := by
  simp only [updateMotionTypeRelatedFlags, h20, h40, h80, Bool.or_self, Bool.false_eq_true,
    if_false]
  by_cases g20 : g = Flag._20000000
  · subst g20
    cases getMotionType b <;> simp [hasFlag_setFlag, hasFlag_resetFlag, h20]
  · by_cases g40 : g = Flag._40000000
    · subst g40
      cases getMotionType b <;> simp [hasFlag_setFlag, hasFlag_resetFlag, h40]
    · by_cases g80 : g = Flag._80000000
      · subst g80
        cases getMotionType b <;> simp [hasFlag_setFlag, hasFlag_resetFlag, h80]
      · cases getMotionType b <;>
          simp [hasFlag_setFlag, hasFlag_resetFlag, g20, g40, g80, eq_comm]

/-- C30: on a body with none of `Flag::_20000000`, `Flag::_40000000`, `Flag::_80000000`
set, `updateMotionTypeRelatedFlags()` sets `_20000000` iff `getMotionType()` is Keyframed,
`_40000000` iff it is Fixed and `_80000000` iff it is Dynamic (none for Unknown and
Invalid), and changes no other attribute flag, no motion flag and nothing of the solver
body; on a body with one of the three flags set it changes nothing. A following
`triggerScheduledMotionTypeChange()` leaves all three flags clear, every attribute flag as
it was before the two calls, and the motion flags, the solver body and the list of calls
to collaborators unchanged. -/
theorem updateMotionTypeRelatedFlags_snapshot (ext : Extern) (b : RigidBody)
    (h20 : hasFlag b Flag._20000000 = false) (h40 : hasFlag b Flag._40000000 = false)
    (h80 : hasFlag b Flag._80000000 = false) :
    (hasFlag (updateMotionTypeRelatedFlags b) Flag._20000000
        = decide (getMotionType b = MotionType.Keyframed)
      ∧ hasFlag (updateMotionTypeRelatedFlags b) Flag._40000000
        = decide (getMotionType b = MotionType.Fixed)
      ∧ hasFlag (updateMotionTypeRelatedFlags b) Flag._80000000
        = decide (getMotionType b = MotionType.Dynamic)
      ∧ (∀ g, g ≠ Flag._20000000 → g ≠ Flag._40000000 → g ≠ Flag._80000000 →
          hasFlag (updateMotionTypeRelatedFlags b) g = hasFlag b g)
      ∧ (updateMotionTypeRelatedFlags b).mMotionFlags = b.mMotionFlags
      ∧ (updateMotionTypeRelatedFlags b).mHkBody = b.mHkBody)
    ∧ (∀ c : RigidBody, (hasFlag c Flag._20000000 || hasFlag c Flag._80000000
          || hasFlag c Flag._40000000) = true → updateMotionTypeRelatedFlags c = c)
    ∧ ((∀ g, hasFlag (triggerScheduledMotionTypeChange ext (updateMotionTypeRelatedFlags b)) g
          = hasFlag b g)
      ∧ (triggerScheduledMotionTypeChange ext (updateMotionTypeRelatedFlags b)).mMotionFlags
          = b.mMotionFlags
      ∧ (triggerScheduledMotionTypeChange ext (updateMotionTypeRelatedFlags b)).mHkBody
          = b.mHkBody
      ∧ (triggerScheduledMotionTypeChange ext (updateMotionTypeRelatedFlags b)).calls
          = b.calls) := by
  have hfr := updateMotionTypeRelatedFlags_frame b
  have hmt := getMotionType_updateMotionTypeRelatedFlags b
  have hu := fun g => hasFlag_updateMotionTypeRelatedFlags b g h20 h40 h80
  refine ⟨⟨?_, ?_, ?_, ?_, hfr.1, hfr.2.1⟩, ?_, ?_⟩
  · simp [hu]
  · simp [hu]
  · simp [hu]
  · intro g g20 g40 g80
    simp [hu, g20, g40, g80]
  · intro c hc
    simp [updateMotionTypeRelatedFlags, hc]
  · have hg : ∀ (f g : Flag),
        (f = Flag._20000000 ∨ f = Flag._40000000 ∨ f = Flag._80000000) →
        hasFlag (updateMotionTypeRelatedFlags b) f = true →
        hasFlag (resetFlag f (updateMotionTypeRelatedFlags b)) g = hasFlag b g := by
      intro f g hf hon
      rw [hasFlag_resetFlag]
      by_cases hfg : f = g
      · subst hfg
        rcases hf with hf | hf | hf <;> subst hf <;> simp [h20, h40, h80]
      · rw [hu] at hon
        rw [hu]
        by_cases g20 : g = Flag._20000000
        · subst g20
          rcases hf with hf | hf | hf <;> subst hf <;> simp_all
        · by_cases g40 : g = Flag._40000000
          · subst g40
            rcases hf with hf | hf | hf <;> subst hf <;> simp_all
          · by_cases g80 : g = Flag._80000000
            · subst g80
              rcases hf with hf | hf | hf <;> subst hf <;> simp_all
            · simp [hfg, g20, g40, g80]
    cases hT : getMotionType b
    · have hno := changeMotionType_noop ext MotionType.Dynamic
        (updateMotionTypeRelatedFlags b) (hmt.trans hT)
      have hk : triggerScheduledMotionTypeChange ext (updateMotionTypeRelatedFlags b)
          = resetFlag Flag._80000000 (updateMotionTypeRelatedFlags b) := by
        simp [triggerScheduledMotionTypeChange, hu, hT, hno]
      rw [hk]
      exact ⟨fun g => hg _ g (Or.inr (Or.inr rfl)) (by simp [hu, hT]), hfr.1, hfr.2.1,
        hfr.2.2.1⟩
    · have hno := changeMotionType_noop ext MotionType.Fixed
        (updateMotionTypeRelatedFlags b) (hmt.trans hT)
      have hk : triggerScheduledMotionTypeChange ext (updateMotionTypeRelatedFlags b)
          = resetFlag Flag._40000000 (updateMotionTypeRelatedFlags b) := by
        simp [triggerScheduledMotionTypeChange, hu, hT, hno]
      rw [hk]
      exact ⟨fun g => hg _ g (Or.inr (Or.inl rfl)) (by simp [hu, hT]), hfr.1, hfr.2.1,
        hfr.2.2.1⟩
    · have hno := changeMotionType_noop ext MotionType.Keyframed
        (updateMotionTypeRelatedFlags b) (hmt.trans hT)
      have hk : triggerScheduledMotionTypeChange ext (updateMotionTypeRelatedFlags b)
          = resetFlag Flag._20000000 (updateMotionTypeRelatedFlags b) := by
        simp [triggerScheduledMotionTypeChange, hu, hT, hno]
      rw [hk]
      exact ⟨fun g => hg _ g (Or.inl rfl) (by simp [hu, hT]), hfr.1, hfr.2.1, hfr.2.2.1⟩
    · have hk : triggerScheduledMotionTypeChange ext (updateMotionTypeRelatedFlags b)
          = updateMotionTypeRelatedFlags b := by
        simp [triggerScheduledMotionTypeChange, hu, hT]
      rw [hk]
      refine ⟨fun g => ?_, hfr.1, hfr.2.1, hfr.2.2.1⟩
      rw [hu, hT]
      split_ifs with g20 g40 g80
      · simp [g20, h20]
      · simp [g40, h40]
      · simp [g80, h80]
      · rfl
    · have hk : triggerScheduledMotionTypeChange ext (updateMotionTypeRelatedFlags b)
          = updateMotionTypeRelatedFlags b := by
        simp [triggerScheduledMotionTypeChange, hu, hT]
      rw [hk]
      refine ⟨fun g => ?_, hfr.1, hfr.2.1, hfr.2.2.1⟩
      rw [hu, hT]
      split_ifs with g20 g40 g80
      · simp [g20, h20]
      · simp [g40, h40]
      · simp [g80, h80]
      · rfl

/-- Witness for C30: the unlocked Entity body with a dynamic solver motion; the snapshot
sets `Flag::_80000000` only, and the trigger gives the body back. -/
theorem updateMotionTypeRelatedFlags_snapshot_witness :
    hasFlag unlockedEntityDynamic Flag._20000000 = false
    ∧ hasFlag unlockedEntityDynamic Flag._40000000 = false
    ∧ hasFlag unlockedEntityDynamic Flag._80000000 = false
    ∧ hasFlag (updateMotionTypeRelatedFlags unlockedEntityDynamic) Flag._80000000 = true
    ∧ hasFlag (updateMotionTypeRelatedFlags unlockedEntityDynamic) Flag._20000000 = false
    ∧ hasFlag (updateMotionTypeRelatedFlags unlockedEntityDynamic) Flag._40000000 = false
    ∧ (triggerScheduledMotionTypeChange specExtern
          (updateMotionTypeRelatedFlags unlockedEntityDynamic)).mHkBody
        = unlockedEntityDynamic.mHkBody
    ∧ triggerScheduledMotionTypeChange specExtern
          (updateMotionTypeRelatedFlags unlockedEntityDynamic) = unlockedEntityDynamic :=
  have h := updateMotionTypeRelatedFlags_snapshot specExtern unlockedEntityDynamic
    (by decide) (by decide) (by decide)
  ⟨by decide, by decide, by decide, by decide, by decide, by decide, h.2.2.2.2.1, by decide⟩

/-! ## C22 — the collision count and `Flag::_4000000` -/

theorem clearFlag4000000_hasFlag (clear : Bool) (b : RigidBody) :
    hasFlag (clearFlag4000000 clear b) Flag._4000000 = !clear := by
  by_cases hc : BitFlag32.isOff b.mFlags Flag._4000000.val = clear
  · have hc2 : BitFlag32.isOn b.mFlags Flag._4000000.val = !clear := by
      rw [← hc]; simp [BitFlag32.isOff]
    simp [clearFlag4000000, hc, hasFlag, hc2]
  · simp only [clearFlag4000000, beq_iff_eq, hc, if_false]
    split_ifs
    · rw [hasFlag_setMotionFlag _ _ _ (by decide), hasFlag_changeFlag]
      simp
    · simp only [hasFlag, updateDeactivation_mFlags]
      simpa [hasFlag] using hasFlag_changeFlag Flag._4000000 Flag._4000000 (!clear) b

theorem clearFlag4000000_mCollisionCount (clear : Bool) (b : RigidBody) :
    (clearFlag4000000 clear b).mCollisionCount = b.mCollisionCount := by
  simp only [clearFlag4000000, updateDeactivation, setMotionFlag_eq]
  split_ifs <;> rfl

theorem onCollisionAdded_mCollisionCount (b : RigidBody) :
    (onCollisionAdded b).mCollisionCount = wrapInt32 (b.mCollisionCount + 1) := by
  simp only [onCollisionAdded]
  split_ifs
  · rw [clearFlag4000000_mCollisionCount]
  · rfl

theorem onCollisionRemoved_mCollisionCount (b : RigidBody) :
    (onCollisionRemoved b).mCollisionCount = wrapInt32 (b.mCollisionCount - 1) := by
  simp only [onCollisionRemoved]
  split_ifs
  · rw [clearFlag4000000_mCollisionCount]
  · rfl

theorem onCollisionAdded_hasFlag (b : RigidBody) :
    hasFlag (onCollisionAdded b) Flag._4000000
      = if b.mCollisionCount = 0 then true else hasFlag b Flag._4000000 := by
  simp only [onCollisionAdded, beq_iff_eq]
  split_ifs
  · rw [clearFlag4000000_hasFlag]; rfl
  · rfl

theorem onCollisionRemoved_hasFlag (b : RigidBody) :
    hasFlag (onCollisionRemoved b) Flag._4000000
      = if b.mCollisionCount = 1 then false else hasFlag b Flag._4000000 := by
  simp only [onCollisionRemoved, beq_iff_eq]
  split_ifs
  · rw [clearFlag4000000_hasFlag]; rfl
  · rfl

theorem collisionEvents_invariant (es : List CollisionEvent) (b : RigidBody)
    (hr : b.mCollisionCount < 2147483648)
    (hf : hasFlag b Flag._4000000 = decide (0 < b.mCollisionCount))
    (hnn : countStaysNonNegative es b = true) :
    hasFlag (applyCollisionEvents es b) Flag._4000000
      = decide (0 < (applyCollisionEvents es b).mCollisionCount) := by
  induction es generalizing b with
  | nil => simpa [applyCollisionEvents] using hf
  | cons e es ih =>
    simp only [countStaysNonNegative, Bool.and_eq_true, decide_eq_true_eq] at hnn
    obtain ⟨h0, hrest⟩ := hnn
    have hnext : 0 ≤ (applyCollisionEvent e b).mCollisionCount := by
      cases es <;> simp [countStaysNonNegative] at hrest <;> tauto
    have hstep : (applyCollisionEvent e b).mCollisionCount < 2147483648
        ∧ hasFlag (applyCollisionEvent e b) Flag._4000000
            = decide (0 < (applyCollisionEvent e b).mCollisionCount) := by
      cases e
      · simp only [applyCollisionEvent] at hnext ⊢
        simp only [onCollisionAdded_mCollisionCount] at hnext ⊢
        rw [onCollisionAdded_hasFlag, hf]
        simp only [wrapInt32] at hnext ⊢
        constructor
        · omega
        · by_cases hz : b.mCollisionCount = 0
          · simp [hz]
          · have h1 : 0 < b.mCollisionCount := by omega
            have h2 : 0 < (b.mCollisionCount + 1 + 2147483648) % 4294967296 - 2147483648 := by
              omega
            simp [hz, h1, h2]
      · simp only [applyCollisionEvent] at hnext ⊢
        simp only [onCollisionRemoved_mCollisionCount] at hnext ⊢
        rw [onCollisionRemoved_hasFlag, hf]
        simp only [wrapInt32] at hnext ⊢
        constructor
        · omega
        · by_cases hz : b.mCollisionCount = 1
          · simp [hz]
          · have h1 : 0 < b.mCollisionCount := by omega
            have h2 : 0 < (b.mCollisionCount - 1 + 2147483648) % 4294967296 - 2147483648 := by
              omega
            simp [hz, h1, h2]
    have := ih (applyCollisionEvent e b) hstep.1 hstep.2 hrest
    simpa [applyCollisionEvents] using this

/-- C22: starting from a collision count of zero with `Flag::_4000000` clear, after every
sequence of `onCollisionAdded` / `onCollisionRemoved` calls during which the count is never
below zero, `Flag::_4000000` is set iff the count is greater than zero. `onCollisionAdded`
leaves the flag as it is unless the count was zero before the call, and
`onCollisionRemoved` leaves it as it is unless the count was one before the call. -/
theorem collisionCount_drives_flag (es : List CollisionEvent) (b : RigidBody)
    (h0 : b.mCollisionCount = 0) (hf : hasFlag b Flag._4000000 = false)
    (hnn : countStaysNonNegative es b = true) :
    hasFlag (applyCollisionEvents es b) Flag._4000000
        = decide (0 < (applyCollisionEvents es b).mCollisionCount)
    ∧ (∀ c : RigidBody, c.mCollisionCount ≠ 0 →
        hasFlag (onCollisionAdded c) Flag._4000000 = hasFlag c Flag._4000000)
    ∧ (∀ c : RigidBody, c.mCollisionCount ≠ 1 →
        hasFlag (onCollisionRemoved c) Flag._4000000 = hasFlag c Flag._4000000)
    ∧ (∀ c : RigidBody, c.mCollisionCount = 0 →
        hasFlag (onCollisionAdded c) Flag._4000000 = true
        ∧ (onCollisionAdded c).mCollisionCount = 1)
    ∧ (∀ c : RigidBody, c.mCollisionCount = 1 →
        hasFlag (onCollisionRemoved c) Flag._4000000 = false
        ∧ (onCollisionRemoved c).mCollisionCount = 0) := by
  refine ⟨collisionEvents_invariant es b (by omega) (by simp [hf, h0]) hnn, ?_, ?_, ?_, ?_⟩
  · intro c hc
    simp [onCollisionAdded_hasFlag, hc]
  · intro c hc
    simp [onCollisionRemoved_hasFlag, hc]
  · intro c hc
    simp [onCollisionAdded_hasFlag, onCollisionAdded_mCollisionCount, hc, wrapInt32]
  · intro c hc
    simp [onCollisionRemoved_hasFlag, onCollisionRemoved_mCollisionCount, hc, wrapInt32]

/-- Witness for C22: added, added, removed, removed, added on the unlocked Entity body:
the count ends at one and the flag is set; after the first four calls it is clear. -/
theorem collisionCount_drives_flag_witness :
    unlockedEntityDynamic.mCollisionCount = 0
    ∧ hasFlag unlockedEntityDynamic Flag._4000000 = false
    ∧ countStaysNonNegative
        [CollisionEvent.added, CollisionEvent.added, CollisionEvent.removed,
          CollisionEvent.removed, CollisionEvent.added] unlockedEntityDynamic = true
    ∧ hasFlag (applyCollisionEvents
        [CollisionEvent.added, CollisionEvent.added, CollisionEvent.removed,
          CollisionEvent.removed, CollisionEvent.added] unlockedEntityDynamic) Flag._4000000
        = decide (0 < (applyCollisionEvents
            [CollisionEvent.added, CollisionEvent.added, CollisionEvent.removed,
              CollisionEvent.removed, CollisionEvent.added]
            unlockedEntityDynamic).mCollisionCount)
    ∧ (applyCollisionEvents
        [CollisionEvent.added, CollisionEvent.added, CollisionEvent.removed,
          CollisionEvent.removed, CollisionEvent.added]
        unlockedEntityDynamic).mCollisionCount = 1
    ∧ hasFlag (applyCollisionEvents
        [CollisionEvent.added, CollisionEvent.added, CollisionEvent.removed,
          CollisionEvent.removed] unlockedEntityDynamic) Flag._4000000 = false :=
  ⟨rfl, by decide, by decide,
    (collisionCount_drives_flag _ unlockedEntityDynamic rfl (by decide) (by decide)).1,
    by decide, by decide⟩

/-! ## C25 — `Frozen` follows `Fixed` and `FixedWithImpulsePreserved` -/

theorem setLinearVelocity_isSome (ext : Extern) (hext : ext.KeepsFlags) (velocity : Vector3f)
    (epsilon : F32) (b : RigidBody) (a : MotionAccessor) (hacc : b.mMotionAccessor = some a) :
    ∃ r b1, setLinearVelocity ext velocity epsilon b = some (r, b1)
      ∧ b1.mMotionAccessor = some a
      ∧ ∀ g, g ≠ Flag.UpdateRequested → hasFlag b1 g = hasFlag b g := by
  simp only [setLinearVelocity, hacc]
  split_ifs
  · exact ⟨_, _, rfl, (mMotionAccessor_onInvalidParameter 0 b).trans hacc,
      fun g _ => hasFlag_onInvalidParameter 0 g b⟩
  · exact ⟨_, _, rfl, (mMotionAccessor_onInvalidParameter 1 b).trans hacc,
      fun g _ => hasFlag_onInvalidParameter 1 g b⟩
  · exact ⟨_, _, rfl, (mMotionAccessor_callAccessor ext hext _ b).trans hacc,
      fun g hg => hasFlag_callAccessor ext hext _ g b hg⟩

theorem setAngularVelocity_isSome (ext : Extern) (hext : ext.KeepsFlags) (velocity : Vector3f)
    (epsilon : F32) (b : RigidBody) (a : MotionAccessor) (hacc : b.mMotionAccessor = some a) :
    ∃ r b1, setAngularVelocity ext velocity epsilon b = some (r, b1)
      ∧ b1.mMotionAccessor = some a
      ∧ ∀ g, g ≠ Flag.UpdateRequested → hasFlag b1 g = hasFlag b g := by
  simp only [setAngularVelocity, hacc]
  split_ifs
  · exact ⟨_, _, rfl, (mMotionAccessor_onInvalidParameter 0 b).trans hacc,
      fun g _ => hasFlag_onInvalidParameter 0 g b⟩
  · exact ⟨_, _, rfl, (mMotionAccessor_callAccessor ext hext _ b).trans hacc,
      fun g hg => hasFlag_callAccessor ext hext _ g b hg⟩

theorem freeze_with_accessor (ext : Extern) (hext : ext.KeepsFlags)
    (should_freeze preserve_velocities preserve_max_impulse : Bool) (b : RigidBody)
    (a : MotionAccessor) (hacc : b.mMotionAccessor = some a) :
    ∃ b1, freeze ext should_freeze preserve_velocities preserve_max_impulse b = some b1
      ∧ b1.mMotionAccessor = some a
      ∧ hasFlag b1 Flag.Frozen = should_freeze
      ∧ ∀ g, g ≠ Flag.UpdateRequested → g ≠ Flag.Frozen → hasFlag b1 g = hasFlag b g := by
  by_cases hf : hasFlag b Flag.Frozen = should_freeze
  · cases should_freeze
    · exact ⟨b, by simp [freeze, hf], hacc, hf, fun _ _ _ => rfl⟩
    · obtain ⟨r1, b1, e1, a1, f1⟩ :=
        setLinearVelocity_isSome ext hext Vector3f.zero F32.epsilon b a hacc
      obtain ⟨r2, b2, e2, a2, f2⟩ :=
        setAngularVelocity_isSome ext hext Vector3f.zero F32.epsilon b1 a a1
      refine ⟨b2, by simp [freeze, hf, e1, e2], a2, ?_, ?_⟩
      · rw [f2 _ (by decide), f1 _ (by decide), hf]
      · intro g hg _
        rw [f2 _ hg, f1 _ hg]
  · cases should_freeze
    · have hf2 : hasFlag b Flag.Frozen = true := by simpa using hf
      refine ⟨callAccessor ext
          (AccessorCall.freeze false preserve_velocities preserve_max_impulse)
          (resetFlag Flag.Frozen b), by simp [freeze, hf2, hacc], ?_, ?_, ?_⟩
      · exact (mMotionAccessor_callAccessor ext hext _ _).trans hacc
      · rw [hasFlag_callAccessor ext hext _ _ _ (by decide), hasFlag_resetFlag]
        simp
      · intro g hg hg2
        have hg3 : ¬ Flag.Frozen = g := fun h => hg2 h.symm
        rw [hasFlag_callAccessor ext hext _ _ _ hg, hasFlag_resetFlag]
        simp [hg3]
    · have hf2 : hasFlag b Flag.Frozen = false := by simpa using hf
      refine ⟨setFlag Flag.Frozen (callAccessor ext
          (AccessorCall.freeze true preserve_velocities preserve_max_impulse) b),
          by simp [freeze, hf2, hacc], ?_, ?_, ?_⟩
      · exact (mMotionAccessor_callAccessor ext hext _ _).trans hacc
      · rw [hasFlag_setFlag]
        simp
      · intro g hg hg2
        have hg3 : ¬ Flag.Frozen = g := fun h => hg2 h.symm
        rw [hasFlag_setFlag, hasFlag_callAccessor ext hext _ _ _ hg]
        simp [hg3]

theorem mMotionAccessor_setMotionFlag (flag : MotionFlag) (b : RigidBody) :
    (setMotionFlag flag b).mMotionAccessor = b.mMotionAccessor := by
  rw [setMotionFlag_eq]

/-- C25: when the member functions of the motion accessor leave the attribute flags and the
accessor pointer alone, then on every body with a motion accessor `setFixed(fixed, pv)`
returns with `Flag::Fixed` equal to `fixed` and `FixedWithImpulsePreserved` as before,
`setFixedAndPreserveImpulse(fixed, m)` returns with `FixedWithImpulsePreserved` equal to
`fixed` and `Fixed` as before, and after either call `Flag::Frozen` equals
`Fixed || FixedWithImpulsePreserved`. -/
theorem setFixed_frozen (ext : Extern) (hext : ext.KeepsFlags) (b : RigidBody)
    (a : MotionAccessor) (hacc : b.mMotionAccessor = some a)
    (fixed preserve_velocities mark_linear_vel_as_dirty : Bool) :
    (∃ b1, setFixed ext fixed preserve_velocities b = some b1
      ∧ hasFlag b1 Flag.Fixed = fixed
      ∧ hasFlag b1 Flag.FixedWithImpulsePreserved = hasFlag b Flag.FixedWithImpulsePreserved
      ∧ hasFlag b1 Flag.Frozen
          = (hasFlag b1 Flag.Fixed || hasFlag b1 Flag.FixedWithImpulsePreserved))
    ∧ (∃ b1, setFixedAndPreserveImpulse ext fixed mark_linear_vel_as_dirty b = some b1
      ∧ hasFlag b1 Flag.FixedWithImpulsePreserved = fixed
      ∧ hasFlag b1 Flag.Fixed = hasFlag b Flag.Fixed
      ∧ hasFlag b1 Flag.Frozen
          = (hasFlag b1 Flag.Fixed || hasFlag b1 Flag.FixedWithImpulsePreserved)) := by
  constructor
  · have key : ∃ b0 : RigidBody,
        setFixed ext fixed preserve_velocities b
            = freeze ext (hasFlag b0 Flag.FixedWithImpulsePreserved || hasFlag b0 Flag.Fixed)
                preserve_velocities false b0
        ∧ b0.mMotionAccessor = some a
        ∧ hasFlag b0 Flag.Fixed = fixed
        ∧ hasFlag b0 Flag.FixedWithImpulsePreserved
            = hasFlag b Flag.FixedWithImpulsePreserved := by
      by_cases h : hasFlag b Flag.Fixed = fixed
      · refine ⟨b, by simp [setFixed, h], hacc, h, rfl⟩
      · have hne : (hasFlag b Flag.Fixed != fixed) = true := by simpa using h
        cases fixed
        · refine ⟨setMotionFlag MotionFlag._40000
              (setMotionFlag MotionFlag.DirtyLinearVelocity (changeFlag Flag.Fixed false b)),
            ?_, ?_, ?_, ?_⟩
          · simp only [setFixed, hne, if_true, Bool.not_false]
          · rw [mMotionAccessor_setMotionFlag, mMotionAccessor_setMotionFlag]
            exact hacc
          · rw [hasFlag_setMotionFlag _ _ _ (by decide),
              hasFlag_setMotionFlag _ _ _ (by decide), hasFlag_changeFlag]
            simp
          · rw [hasFlag_setMotionFlag _ _ _ (by decide),
              hasFlag_setMotionFlag _ _ _ (by decide), hasFlag_changeFlag]
            simp
        · refine ⟨changeFlag Flag.Fixed true b, ?_, hacc, ?_, ?_⟩
          · simp only [setFixed, hne, if_true, Bool.not_true, Bool.false_eq_true, if_false]
          · rw [hasFlag_changeFlag]
            simp
          · rw [hasFlag_changeFlag]
            simp
    obtain ⟨b0, e0, a0, fx, fw⟩ := key
    obtain ⟨b1, e1, _, fr, oth⟩ := freeze_with_accessor ext hext
      (hasFlag b0 Flag.FixedWithImpulsePreserved || hasFlag b0 Flag.Fixed)
      preserve_velocities false b0 a a0
    refine ⟨b1, e0.trans e1, ?_, ?_, ?_⟩
    · rw [oth _ (by decide) (by decide), fx]
    · rw [oth _ (by decide) (by decide), fw]
    · rw [fr, oth _ (by decide) (by decide), oth _ (by decide) (by decide), Bool.or_comm]
  · have key : ∃ b0 : RigidBody,
        setFixedAndPreserveImpulse ext fixed mark_linear_vel_as_dirty b
            = freeze ext (hasFlag b0 Flag.FixedWithImpulsePreserved || hasFlag b0 Flag.Fixed)
                true true b0
        ∧ b0.mMotionAccessor = some a
        ∧ hasFlag b0 Flag.FixedWithImpulsePreserved = fixed
        ∧ hasFlag b0 Flag.Fixed = hasFlag b Flag.Fixed := by
      by_cases h : hasFlag b Flag.FixedWithImpulsePreserved = fixed
      · refine ⟨b, by simp [setFixedAndPreserveImpulse, h], hacc, h, rfl⟩
      · have hne : (hasFlag b Flag.FixedWithImpulsePreserved != fixed) = true := by
          simpa using h
        by_cases hm : (!fixed && mark_linear_vel_as_dirty) = true
        · refine ⟨setMotionFlag MotionFlag.DirtyLinearVelocity
              (changeFlag Flag.FixedWithImpulsePreserved fixed b), ?_, ?_, ?_, ?_⟩
          · simp only [setFixedAndPreserveImpulse, hne, if_true, hm]
          · rw [mMotionAccessor_setMotionFlag]
            exact hacc
          · rw [hasFlag_setMotionFlag _ _ _ (by decide), hasFlag_changeFlag]
            simp
          · rw [hasFlag_setMotionFlag _ _ _ (by decide), hasFlag_changeFlag]
            simp
        · refine ⟨changeFlag Flag.FixedWithImpulsePreserved fixed b, ?_, hacc, ?_, ?_⟩
          · simp only [setFixedAndPreserveImpulse, hne, if_true, hm, if_false,
              Bool.false_eq_true]
          · rw [hasFlag_changeFlag]
            simp
          · rw [hasFlag_changeFlag]
            simp
    obtain ⟨b0, e0, a0, fw, fx⟩ := key
    obtain ⟨b1, e1, _, fr, oth⟩ := freeze_with_accessor ext hext
      (hasFlag b0 Flag.FixedWithImpulsePreserved || hasFlag b0 Flag.Fixed) true true b0 a a0
    refine ⟨b1, e0.trans e1, ?_, ?_, ?_⟩
    · rw [oth _ (by decide) (by decide), fw]
    · rw [oth _ (by decide) (by decide), fx]
    · rw [fr, oth _ (by decide) (by decide), oth _ (by decide) (by decide), Bool.or_comm]

/-- Witness for C25: `setFixed(true, false)` and `setFixedAndPreserveImpulse(true, false)`
on the unlocked Entity body, which has an entity motion accessor. -/
theorem setFixed_frozen_witness :
    specExtern.KeepsFlags
    ∧ unlockedEntityDynamic.mMotionAccessor = some { kind := MotionAccessorKind.Entity }
    ∧ (∃ b1, setFixed specExtern true false unlockedEntityDynamic = some b1
      ∧ hasFlag b1 Flag.Fixed = true
      ∧ hasFlag b1 Flag.FixedWithImpulsePreserved
          = hasFlag unlockedEntityDynamic Flag.FixedWithImpulsePreserved
      ∧ hasFlag b1 Flag.Frozen
          = (hasFlag b1 Flag.Fixed || hasFlag b1 Flag.FixedWithImpulsePreserved))
    ∧ (setFixed specExtern true false unlockedEntityDynamic).map
        (fun b1 => (hasFlag b1 Flag.Fixed, hasFlag b1 Flag.Frozen)) = some (true, true) :=
  ⟨specExtern_keepsFlags, rfl,
    (setFixed_frozen specExtern specExtern_keepsFlags unlockedEntityDynamic _ rfl
      true false false).1,
    by decide⟩

/-! ## Facts about `setCollisionFilterInfo` used for the filter operations -/

theorem setCollisionFilterInfo_word (ext : Extern) (b : RigidBody) (w : Nat) :
    (setCollisionFilterInfo ext w b).mHkBody.collisionFilterInfo = w := by
  by_cases hl : isFlag8Set b = true
  · by_cases hw : b.mHkBody.collisionFilterInfo = w
    · subst hw
      simp [(setCollisionFilterInfo_same ext b).2.2.1]
    · exact (setCollisionFilterInfo_locked ext b w hl hw).2
  · have hl2 : isFlag8Set b = false := by
      cases h : isFlag8Set b
      · rfl
      · exact absurd h hl
    exact (setCollisionFilterInfo_unlocked ext b w hl2).2.2.2

theorem setCollisionFilterInfo_isSensor (ext : Extern) (b : RigidBody) (w : Nat) :
    isSensor (setCollisionFilterInfo ext w b) = isSensor b :=
  setCollisionFilterInfo_hasFlag ext b w Flag.IsSensor (by decide)

theorem setCollisionFilterInfo_isEntity (ext : Extern) (b : RigidBody) (w : Nat) :
    isEntity (setCollisionFilterInfo ext w b) = isEntity b := by
  have h := setCollisionFilterInfo_isSensor ext b w
  simp only [isSensor] at h
  simp only [isEntity, h]

/-! ## C29 — `enableGroundCollision` / `enableWaterCollision` and their queries -/

theorem testBit_change_two_pow (w k j : Nat) (v : Bool) (hj : j < 32) :
    (BitFlag32.change w (1 <<< k) v).testBit j = if k = j then v else w.testBit j := by
  rw [Nat.one_shiftLeft]
  cases v
  · simp only [BitFlag32.change, Bool.false_eq_true, if_false, testBit_reset_two_pow]
    by_cases h : k = j <;> simp [h, hj]
  · simp only [BitFlag32.change, if_true, BitFlag32.set, Nat.testBit_or, Nat.testBit_two_pow]
    by_cases h : k = j <;> simp [h]

theorem specExtern_bitFieldLaws : specExtern.BitFieldLaws where
  unk5_set_unk5 := fun v w =>
    (testBit_change_two_pow w 5 5 v (by decide)).trans (if_pos rfl)
  unk30_set_unk5 := fun v w =>
    (testBit_change_two_pow w 5 30 v (by decide)).trans (if_neg (by decide))
  unk5_set_no_ground_collision := fun v w =>
    (testBit_change_two_pow w 24 5 v (by decide)).trans (if_neg (by decide))
  unk30_set_no_ground_collision := fun v w =>
    (testBit_change_two_pow w 24 30 v (by decide)).trans (if_neg (by decide))
  no_ground_collision_set := fun v w =>
    (testBit_change_two_pow w 24 24 v (by decide)).trans (if_pos rfl)
  unk30_set_no_water_collision := fun v w =>
    (testBit_change_two_pow w 25 30 v (by decide)).trans (if_neg (by decide))
  no_water_collision_set := fun v w =>
    (testBit_change_two_pow w 25 25 v (by decide)).trans (if_pos rfl)

/-- C29, as stated, fails: on the Entity body whose filter word has the `unk30` bit set
(contact layer `0`, not `EntityRagdoll`), `enableGroundCollision(false)` sets
`no_ground_collision` and `enableWaterCollision(false)` sets `no_water_collision`, but the
queries still answer `true`, because they answer `true` whenever `unk30` is set. -/
theorem enableCollision_unk30_counterexample :
    isEntity entityUnk30 = true
    ∧ getContactLayer specExtern entityUnk30 ≠ specExtern.EntityRagdoll
    ∧ specExtern.unk30 (getCollisionFilterInfo entityUnk30) = true
    ∧ specExtern.no_ground_collision
        (getCollisionFilterInfo (enableGroundCollision specExtern false entityUnk30)) = true
    ∧ isGroundCollisionEnabled specExtern (enableGroundCollision specExtern false entityUnk30)
        = true
    ∧ specExtern.no_water_collision
        (getCollisionFilterInfo (enableWaterCollision specExtern false entityUnk30)) = true
    ∧ isWaterCollisionEnabled specExtern (enableWaterCollision specExtern false entityUnk30)
        = true := by
  decide

/-- C29 (amended): when the bit fields of the filter word are independent fields, then for
every Entity body whose contact layer is not `EntityRagdoll` and both values of `e`, after
`enableGroundCollision(e)` the query `isGroundCollisionEnabled()` returns `e || unk30`, and
after `enableWaterCollision(e)` the query `isWaterCollisionEnabled()` returns
`e || unk30`, where `unk30` is that bit of the prior filter word: the queries return `e`
when `unk30` is clear (whatever `unk5` was) and `true` when `unk30` is set; the setters
never change `unk30`. -/
theorem enableCollision_agreement (ext : Extern) (laws : ext.BitFieldLaws) (b : RigidBody)
    (he : isEntity b = true) (hr : getContactLayer ext b ≠ ext.EntityRagdoll) (e : Bool) :
    isGroundCollisionEnabled ext (enableGroundCollision ext e b)
        = (e || ext.unk30 (getCollisionFilterInfo b))
    ∧ isWaterCollisionEnabled ext (enableWaterCollision ext e b)
        = (e || ext.unk30 (getCollisionFilterInfo b))
    ∧ ext.unk30 (getCollisionFilterInfo (enableGroundCollision ext e b))
        = ext.unk30 (getCollisionFilterInfo b)
    ∧ ext.unk30 (getCollisionFilterInfo (enableWaterCollision ext e b))
        = ext.unk30 (getCollisionFilterInfo b) := by
  have hr2 : (getContactLayer ext b == ext.EntityRagdoll) = false := by simpa using hr
  have hg : ∀ c : RigidBody, isEntity c = true →
      isGroundCollisionEnabled ext c
        = (ext.unk5 c.mHkBody.collisionFilterInfo || ext.unk30 c.mHkBody.collisionFilterInfo
            || !ext.no_ground_collision c.mHkBody.collisionFilterInfo) := by
    intro c hc
    simp [isGroundCollisionEnabled, hc, getEntityCollisionFilterInfo, getCollisionFilterInfo]
  have hw : ∀ c : RigidBody, isEntity c = true →
      isWaterCollisionEnabled ext c
        = (ext.unk30 c.mHkBody.collisionFilterInfo
            || !ext.no_water_collision c.mHkBody.collisionFilterInfo) := by
    intro c hc
    simp [isWaterCollisionEnabled, hc, getEntityCollisionFilterInfo, getCollisionFilterInfo]
  have hes : ∀ w, isEntity (setCollisionFilterInfo ext w b) = true := fun w =>
    (setCollisionFilterInfo_isEntity ext b w).trans he
  -- the ground switch
  have ground : isGroundCollisionEnabled ext (enableGroundCollision ext e b)
        = (e || ext.unk30 (getCollisionFilterInfo b))
      ∧ ext.unk30 (getCollisionFilterInfo (enableGroundCollision ext e b))
        = ext.unk30 (getCollisionFilterInfo b) := by
    by_cases hq : isGroundCollisionEnabled ext b = e
    · have hb : enableGroundCollision ext e b = b := by
        simp [enableGroundCollision, hq]
      rw [hb]
      refine ⟨?_, rfl⟩
      rw [← hq, hg b he]
      simp only [getCollisionFilterInfo]
      cases ext.unk5 b.mHkBody.collisionFilterInfo <;>
        cases ext.unk30 b.mHkBody.collisionFilterInfo <;>
        cases ext.no_ground_collision b.mHkBody.collisionFilterInfo <;> rfl
    · have hq2 : (isGroundCollisionEnabled ext b == e) = false := by simpa using hq
      by_cases hsame : b.mHkBody.collisionFilterInfo
          = ext.set_no_ground_collision (!e) (ext.set_unk5 false b.mHkBody.collisionFilterInfo)
      · have hb : enableGroundCollision ext e b = b := by
          simp [enableGroundCollision, he, hq2, hr2, getEntityCollisionFilterInfo,
            getCollisionFilterInfo, ← hsame]
        rw [hb, hg b he]
        refine ⟨?_, rfl⟩
        simp only [getCollisionFilterInfo]
        rw [hsame]
        simp [laws.unk5_set_unk5, laws.unk30_set_unk5, laws.unk5_set_no_ground_collision,
          laws.unk30_set_no_ground_collision, laws.no_ground_collision_set, Bool.or_comm]
      · have hb : enableGroundCollision ext e b
            = setCollisionFilterInfo ext (ext.set_no_ground_collision (!e)
                (ext.set_unk5 false b.mHkBody.collisionFilterInfo)) b := by
          simp [enableGroundCollision, he, hq2, hr2, getEntityCollisionFilterInfo,
            getCollisionFilterInfo, hsame]
        rw [hb, hg _ (hes _)]
        simp only [getCollisionFilterInfo, setCollisionFilterInfo_word]
        simp [laws.unk5_set_unk5, laws.unk30_set_unk5, laws.unk5_set_no_ground_collision,
          laws.unk30_set_no_ground_collision, laws.no_ground_collision_set, Bool.or_comm]
  have water : isWaterCollisionEnabled ext (enableWaterCollision ext e b)
        = (e || ext.unk30 (getCollisionFilterInfo b))
      ∧ ext.unk30 (getCollisionFilterInfo (enableWaterCollision ext e b))
        = ext.unk30 (getCollisionFilterInfo b) := by
    by_cases hq : isWaterCollisionEnabled ext b = e
    · have hb : enableWaterCollision ext e b = b := by
        simp [enableWaterCollision, hq]
      rw [hb]
      refine ⟨?_, rfl⟩
      rw [← hq, hw b he]
      simp only [getCollisionFilterInfo]
      cases ext.unk30 b.mHkBody.collisionFilterInfo <;>
        cases ext.no_water_collision b.mHkBody.collisionFilterInfo <;> rfl
    · have hq2 : (isWaterCollisionEnabled ext b == e) = false := by simpa using hq
      by_cases hsame : b.mHkBody.collisionFilterInfo
          = ext.set_no_water_collision (!e) b.mHkBody.collisionFilterInfo
      · have hb : enableWaterCollision ext e b = b := by
          simp [enableWaterCollision, he, hq2, hr2, getEntityCollisionFilterInfo,
            getCollisionFilterInfo, ← hsame]
        rw [hb, hw b he]
        refine ⟨?_, rfl⟩
        simp only [getCollisionFilterInfo]
        rw [hsame]
        simp [laws.unk30_set_no_water_collision, laws.no_water_collision_set, Bool.or_comm]
      · have hb : enableWaterCollision ext e b
            = setCollisionFilterInfo ext
                (ext.set_no_water_collision (!e) b.mHkBody.collisionFilterInfo) b := by
          simp [enableWaterCollision, he, hq2, hr2, getEntityCollisionFilterInfo,
            getCollisionFilterInfo, hsame]
        rw [hb, hw _ (hes _)]
        simp only [getCollisionFilterInfo, setCollisionFilterInfo_word]
        simp [laws.unk30_set_no_water_collision, laws.no_water_collision_set, Bool.or_comm]
  exact ⟨ground.1, water.1, ground.2, water.2⟩

/-- Witness for C29 (amended): the unlocked Entity body with filter word `0` (layer `0`,
`unk30` clear): after `enableGroundCollision(false)` the query answers `false`. -/
theorem enableCollision_agreement_witness :
    specExtern.BitFieldLaws
    ∧ isEntity unlockedEntityDynamic = true
    ∧ getContactLayer specExtern unlockedEntityDynamic ≠ specExtern.EntityRagdoll
    ∧ isGroundCollisionEnabled specExtern
        (enableGroundCollision specExtern false unlockedEntityDynamic)
        = (false || specExtern.unk30 (getCollisionFilterInfo unlockedEntityDynamic))
    ∧ isGroundCollisionEnabled specExtern
        (enableGroundCollision specExtern false unlockedEntityDynamic) = false
    ∧ isGroundCollisionEnabled specExtern unlockedEntityDynamic = true :=
  ⟨specExtern_bitFieldLaws, by decide, by decide,
    (enableCollision_agreement specExtern specExtern_bitFieldLaws unlockedEntityDynamic
      (by decide) (by decide) false).1,
    by decide, by decide⟩

/-! ## C23 — the Entity layout of the filter word -/

/-- C24: `clearSensorReceiverLayer2()` returns with the state unchanged on an Entity body
and on a Sensor body whose contact layer is `SensorCustomReceiver`, as the comment in
`physRigidBody.h` says. `setSensorReceiverLayer2(layer)` has no such guard: the results of
its two `isSensor()` calls are discarded, and on every body it writes
`sensorReceiverMaskSetLayer2(true, layer, info)` as the new filter word. Under the layout
modelled from the spec this changes the filter word `0` of the Entity body to `3072` and
the filter word `31` of the Sensor body on `SensorCustomReceiver` to `3103`. -/
theorem setSensorReceiverLayer2_unguarded (ext : Extern) (layer : Nat) (b : RigidBody) :
    getCollisionFilterInfo (setSensorReceiverLayer2 ext layer b)
        = ext.sensorReceiverMaskSetLayer2 true layer (getCollisionFilterInfo b)
    ∧ (isEntity b = true → clearSensorReceiverLayer2 ext b = b)
    ∧ (getContactLayer ext b = ext.SensorCustomReceiver → clearSensorReceiverLayer2 ext b = b)
    ∧ (isEntity unlockedEntityDynamic = true
      ∧ getCollisionFilterInfo unlockedEntityDynamic = 0
      ∧ getCollisionFilterInfo (setSensorReceiverLayer2 specExtern 0x21 unlockedEntityDynamic)
          = 3072)
    ∧ (isSensor sensorCustomReceiver = true
      ∧ getContactLayer specExtern sensorCustomReceiver = specExtern.SensorCustomReceiver
      ∧ getCollisionFilterInfo sensorCustomReceiver = 31
      ∧ getCollisionFilterInfo (setSensorReceiverLayer2 specExtern 0x21 sensorCustomReceiver)
          = 3103) := by
  refine ⟨?_, ?_, ?_, by decide, by decide⟩
  · simp only [setSensorReceiverLayer2, getCollisionFilterInfo, setCollisionFilterInfo_word]
  · intro he
    have hs : isSensor b = false := by
      simp only [isEntity] at he
      simpa [isSensor] using he
    simp [clearSensorReceiverLayer2, hs]
  · intro hc
    simp [clearSensorReceiverLayer2, hc]

/-- Witness for C24: `clearSensorReceiverLayer2()` on the Entity body and on the Sensor
body whose contact layer is `SensorCustomReceiver`. -/
theorem setSensorReceiverLayer2_unguarded_witness :
    isEntity unlockedEntityDynamic = true
    ∧ clearSensorReceiverLayer2 specExtern unlockedEntityDynamic = unlockedEntityDynamic
    ∧ getContactLayer specExtern sensorCustomReceiver = specExtern.SensorCustomReceiver
    ∧ clearSensorReceiverLayer2 specExtern sensorCustomReceiver = sensorCustomReceiver :=
  ⟨by decide,
    (setSensorReceiverLayer2_unguarded specExtern 0 unlockedEntityDynamic).2.1 (by decide),
    by decide,
    (setSensorReceiverLayer2_unguarded specExtern 0 sensorCustomReceiver).2.2.1 (by decide)⟩

/-! ## C21 — the layer type of a body never changes -/

theorem sensor_callAccessor (ext : Extern) (hext : ext.KeepsFlags) (c : AccessorCall)
    (b : RigidBody) :
    hasFlag (callAccessor ext c b) Flag.IsSensor = hasFlag b Flag.IsSensor :=
  hasFlag_callAccessor ext hext c Flag.IsSensor b (by decide)

theorem sensor_setLinearVelocity (ext : Extern) (hext : ext.KeepsFlags) (velocity : Vector3f)
    (epsilon : F32) (b b1 : RigidBody) (r : Bool)
    (h : setLinearVelocity ext velocity epsilon b = some (r, b1)) :
    hasFlag b1 Flag.IsSensor = hasFlag b Flag.IsSensor := by
  simp only [setLinearVelocity] at h
  split_ifs at h
  · cases h
    exact hasFlag_onInvalidParameter 0 _ b
  · cases h
    exact hasFlag_onInvalidParameter 1 _ b
  · cases hacc : b.mMotionAccessor <;> simp only [hacc] at h
    · cases h
    · cases h
      exact sensor_callAccessor ext hext _ b

theorem sensor_setAngularVelocity (ext : Extern) (hext : ext.KeepsFlags) (velocity : Vector3f)
    (epsilon : F32) (b b1 : RigidBody) (r : Bool)
    (h : setAngularVelocity ext velocity epsilon b = some (r, b1)) :
    hasFlag b1 Flag.IsSensor = hasFlag b Flag.IsSensor := by
  simp only [setAngularVelocity] at h
  split_ifs at h
  · cases h
    exact hasFlag_onInvalidParameter 0 _ b
  · cases hacc : b.mMotionAccessor <;> simp only [hacc] at h
    · cases h
    · cases h
      exact sensor_callAccessor ext hext _ b

theorem sensor_freeze (ext : Extern) (hext : ext.KeepsFlags)
    (should_freeze preserve_velocities preserve_max_impulse : Bool) (b b1 : RigidBody)
    (h : freeze ext should_freeze preserve_velocities preserve_max_impulse b = some b1) :
    hasFlag b1 Flag.IsSensor = hasFlag b Flag.IsSensor := by
  cases should_freeze
  · cases hf : hasFlag b Flag.Frozen
    · simp [freeze, hf] at h
      subst h
      rfl
    · cases hacc : b.mMotionAccessor
      · simp [freeze, hf, hacc] at h
        subst h
        rw [hasFlag_changeFlag]
        simp
      · simp [freeze, hf, hacc] at h
        subst h
        rw [sensor_callAccessor ext hext, hasFlag_resetFlag]
        simp
  · cases hf : hasFlag b Flag.Frozen
    · cases hacc : b.mMotionAccessor
      · simp [freeze, hf, hacc] at h
        subst h
        rw [hasFlag_changeFlag]
        simp
      · simp [freeze, hf, hacc] at h
        subst h
        rw [hasFlag_setFlag, sensor_callAccessor ext hext]
        simp
    · simp only [freeze, hf, beq_self_eq_true, if_true] at h
      cases e1 : setLinearVelocity ext Vector3f.zero F32.epsilon b with
      | none => simp [e1] at h
      | some p1 =>
        obtain ⟨r1, c1⟩ := p1
        simp only [e1] at h
        cases e2 : setAngularVelocity ext Vector3f.zero F32.epsilon c1 with
        | none => simp [e2] at h
        | some p2 =>
          obtain ⟨r2, c2⟩ := p2
          simp only [e2, Option.some.injEq] at h
          subst h
          rw [sensor_setAngularVelocity ext hext _ _ _ _ _ e2,
            sensor_setLinearVelocity ext hext _ _ _ _ _ e1]

theorem sensor_setFixed (ext : Extern) (hext : ext.KeepsFlags)
    (fixed preserve_velocities : Bool) (b b1 : RigidBody)
    (h : setFixed ext fixed preserve_velocities b = some b1) :
    hasFlag b1 Flag.IsSensor = hasFlag b Flag.IsSensor := by
  simp only [setFixed] at h
  rw [sensor_freeze ext hext _ _ _ _ _ h]
  split_ifs <;>
    simp [hasFlag_setMotionFlag, hasFlag_changeFlag]

theorem sensor_setFixedAndPreserveImpulse (ext : Extern) (hext : ext.KeepsFlags)
    (fixed mark_linear_vel_as_dirty : Bool) (b b1 : RigidBody)
    (h : setFixedAndPreserveImpulse ext fixed mark_linear_vel_as_dirty b = some b1) :
    hasFlag b1 Flag.IsSensor = hasFlag b Flag.IsSensor := by
  simp only [setFixedAndPreserveImpulse] at h
  rw [sensor_freeze ext hext _ _ _ _ _ h]
  split_ifs <;>
    simp [hasFlag_setMotionFlag, hasFlag_changeFlag]

theorem sensor_updateCollidableQualityType (high_quality : Bool) (b : RigidBody) :
    hasFlag (updateCollidableQualityType high_quality b) Flag.IsSensor
      = hasFlag b Flag.IsSensor := by
  simp only [updateCollidableQualityType, hasFlag_unlock]
  by_cases hcc : isCharacterControllerType (lock (isFlag8Set b) b) = true
  · rw [if_pos hcc, hasFlag_setFlag]
    simp [hasFlag, setCollidableQualityType, lock_mFlags]
  · rw [if_neg hcc, hasFlag_changeFlag]
    cases getMotionType (lock (isFlag8Set b) b) <;>
      simp [hasFlag, setCollidableQualityType, lock_mFlags]

theorem sensor_clearFlag (b : RigidBody) (clear : Bool) :
    hasFlag (clearFlag2000000 clear b) Flag.IsSensor = hasFlag b Flag.IsSensor
    ∧ hasFlag (clearFlag4000000 clear b) Flag.IsSensor = hasFlag b Flag.IsSensor
    ∧ hasFlag (clearFlag8000000 clear b) Flag.IsSensor = hasFlag b Flag.IsSensor := by
  refine ⟨?_, ?_, ?_⟩
  · simp only [clearFlag2000000]
    split_ifs
    · rfl
    · rw [hasFlag_setMotionFlag _ _ _ (by decide), hasFlag_changeFlag]
      simp
    · simp only [hasFlag, updateDeactivation_mFlags]
      simpa [hasFlag] using hasFlag_changeFlag Flag._2000000 Flag.IsSensor (!clear) b
  · simp only [clearFlag4000000]
    split_ifs
    · rfl
    · rw [hasFlag_setMotionFlag _ _ _ (by decide), hasFlag_changeFlag]
      simp
    · simp only [hasFlag, updateDeactivation_mFlags]
      simpa [hasFlag] using hasFlag_changeFlag Flag._4000000 Flag.IsSensor (!clear) b
  · simp only [clearFlag8000000]
    split_ifs
    · rfl
    · rw [hasFlag_setMotionFlag _ _ _ (by decide), hasFlag_changeFlag]
      simp
    · simp only [hasFlag, updateDeactivation_mFlags]
      simpa [hasFlag] using hasFlag_changeFlag Flag._8000000 Flag.IsSensor (!clear) b

theorem sensor_updateMotionTypeRelatedFlags (b : RigidBody) :
    hasFlag (updateMotionTypeRelatedFlags b) Flag.IsSensor = hasFlag b Flag.IsSensor := by
  simp only [updateMotionTypeRelatedFlags]
  split_ifs
  · rfl
  · cases getMotionType b <;> simp [hasFlag_setFlag, hasFlag_resetFlag]

theorem sensor_triggerScheduledMotionTypeChange (ext : Extern) (b : RigidBody) :
    hasFlag (triggerScheduledMotionTypeChange ext b) Flag.IsSensor
      = hasFlag b Flag.IsSensor := by
  simp only [triggerScheduledMotionTypeChange]
  split_ifs <;>
    simp [hasFlag_resetFlag, changeMotionType_hasFlag]

theorem sensor_callEntityAccessor (ext : Extern) (hext : ext.KeepsFlags) (c : AccessorCall)
    (b b1 : RigidBody) (h : callEntityAccessor ext c b = some b1) :
    hasFlag b1 Flag.IsSensor = hasFlag b Flag.IsSensor := by
  simp only [callEntityAccessor] at h
  cases ha : getEntityMotionAccessor b <;> simp only [ha] at h
  · cases h
  · cases h
    exact sensor_callAccessor ext hext c b

theorem sensor_setTimeFactor (ext : Extern) (hext : ext.KeepsFlags) (value : F32)
    (b b1 : RigidBody) (r : Bool) (h : setTimeFactor ext value b = some (r, b1)) :
    hasFlag b1 Flag.IsSensor = hasFlag b Flag.IsSensor := by
  simp only [setTimeFactor] at h
  cases hacc : b.mMotionAccessor <;> simp only [hacc] at h
  · cases h
    rfl
  · split_ifs at h with h1 h2 h3
    · cases h
      rfl
    · cases h
      rfl
    · have hne : (!isEntity (callAccessor ext (AccessorCall.setTimeFactor value) b)) = false := by
        simp only [Bool.and_eq_true] at h3
        simp [h3.2]
      cases e1 : getLinearDamping ext (callAccessor ext (AccessorCall.setTimeFactor value) b)
        with
      | none => simp [e1] at h
      | some d1 =>
        simp only [e1] at h
        cases e2 : setLinearDamping ext d1
            (callAccessor ext (AccessorCall.setTimeFactor value) b) with
        | none => simp [e2] at h
        | some c2 =>
          simp only [e2] at h
          cases e3 : getAngularDamping ext c2 with
          | none => simp [e3] at h
          | some d3 =>
            simp only [e3] at h
            cases e4 : setAngularDamping ext d3 c2 with
            | none => simp [e4] at h
            | some c4 =>
              simp only [e4, Option.some.injEq, Prod.mk.injEq] at h
              obtain ⟨-, rfl⟩ := h
              have s2 : hasFlag c2 Flag.IsSensor
                  = hasFlag (callAccessor ext (AccessorCall.setTimeFactor value) b)
                      Flag.IsSensor := by
                simp only [setLinearDamping, hne, Bool.false_eq_true, if_false] at e2
                exact sensor_callEntityAccessor ext hext _ _ _ e2
              have s4 : hasFlag c4 Flag.IsSensor = hasFlag c2 Flag.IsSensor := by
                simp only [setAngularDamping] at e4
                split_ifs at e4
                · cases e4
                  rfl
                · exact sensor_callEntityAccessor ext hext _ _ _ e4
              rw [s4, s2, sensor_callAccessor ext hext]
    · cases h
      exact sensor_callAccessor ext hext _ b

theorem sensor_x_0_motionFlags (b : RigidBody) :
    hasFlag (x_0_motionFlags b) Flag.IsSensor = hasFlag b Flag.IsSensor := by
  simp only [x_0_motionFlags]
  split_ifs
  · rfl
  · exact hasFlag_setMotionFlag _ _ _ (by decide)
  · rfl

theorem sensor_x_0 (ext : Extern) (hext : ext.KeepsFlags) (b b1 : RigidBody)
    (h : x_0 ext b = some b1) :
    hasFlag b1 Flag.IsSensor = hasFlag b Flag.IsSensor := by
  simp only [x_0] at h
  cases hacc : (lock false b).mMotionAccessor
  · simp only [hacc] at h
    cases h
    rw [hasFlag_unlock, sensor_x_0_motionFlags, hasFlag_lock]
  · simp only [hacc] at h
    cases e1 : setTimeFactor ext
        (if hasFlag (lock false b) Flag.UseSystemTimeFactor = true then ext.systemTimeFactor
          else F32.one) (lock false b) with
    | none => simp [e1] at h
    | some p1 =>
      obtain ⟨r1, c1⟩ := p1
      simp only [e1] at h
      have s1 := sensor_setTimeFactor ext hext _ _ _ _ e1
      rw [hasFlag_lock] at s1
      by_cases hs : isSensor c1 = true
      · rw [if_pos hs] at h
        cases hacc1 : c1.mMotionAccessor with
        | none => simp [hacc1] at h
        | some accessor =>
          simp only [hacc1] at h
          by_cases hk : accessor.kind = MotionAccessorKind.Sensor
          · rw [if_pos hk] at h
            by_cases h4 : ext.sensorHasFlag400000 c1 = true
            · rw [if_pos h4] at h
              cases h
              rw [hasFlag_unlock, s1]
            · rw [if_neg h4] at h
              cases h
              rw [hasFlag_unlock, sensor_x_0_motionFlags, s1]
          · rw [if_neg hk] at h
            cases h
      · rw [if_neg hs] at h
        cases h
        rw [hasFlag_unlock, sensor_x_0_motionFlags, s1]

theorem sensor_resetAccessorLinks (ext : Extern) (hext : ext.KeepsFlags) (b b1 : RigidBody)
    (r : Bool) (h : resetAccessorLinks ext b = some (r, b1)) :
    hasFlag b1 Flag.IsSensor = hasFlag b Flag.IsSensor := by
  simp only [resetAccessorLinks] at h
  by_cases hsen : isSensor b = true
  · rw [if_pos hsen] at h
    cases hs : getSensorMotionAccessor b with
    | none =>
      simp only [hs] at h
      cases h
      rfl
    | some accessor =>
      simp only [hs] at h
      by_cases hl : ext.hasLinkedRigidBody b = true
      · rw [if_pos hl] at h
        cases h
        simp only [resetLinkedRigidBody]
        cases hs2 : getSensorMotionAccessor (resetFlag Flag._20 b)
        · simp [hasFlag_resetFlag]
        · simp [sensor_callAccessor ext hext, hasFlag_resetFlag]
      · rw [if_neg hl] at h
        cases h
        rfl
  · rw [if_neg hsen] at h
    cases hacc : b.mMotionAccessor with
    | none =>
      simp only [hacc] at h
      cases h
      rfl
    | some accessor =>
      simp only [hacc] at h
      cases he : getEntityMotionAccessor b with
      | none => simp [he] at h
      | some entity_accessor =>
        simp only [he] at h
        by_cases h2 : ext.entityHasFlag2 b = true
        · rw [if_pos h2] at h
          cases h
          simp [sensor_callAccessor ext hext, hasFlag_resetFlag]
        · rw [if_neg h2] at h
          cases h
          rfl

theorem sensor_x_6 (ext : Extern) (hext : ext.KeepsFlags) (b b1 : RigidBody) (r : Bool)
    (h : x_6 ext b = some (r, b1)) :
    hasFlag b1 Flag.IsSensor = hasFlag b Flag.IsSensor := by
  have key : ∀ (res : Bool) (c : RigidBody),
      hasFlag c Flag.IsSensor = hasFlag b Flag.IsSensor →
      (match resetAccessorLinks ext c with
        | none => none
        | some (did_reset, c1) =>
          some (res && !did_reset, c1 |> setFlag Flag._20 |> setFlag Flag._4 |> unlock false))
        = some (r, b1) →
      hasFlag b1 Flag.IsSensor = hasFlag b Flag.IsSensor := by
    intro res c hc hm
    cases e : resetAccessorLinks ext c with
    | none => simp [e] at hm
    | some p =>
      obtain ⟨r1, c1⟩ := p
      simp only [e, Option.some.injEq, Prod.mk.injEq] at hm
      obtain ⟨-, rfl⟩ := hm
      rw [hasFlag_unlock, hasFlag_setFlag, hasFlag_setFlag,
        sensor_resetAccessorLinks ext hext _ _ _ e, hc]
      simp
  simp only [x_6] at h
  by_cases h8 : isFlag8Set (lock false b) = true
  · rw [if_pos h8] at h
    refine key _ _ ?_ h
    rw [hasFlag_setMotionFlag _ _ _ (by decide)]
    split_ifs <;> simp [hasFlag, setMotionFlagDirect, resetMotionFlagDirect, resetFlag,
      lock_mFlags]
  · rw [if_neg h8] at h
    by_cases hu : hasFlag (lock false b) Flag.UpdateRequested = true
    · rw [if_pos hu] at h
      refine key _ _ ?_ h
      simp [hasFlag, record, lock_mFlags]
    · rw [if_neg hu] at h
      refine key _ _ ?_ h
      simp [hasFlag, lock_mFlags]

theorem sensor_x_10 (ext : Extern) (hext : ext.KeepsFlags) (b b1 : RigidBody)
    (h : x_10 ext b = some b1) :
    hasFlag b1 Flag.IsSensor = hasFlag b Flag.IsSensor := by
  simp only [x_10] at h
  cases e : resetAccessorLinks ext (lock (isFlag8Set b) b) with
  | none => simp [e] at h
  | some p =>
    obtain ⟨r1, c1⟩ := p
    simp only [e, Option.some.injEq] at h
    subst h
    have hx := hext.x_8_hasFlag (setFlag Flag._4 (setFlag Flag._20 c1)) Flag.IsSensor
      (by decide)
    have hr : hasFlag (record Call.x_8 (ext.x_8 (setFlag Flag._4 (setFlag Flag._20 c1))))
        Flag.IsSensor = hasFlag (ext.x_8 (setFlag Flag._4 (setFlag Flag._20 c1)))
          Flag.IsSensor := rfl
    rw [hasFlag_unlock, hr, hx, hasFlag_setFlag, hasFlag_setFlag,
      sensor_resetAccessorLinks ext hext _ _ _ e, hasFlag_lock]
    simp

/-- C21: a body constructed with layer type `t` has `Flag::IsSensor` set iff `t` is Sensor,
so `getLayerType()` is `t`. When the collaborators missing from the source (the member
functions of the motion accessor and `x_8`) leave the attribute flags other than
`UpdateRequested` alone, none of `setMotionFlag`, `changeMotionType`, `freeze`, `setFixed`,
`setFixedAndPreserveImpulse`, `updateCollidableQualityType`, `clearFlag2000000`,
`clearFlag4000000`, `clearFlag8000000`, `updateMotionTypeRelatedFlags`,
`triggerScheduledMotionTypeChange`, `x_0`, `x_6`, `x_10` changes the `IsSensor` bit: the
total operations leave `isSensor()` as it was, and so does every call of the others that
returns (they stop only on a call through a null accessor). -/
theorem isSensor_invariant (ext : Extern) (hext : ext.KeepsFlags) (b : RigidBody) :
    (∀ (type : BodyType) (t : ContactLayerType) (hk_body : HkBody) (a7 : Bool),
        isSensor (construct ext type t hk_body a7) = (t == ContactLayerType.Sensor)
        ∧ getLayerType (construct ext type t hk_body a7) = t)
    ∧ (∀ flag, isSensor (setMotionFlag flag b) = isSensor b)
    ∧ (∀ T, isSensor (changeMotionType ext T b) = isSensor b)
    ∧ (∀ should_freeze preserve_velocities preserve_max_impulse b1,
        freeze ext should_freeze preserve_velocities preserve_max_impulse b = some b1 →
          isSensor b1 = isSensor b)
    ∧ (∀ fixed preserve_velocities b1,
        setFixed ext fixed preserve_velocities b = some b1 → isSensor b1 = isSensor b)
    ∧ (∀ fixed mark_linear_vel_as_dirty b1,
        setFixedAndPreserveImpulse ext fixed mark_linear_vel_as_dirty b = some b1 →
          isSensor b1 = isSensor b)
    ∧ (∀ high_quality, isSensor (updateCollidableQualityType high_quality b) = isSensor b)
    ∧ (∀ clear, isSensor (clearFlag2000000 clear b) = isSensor b)
    ∧ (∀ clear, isSensor (clearFlag4000000 clear b) = isSensor b)
    ∧ (∀ clear, isSensor (clearFlag8000000 clear b) = isSensor b)
    ∧ isSensor (updateMotionTypeRelatedFlags b) = isSensor b
    ∧ isSensor (triggerScheduledMotionTypeChange ext b) = isSensor b
    ∧ (∀ b1, x_0 ext b = some b1 → isSensor b1 = isSensor b)
    ∧ (∀ r b1, x_6 ext b = some (r, b1) → isSensor b1 = isSensor b)
    ∧ (∀ b1, x_10 ext b = some b1 → isSensor b1 = isSensor b) := by
  refine ⟨?_, ?_, ?_, ?_, ?_, ?_, ?_, ?_, ?_, ?_, ?_, ?_, ?_, ?_, ?_⟩
  · intro type t hk_body a7
    have hs : isSensor (construct ext type t hk_body a7) = (t == ContactLayerType.Sensor) := by
      have h := hasFlag_construct ext type t hk_body a7 Flag.IsSensor
      simpa [hasFlag, isSensor] using h
    refine ⟨hs, ?_⟩
    simp only [getLayerType, hs]
    cases t <;> rfl
  · exact fun flag => hasFlag_setMotionFlag flag Flag.IsSensor b (by decide)
  · exact fun T => changeMotionType_hasFlag ext T b Flag.IsSensor (by decide)
  · exact fun sf pv pmi b1 h => sensor_freeze ext hext sf pv pmi b b1 h
  · exact fun f pv b1 h => sensor_setFixed ext hext f pv b b1 h
  · exact fun f m b1 h => sensor_setFixedAndPreserveImpulse ext hext f m b b1 h
  · exact fun hq => sensor_updateCollidableQualityType hq b
  · exact fun clear => (sensor_clearFlag b clear).1
  · exact fun clear => (sensor_clearFlag b clear).2.1
  · exact fun clear => (sensor_clearFlag b clear).2.2
  · exact sensor_updateMotionTypeRelatedFlags b
  · exact sensor_triggerScheduledMotionTypeChange ext b
  · exact fun b1 h => sensor_x_0 ext hext b b1 h
  · exact fun r b1 h => sensor_x_6 ext hext b b1 r h
  · exact fun b1 h => sensor_x_10 ext hext b b1 h

/-- Witness for C21: on the Sensor body with a sensor accessor and a user tag, `x_0`,
`x_6`, `x_10`, `freeze` and `setFixed` return and the body is still a Sensor; a body
constructed as a Sensor is a Sensor. -/
theorem isSensor_invariant_witness :
    specExtern.KeepsFlags
    ∧ isSensor sensorWithUserTag = true
    ∧ (∃ b1, x_0 specExtern sensorWithUserTag = some b1 ∧ isSensor b1 = true)
    ∧ (∃ r b1, x_6 specExtern sensorWithUserTag = some (r, b1) ∧ isSensor b1 = true)
    ∧ (∃ b1, x_10 specExtern sensorWithUserTag = some b1 ∧ isSensor b1 = true)
    ∧ (∃ b1, freeze specExtern true false false sensorWithUserTag = some b1
        ∧ isSensor b1 = true)
    ∧ (∃ b1, setFixed specExtern true false sensorWithUserTag = some b1
        ∧ isSensor b1 = true)
    ∧ isSensor (construct specExtern BodyType._1 ContactLayerType.Sensor freshHkBody false)
        = true :=
  have h := isSensor_invariant specExtern specExtern_keepsFlags sensorWithUserTag
  have hs : isSensor sensorWithUserTag = true := by decide
  ⟨specExtern_keepsFlags, hs,
    ⟨_, rfl, (h.2.2.2.2.2.2.2.2.2.2.2.2.1 _ rfl).trans hs⟩,
    ⟨_, _, rfl, (h.2.2.2.2.2.2.2.2.2.2.2.2.2.1 _ _ rfl).trans hs⟩,
    ⟨_, rfl, (h.2.2.2.2.2.2.2.2.2.2.2.2.2.2 _ rfl).trans hs⟩,
    ⟨_, rfl, (h.2.2.2.1 true false false _ rfl).trans hs⟩,
    ⟨_, rfl, (h.2.2.2.2.1 true false _ rfl).trans hs⟩,
    (h.1 BodyType._1 ContactLayerType.Sensor freshHkBody false).1⟩

end RigidBody

end ksys.phys
